import Mathlib

/-!
Verification development for the paulmillr-qr QR codec.

The definitions below are a shallow embedding of the TypeScript source
(`index.ts` / `decode.ts`): JavaScript 32-bit unsigned words are modelled as
`Nat` with explicit `% 2 ^ 32` where the source coerces with `>>> 0`,
JavaScript arrays as `List Nat`, fallible code as `Except String`.
-/

set_option maxRecDepth 4000

/-- Coercion to an unsigned 32-bit value, mirroring the JS `>>> 0` coercion
and `Uint32Array` storage. -/
def u32 (n : Nat) : Nat := n % 2 ^ 32

/-- JS `ToUint32` applied to a (safe) integer. -/
def toUint32 (i : Int) : Nat := (i % 2 ^ 32).toNat

/-- `function popcnt(n)` from index.ts: SWAR population count of a 32-bit
word.  The final JS multiplication overflows past 32 bits and is truncated
by `>>> 24` after the implicit `ToUint32`, hence the explicit `u32`. -/
def popcnt32 (n0 : Nat) : Nat :=
  let n1 := u32 (n0 - ((n0 >>> 1) &&& 0x55555555))
  let n2 := (n1 &&& 0x33333333) + ((n1 >>> 2) &&& 0x33333333)
  (u32 (((n2 + (n2 >>> 4)) &&& 0x0f0f0f0f) * 0x01010101)) >>> 24

/-- Error-correction levels, `ECMode` in the source. -/
inductive ECLevel where
  | low | medium | quartile | high
deriving DecidableEq, Repr

/-- The four levels in the order of the source's `ECMode` array. -/
def ECModeList : List ECLevel := [.low, .medium, .quartile, .high]

/-- `info.ECCode`: the two-bit code of each error-correction level. -/
def ECCode : ECLevel → Nat
  | .low => 0b01
  | .medium => 0b00
  | .quartile => 0b11
  | .high => 0b10

/-- `info.formatMask`. -/
def formatMask : Nat := 0b101010000010010

/-- `info.formatBits(ecc, maskIdx)`: the 15-bit BCH-protected format word.
The ten-step loop is translated as a fold; the JS numbers stay far below
2^31 so plain `Nat` arithmetic is exact. -/
def formatBits (ecc : ECLevel) (maskIdx : Nat) : Nat :=
  let data := (ECCode ecc <<< 3) ||| maskIdx
  let d := (List.range 10).foldl
    (fun d _ => (d <<< 1) ^^^ ((d >>> 9) * 0b10100110111)) data
  ((data <<< 10) ||| d) ^^^ formatMask

/-- `info.versionBits(ver)`: the 18-bit BCH-protected version word. -/
def versionBits (ver : Nat) : Nat :=
  let d := (List.range 12).foldl
    (fun d _ => (d <<< 1) ^^^ ((d >>> 11) * 0b1111100100101)) ver
  (ver <<< 12) ||| d

/-- Number of bit positions among the low `n` in which `a` and `b` differ. -/
def bitDiff (a b n : Nat) : Nat :=
  ((List.range n).filter (fun i => a.testBit i != b.testBit i)).length

/-- `BYTES`: total codeword count per version 1..40. -/
def BYTES : List Nat :=
  [26, 44, 70, 100, 134, 172, 196, 242, 292, 346, 404, 466, 532, 581, 655,
   733, 815, 901, 991, 1085, 1156, 1258, 1364, 1474, 1588, 1706, 1828, 1921,
   2051, 2185, 2323, 2465, 2611, 2761, 2876, 3034, 3196, 3362, 3532, 3706]

/-- `WORDS_PER_BLOCK`: ECC codewords per block, per level and version. -/
def WORDS_PER_BLOCK : ECLevel → List Nat
  | .low =>
    [7, 10, 15, 20, 26, 18, 20, 24, 30, 18, 20, 24, 26, 30, 22, 24, 28, 30,
     28, 28, 28, 28, 30, 30, 26, 28, 30, 30, 30, 30, 30, 30, 30, 30, 30, 30,
     30, 30, 30, 30]
  | .medium =>
    [10, 16, 26, 18, 24, 16, 18, 22, 22, 26, 30, 22, 22, 24, 24, 28, 28, 26,
     26, 26, 26, 28, 28, 28, 28, 28, 28, 28, 28, 28, 28, 28, 28, 28, 28, 28,
     28, 28, 28, 28]
  | .quartile =>
    [13, 22, 18, 26, 18, 24, 18, 22, 20, 24, 28, 26, 24, 20, 30, 24, 28, 28,
     26, 30, 28, 30, 30, 30, 30, 28, 30, 30, 30, 30, 30, 30, 30, 30, 30, 30,
     30, 30, 30, 30]
  | .high =>
    [17, 28, 22, 16, 22, 28, 26, 26, 24, 28, 24, 28, 22, 24, 24, 30, 28, 28,
     26, 28, 30, 24, 30, 30, 30, 30, 30, 30, 30, 30, 30, 30, 30, 30, 30, 30,
     30, 30, 30, 30]

/-- `ECC_BLOCKS`: number of RS blocks, per level and version. -/
def ECC_BLOCKS : ECLevel → List Nat
  | .low =>
    [1, 1, 1, 1, 1, 2, 2, 2, 2, 4, 4, 4, 4, 4, 6, 6, 6, 6, 7, 8, 8, 9, 9,
     10, 12, 12, 12, 13, 14, 15, 16, 17, 18, 19, 19, 20, 21, 22, 24, 25]
  | .medium =>
    [1, 1, 1, 2, 2, 4, 4, 4, 5, 5, 5, 8, 9, 9, 10, 10, 11, 13, 14, 16, 17,
     17, 18, 20, 21, 23, 25, 26, 28, 29, 31, 33, 35, 37, 38, 40, 43, 45, 47,
     49]
  | .quartile =>
    [1, 1, 2, 2, 4, 4, 6, 6, 8, 8, 8, 10, 12, 16, 12, 17, 16, 18, 21, 20,
     23, 23, 25, 27, 29, 34, 34, 35, 38, 40, 43, 45, 48, 51, 53, 56, 59, 62,
     65, 68]
  | .high =>
    [1, 1, 2, 4, 4, 4, 5, 6, 8, 8, 11, 11, 16, 16, 18, 16, 19, 21, 25, 25,
     25, 34, 30, 32, 35, 37, 40, 42, 45, 48, 51, 54, 57, 60, 63, 66, 70, 74,
     77, 81]

/-- Result record of `info.capacity(ver, ecc)`. -/
structure QRCapacity where
  words : Nat
  numBlocks : Nat
  shortBlocks : Nat
  blockLen : Nat
  capacity : Nat
  total : Nat
deriving DecidableEq, Repr

/-- `info.capacity(ver, ecc)`.  All intermediate JS values are nonnegative
integers on the table domain, so `Nat` subtraction and floor division agree
with the JS arithmetic (theorem `capacity_consistent` re-checks the
relations that would break were this not so). -/
def capacity (ver : Nat) (ecc : ECLevel) : QRCapacity :=
  let bytes := BYTES.getD (ver - 1) 0
  let words := (WORDS_PER_BLOCK ecc).getD (ver - 1) 0
  let numBlocks := (ECC_BLOCKS ecc).getD (ver - 1) 0
  let blockLen := bytes / numBlocks - words
  let shortBlocks := numBlocks - bytes % numBlocks
  { words := words, numBlocks := numBlocks, shortBlocks := shortBlocks,
    blockLen := blockLen,
    capacity := (bytes - words * numBlocks) * 8,
    total := (words + blockLen) * numBlocks + numBlocks - shortBlocks }

/-! ## Bitmap: the bit-packed two-color matrix

The source stores a bitmap as two `Uint32Array` bit planes (`value` and
`defined`), `⌈W/32⌉` words per row.  We model the planes as `List Nat` whose
entries are 32-bit words.  JS typed-array reads outside the array yield
`undefined`, which the source's bitwise operations coerce to 0; `tGet`
mirrors that.  JS typed-array writes outside the array are dropped, which
`List.set` mirrors. -/

/-- JS `mod(a, b)` from index.ts: remainder normalised into `[0, b)`.  All
reachable call sites have `b > 0` (for `b = 0` the JS code would produce
`NaN` coordinates and loops over zero-sized areas would still do nothing;
we return 0, which likewise leads to the zero-sized no-op). -/
def jsMod (a : Int) (b : Nat) : Nat :=
  if b = 0 then 0 else (a % (b : Int)).toNat

/-- Read of a JS typed array at a possibly out-of-range (even negative)
index: out-of-range reads give `undefined`, which `&`/`|` coerce to 0. -/
def tGet (l : List Nat) (i : Int) : Nat :=
  if 0 ≤ i ∧ i < l.length then l.getD i.toNat 0 else 0

/-- `bitMask(x) = (1 << (x & 31)) >>> 0` on a JS number `x`. -/
def bitMask (x : Int) : Nat := 1 <<< (toUint32 x % 32)

/-- `rangeMask(shift, len)` from index.ts. -/
def rangeMask (shift len : Nat) : Nat :=
  if len = 0 then 0
  else if len = 32 then 0xffffffff
  else u32 (((1 <<< len) - 1) <<< shift)

/-- The two bit planes of the source's `Bitmap` class plus its dimensions.
`words`, `fullWords` and `tailMask` are stored by the JS constructor but are
pure functions of `width`; we define them as such below. -/
structure Bitmap where
  height : Nat
  width : Nat
  value : List Nat
  defined : List Nat
deriving DecidableEq, Repr

namespace Bitmap

/-- `this.words = Math.ceil(width / 32)`. -/
def words (b : Bitmap) : Nat := (b.width + 31) / 32

/-- `this.fullWords = Math.floor(width / 32)`. -/
def fullWords (b : Bitmap) : Nat := b.width / 32

/-- `width & 31 || 32`: the number of used bits in the last word of a row. -/
def tailBits (w : Nat) : Nat := if w % 32 = 0 then 32 else w % 32

/-- `this.tailMask = rangeMask(0, width & 31 || 32)`. -/
def tailMask (b : Bitmap) : Nat := rangeMask 0 (tailBits b.width)

/-- `new Bitmap(size)`: both planes all zero (every cell unset). -/
def make (height width : Nat) : Bitmap :=
  ⟨height, width, List.replicate ((width + 31) / 32 * height) 0,
    List.replicate ((width + 31) / 32 * height) 0⟩

/-- `this.wordIndex(x, y) = y * this.words + (x >>> 5)` on JS numbers. -/
def wordIndexI (b : Bitmap) (x y : Int) : Int :=
  y * (b.words : Int) + ((toUint32 x >>> 5 : Nat) : Int)

/-- `isDefined(x, y)`: unchecked probe of the defined plane. -/
def isDefined (b : Bitmap) (x y : Int) : Bool :=
  (tGet b.defined (b.wordIndexI x y) &&& bitMask x) != 0

/-- `get(x, y)`: unchecked probe of the value plane. -/
def get (b : Bitmap) (x y : Int) : Bool :=
  (tGet b.value (b.wordIndexI x y) &&& bitMask x) != 0

/-- `this.maskWord(wi, mask, v)`: `defined[wi] |= mask;
value[wi] = (value[wi] & ~mask) | (-v & mask)` (all results stored as u32). -/
def maskWord (b : Bitmap) (wi mask : Nat) (v : Bool) : Bitmap :=
  { b with
    defined := b.defined.set wi (b.defined.getD wi 0 ||| mask)
    value := b.value.set wi ((b.value.getD wi 0 &&& (0xffffffff ^^^ mask)) |||
      ((if v then 0xffffffff else 0) &&& mask)) }

/-- `set(x, y, v)`.  Every call site passes nonnegative in-range
coordinates, for which `x >>> 5 = x / 32` and `x & 31 = x % 32`. -/
def set (b : Bitmap) (x y : Nat) (v : Option Bool) : Bitmap :=
  match v with
  | none => b
  | some v => b.maskWord (y * b.words + (x >>> 5)) (1 <<< (x % 32)) v

/-- `this.xy(c)`: wrap both coordinates modulo the dimensions. -/
def xy (b : Bitmap) (x y : Int) : Nat × Nat := (jsMod x b.width, jsMod y b.height)

/-- One component of `Bitmap.size(size, limit)`: `Infinity` (`none`) or a
requested extent, clamped by the available extent. -/
def sizeClamp (s : Option Nat) (limit : Nat) : Nat :=
  match s with
  | none => limit
  | some v => min v limit

/-- `fillRectConst(x0, y0, w, h, v)`: word-span fill for constant values. -/
def fillRectConst (b : Bitmap) (x0 y0 w h : Nat) (v : Option Bool) : Bitmap :=
  if w = 0 ∨ h = 0 then b else
  match v with
  | none => b
  | some v =>
    (List.range h).foldl (fun b ry =>
      let rowBase := (y0 + ry) * b.words
      let startWord := x0 >>> 5
      let endWord := (x0 + w - 1) >>> 5
      let startBit := x0 % 32
      let endBit := (x0 + w - 1) % 32
      if startWord = endWord then
        b.maskWord (rowBase + startWord) (rangeMask startBit (endBit - startBit + 1)) v
      else
        let b1 := b.maskWord (rowBase + startWord) (rangeMask startBit (32 - startBit)) v
        let b2 := (List.range (endWord - (startWord + 1))).foldl (fun b k =>
          { b with
            defined := b.defined.set (rowBase + startWord + 1 + k) 0xffffffff
            value := b.value.set (rowBase + startWord + 1 + k)
              (if v then 0xffffffff else 0) }) b1
        b2.maskWord (rowBase + endWord) (rangeMask 0 (endBit + 1)) v) b

/-- Word-aligned chunks of one row of a `w`-cell-wide rectangle starting at
absolute column `x`: the `(xPos, bitsPerWord)` pairs enumerated by the inner
loop of `rectWords`. -/
def rowChunksGo (x w : Nat) : Nat → Nat → List (Nat × Nat)
  | 0, _ => []
  | fuel + 1, xPos =>
    if xPos < w then
      let bit := (x + xPos) % 32
      let n := min (32 - bit) (w - xPos)
      (xPos, n) :: rowChunksGo x w fuel (xPos + n)
    else []

/-- All chunks of one row.  Each loop step advances `xPos` by at least one,
so `w` steps of fuel are enough; `rowChunksGo` is the loop with an explicit
structural fuel so that it evaluates by kernel reduction. -/
def rowChunks (x w : Nat) : List (Nat × Nat) := rowChunksGo x w w 0

/-- `rect` with a callback: the `rectWords` traversal of the source, with
the per-word `defWord`/`valWord` accumulation of the callback branch of
`rect`.  The callback receives rectangle-relative coordinates and the
current value bit (reflecting earlier writes of the same word, as in the
source, where `valWord` is a local accumulator). -/
def rectFnRaw (b : Bitmap) (x y w h : Nat)
    (f : Nat × Nat → Bool → Option Bool) : Bitmap :=
  (List.range h).foldl (fun b yPos =>
    (rowChunks x w).foldl (fun b ch =>
      let bitX := x + ch.1
      let wi := (y + yPos) * b.words + (bitX >>> 5)
      let dv := (List.range ch.2).foldl (fun (dw : Nat × Nat) bo =>
        let mask := 1 <<< ((bitX + bo) % 32)
        match f (ch.1 + bo, yPos) ((dw.2 &&& mask) != 0) with
        | none => dw
        | some res =>
          (dw.1 ||| mask,
           (dw.2 &&& (0xffffffff ^^^ mask)) |||
             ((if res then 0xffffffff else 0) &&& mask))) (0, b.value.getD wi 0)
      { b with
        defined := b.defined.set wi (b.defined.getD wi 0 ||| dv.1)
        value := b.value.set wi dv.2 }) b) b

/-- The per-word value computed by one chunk iteration of `rectFnRaw` for a
callback of the shape `fun p _ => some (g p)`: iterator `it = (yPos, ch)`,
starting from accumulated `(0, v)` where `v` is the current word.  Used to
state the effect of `rect` on a fresh bitmap. -/
def innerV (g : Nat × Nat → Bool) (it : Nat × (Nat × Nat)) (v : Nat) : Nat :=
  ((List.range it.2.2).foldl (fun (dw : Nat × Nat) bo =>
    (dw.1 ||| (1 <<< ((it.2.1 + bo) % 32)),
     (dw.2 &&& (0xffffffff ^^^ (1 <<< ((it.2.1 + bo) % 32)))) |||
       ((if g (it.2.1 + bo, it.1) then 0xffffffff else 0) &&&
         (1 <<< ((it.2.1 + bo) % 32))))) (0, v)).2

/-- The per-word defined-plane update of the same chunk iteration. -/
def innerD (g : Nat × Nat → Bool) (it : Nat × (Nat × Nat)) (d : Nat) : Nat :=
  d ||| ((List.range it.2.2).foldl (fun (dw : Nat × Nat) bo =>
    (dw.1 ||| (1 <<< ((it.2.1 + bo) % 32)),
     (dw.2 &&& (0xffffffff ^^^ (1 <<< ((it.2.1 + bo) % 32)))) |||
       ((if g (it.2.1 + bo, it.1) then 0xffffffff else 0) &&&
         (1 <<< ((it.2.1 + bo) % 32))))) (0, 0)).1

/-- The `DrawFn` argument of `rect`: a constant cell value or a callback. -/
inductive DrawArg where
  | val : Option Bool → DrawArg
  | fn : (Nat × Nat → Bool → Option Bool) → DrawArg

/-- `rect(c, size, fn)`: normalise the origin, clamp the size, and dispatch
to the constant fast path or the callback path. -/
def rect (b : Bitmap) (cx cy : Int) (sh sw : Option Nat) (arg : DrawArg) : Bitmap :=
  let p := b.xy cx cy
  let h := sizeClamp sh (b.height - p.2)
  let w := sizeClamp sw (b.width - p.1)
  match arg with
  | .val v => b.fillRectConst p.1 p.2 w h v
  | .fn f => b.rectFnRaw p.1 p.2 w h f

/-- `hLine(c, len, value)`. -/
def hLine (b : Bitmap) (cx cy : Int) (len : Option Nat) (arg : DrawArg) : Bitmap :=
  b.rect cx cy (some 1) len arg

/-- `vLine(c, len, value)`. -/
def vLine (b : Bitmap) (cx cy : Int) (len : Option Nat) (arg : DrawArg) : Bitmap :=
  b.rect cx cy len (some 1) arg

/-- `rectRead(c, size, fn)` as the list of `(relative point, value bit)`
pairs passed to the callback, in traversal order. -/
def rectReadList (b : Bitmap) (cx cy : Int) (sh sw : Option Nat) :
    List ((Nat × Nat) × Bool) :=
  let p := b.xy cx cy
  let h := sizeClamp sh (b.height - p.2)
  let w := sizeClamp sw (b.width - p.1)
  (List.range h).flatMap (fun yPos =>
    (rowChunks p.1 w).flatMap (fun ch =>
      let bitX := p.1 + ch.1
      let wi := (p.2 + yPos) * b.words + (bitX >>> 5)
      let valWord := b.value.getD wi 0
      (List.range ch.2).map (fun bo =>
        ((ch.1 + bo, yPos), (valWord &&& (1 <<< ((bitX + bo) % 32))) != 0))))

/-- Inner loop of `embed` for one destination row: advance through the
destination words covered by the copied span. -/
def embedRowGo (dst src : Bitmap) (x y yPos width : Nat) :
    Nat → Nat → Bitmap
  | 0, _ => dst
  | fuel + 1, xPos =>
    if xPos < width then
    let dstX := x + xPos
    let dstWord := (y + yPos) * dst.words + (dstX >>> 5)
    let dstBit := dstX % 32
    let srcRow := yPos * src.words
    let srcWord := srcRow + (xPos >>> 5)
    let srcBit := xPos % 32
    let len := min (32 - dstBit) (width - xPos)
    let w0 := src.value.getD srcWord 0
    let w1 := if srcBit ≠ 0 ∧ srcWord + 1 < srcRow + src.words
      then src.value.getD (srcWord + 1) 0 else 0
    let sVal := if srcBit ≠ 0 then u32 ((w0 >>> srcBit) ||| (w1 <<< (32 - srcBit))) else w0
    let dstMask := rangeMask dstBit len
    let valBits := u32 ((sVal &&& rangeMask 0 len) <<< dstBit)
    let dst' := { dst with
      defined := dst.defined.set dstWord (dst.defined.getD dstWord 0 ||| dstMask)
      value := dst.value.set dstWord
        ((dst.value.getD dstWord 0 &&& (0xffffffff ^^^ dstMask)) ||| valBits) }
    embedRowGo dst' src x y yPos width fuel (xPos + len)
    else dst

/-- `embed(c, src)`: copy `src` into `self` at the wrapped origin `c`,
clamped to the available area.  Each inner-loop step advances `xPos` by at
least one, so `w` steps of fuel suffice. -/
def embed (b : Bitmap) (cx cy : Int) (src : Bitmap) : Bitmap :=
  let p := b.xy cx cy
  let h := min src.height (b.height - p.2)
  let w := min src.width (b.width - p.1)
  if w = 0 ∨ h = 0 then b
  else (List.range h).foldl (fun b yPos => embedRowGo b src p.1 p.2 yPos w w 0) b

/-- `border(border, value)`: fill a larger bitmap with the border value and
embed the original at offset `(border, border)`. -/
def border (b : Bitmap) (bw : Nat) (v : Option Bool) : Bitmap :=
  let out := make (b.height + 2 * bw) (b.width + 2 * bw)
  let out := out.rect 0 0 none none (.val v)
  out.embed (bw : Int) (bw : Int) b

/-- `rectSlice(c, size)`: a fresh bitmap receiving, via `set`, exactly the
source cells that are defined. -/
def rectSlice (b : Bitmap) (cx cy : Int) (sh sw : Option Nat) : Bitmap :=
  let p := b.xy cx cy
  let h := sizeClamp sh (b.height - p.2)
  let w := sizeClamp sw (b.width - p.1)
  (b.rectReadList cx cy sh sw).foldl (fun r pc =>
    if b.isDefined ((p.1 + pc.1.1 : Nat) : Int) ((p.2 + pc.1.2 : Nat) : Int) then
      r.set pc.1.1 pc.1.2 (some pc.2)
    else r) (make h w)

/-! ### transpose -/

/-- The five shuffle masks of `transpose32`. -/
def masks32 : List Nat := [0x55555555, 0x33333333, 0x0f0f0f0f, 0x00ff00ff, 0x0000ffff]

/-- One stage of the in-place 32x32 bit transpose.  The source updates the
pair `(i0, i1 = i0 + s)` (with bit `stage` of `i0` clear) in place; since
each pair only reads and writes its own two entries, the loop is the
following per-index function of the pre-stage array.  The 32-entry
`Uint32Array` is modelled as a function on `Nat`; only indices below 32 are
ever applied. -/
def stage32 (st : Nat) (a : Nat → Nat) : Nat → Nat := fun i =>
  let m := masks32.getD st 0
  let s := 1 <<< st
  if i.testBit st = false then
    let x := a i
    let y := a (i + s)
    let t := ((x >>> s) ^^^ y) &&& m
    u32 (x ^^^ (t <<< s))
  else
    let x := a (i - s)
    let y := a i
    let t := ((x >>> s) ^^^ y) &&& m
    u32 (y ^^^ t)

/-- `transpose32(a)`: the five stages in order. -/
def transpose32 (a : Nat → Nat) : Nat → Nat :=
  (List.range 5).foldl (fun a st => stage32 st a) a

/-- Index `u` with bit `st` replaced by bit `st` of `v`: the index action
of one `transpose32` stage (`31 ^ (1 << st)` clears bit `st` on indices
below 32). -/
def blendBit (st u v : Nat) : Nat :=
  if v.testBit st then u ||| (1 <<< st) else u &&& (31 ^^^ (1 <<< st))

/-- Iterated index action of a list of stages. -/
def blendSeq : List Nat → Nat → Nat → Nat
  | [], u, _ => u
  | st :: rest, u, v => blendSeq rest (blendBit st u v) (blendBit st v u)

/-- The 32-row slice of the `value` plane fed into `transpose32` for the
block at rows `32 * byk ..` and word column `bx` (zero-padded below
`height`), i.e. the `tmpV` buffer of `Bitmap.transpose`. -/
def blockV (bm : Bitmap) (byk bx : Nat) : Nat → Nat := fun r =>
  if r < min 32 (bm.height - 32 * byk)
  then bm.value.getD ((32 * byk + r) * bm.words + bx) 0 else 0

/-- Same for the `defined` plane (the `tmpD` buffer). -/
def blockD (bm : Bitmap) (byk bx : Nat) : Nat → Nat := fun r =>
  if r < min 32 (bm.height - 32 * byk)
  then bm.defined.getD ((32 * byk + r) * bm.words + bx) 0 else 0

/-- The destination-word writes `(dstPos, value word, defined word)`
performed by `Bitmap.transpose`, in loop order.  The `break` on
`dstY >= width` is modelled by the filter: once the condition fails for
some `i` it fails for all larger `i`. -/
def transposeWrites (bm : Bitmap) : List (Nat × Nat × Nat) :=
  let stride := (bm.height + 31) / 32
  (List.range stride).flatMap fun byk =>
    (List.range bm.words).flatMap fun bx =>
      let tV := transpose32 (blockV bm byk bx)
      let tD := transpose32 (blockD bm byk bx)
      (List.range 32).filterMap fun i =>
        if bx * 32 + i < bm.width then
          let dstPos := (bx * 32 + i) * stride + byk
          let curMask := if byk = stride - 1 then rangeMask 0 (tailBits bm.height)
            else 0xffffffff
          some (dstPos, tV i &&& curMask, tD i &&& curMask)
        else none

/-- `transpose()`: a fresh `width x height` bitmap receiving the transposed
block words. -/
def transpose (bm : Bitmap) : Bitmap :=
  (transposeWrites bm).foldl (fun d w =>
    { d with value := d.value.set w.1 w.2.1, defined := d.defined.set w.1 w.2.2 })
    (make bm.width bm.height)

/-- `scale(factor)`: reject non-(safe integers) and factors above 1024,
otherwise draw every destination cell from the corresponding source cell.
Negative JS factors are not representable here; the check below covers the
nonnegative integers, on which the source check accepts every `f ≤ 1024`
including 0. -/
def scale (b : Bitmap) (factor : Nat) : Except String Bitmap :=
  if ¬(factor ≤ 2 ^ 53 - 1) ∨ factor > 1024 then .error "invalid scale factor"
  else .ok ((make (factor * b.height) (factor * b.width)).rect 0 0 none none
    (.fn fun p _ => some (b.get ((p.1 / factor : Nat) : Int) ((p.2 / factor : Nat) : Int))))

/-- `getRuns(y, fn)`: the `(length, value)` pairs of maximal constant runs
in row `y`, in emission order. -/
def getRuns (b : Bitmap) (y : Nat) : List (Nat × Bool) :=
  if b.width = 0 then [] else
  let st := (List.range b.words).foldl (fun (st : Nat × Option Bool × List (Nat × Bool)) i =>
    let word := b.value.getD (y * b.words + i) 0
    (List.range (if i = b.words - 1 then tailBits b.width else 32)).foldl
      (fun (st : Nat × Option Bool × List (Nat × Bool)) bo =>
        let bit := (word &&& (1 <<< bo)) != 0
        match st.2.1 with
        | some rv =>
          if bit = rv then (st.1 + 1, some rv, st.2.2)
          else (1, some bit, st.2.2 ++ [(st.1, rv)])
        | none => (1, some bit, st.2.2)) st) (0, none, [])
  match st.2.1 with
  | some rv => st.2.2 ++ [(st.1, rv)]
  | none => st.2.2

/-- `countPatternInRow(y, patternLen, ...patterns)`.  The only call site
passes `patternLen = 11`, for which the source's `0 < patternLen < 32`
guard passes; the guard is omitted here. -/
def countPatternInRow (b : Bitmap) (y patternLen : Nat) (patterns : List Nat) : Nat :=
  let mask := (1 <<< patternLen) - 1
  ((List.range b.words).foldl (fun (st : Nat × Nat) i =>
    let w := b.value.getD (y * b.words + i) 0
    (List.range (if i = b.words - 1 then tailBits b.width else 32)).foldl
      (fun (st : Nat × Nat) bo =>
        let window := ((st.2 <<< 1) ||| ((w >>> bo) &&& 1)) &&& mask
        if i * 32 + bo + 1 < patternLen then (st.1, window)
        else if patterns.any (· == window) then (st.1 + 1, window)
        else (st.1, window)) st) (0, 0)).1

/-- `countBoxes2x2(y)`: bit-parallel count of monochrome 2x2 boxes whose
top-left corner is in row `y`. -/
def countBoxes2x2 (b : Bitmap) (y : Nat) : Nat :=
  if b.width < 2 ∨ y + 1 ≥ b.height then 0 else
  let base0 := y * b.words
  let base1 := (y + 1) * b.words
  let validLast := if b.width % 32 = 0 then 0x7fffffff
    else rangeMask 0 ((b.width - 1) % 32)
  (List.range b.words).foldl (fun boxes wi =>
    let a0 := b.value.getD (base0 + wi) 0
    let a1 := b.value.getD (base1 + wi) 0
    let eqV := 0xffffffff ^^^ u32 (a0 ^^^ a1)
    let n0 := if wi + 1 < b.words then b.value.getD (base0 + wi + 1) 0 else 0
    let eqH0 := 0xffffffff ^^^ u32 (a0 ^^^ u32 ((a0 >>> 1) ||| ((n0 &&& 1) <<< 31)))
    let n1 := if wi + 1 < b.words then b.value.getD (base1 + wi + 1) 0 else 0
    let eqH1 := 0xffffffff ^^^ u32 (a1 ^^^ u32 ((a1 >>> 1) ||| ((n1 &&& 1) <<< 31)))
    let m0 := eqV &&& eqH0 &&& eqH1
    let m := if wi = b.words - 1 then m0 &&& validLast else m0
    boxes + popcnt32 m) 0

/-- `popcnt()`: number of dark cells, tail-masked per row. -/
def popcntBM (b : Bitmap) : Nat :=
  if b.height = 0 ∨ b.width = 0 then 0 else
  (List.range b.height).foldl (fun count y =>
    let rowBase := y * b.words
    let c := (List.range b.fullWords).foldl
      (fun c wi => c + popcnt32 (b.value.getD (rowBase + wi) 0)) count
    if b.words ≠ b.fullWords
    then c + popcnt32 (b.value.getD (rowBase + b.fullWords) 0 &&& b.tailMask)
    else c) 0

/-- `u16le(i)`. -/
def u16le (i : Nat) : List Nat := [i % 256, (i >>> 8) % 256]

/-- The row-major pixel list built by `toGIF` via `rectRead(0, Infinity)`:
1 for a dark cell, 0 otherwise. -/
def gifPixels (b : Bitmap) : List Nat :=
  (b.rectReadList 0 0 none none).map (fun pc => if pc.2 then 1 else 0)

/-- `toGIF()`: uncompressed GIF87a byte stream. -/
def toGIF (b : Bitmap) : List Nat :=
  let dims := u16le b.width ++ u16le b.height
  let data := gifPixels b
  let N := 126
  let header := [0x47, 0x49, 0x46, 0x38, 0x37, 0x61] ++ dims ++
    [0xf6, 0x00, 0x00, 0xff, 0xff, 0xff] ++ List.replicate (3 * 127) 0x00 ++
    [0x2c, 0x00, 0x00, 0x00, 0x00] ++ dims ++ [0x00, 0x07]
  let blocks := (List.range (data.length / N)).flatMap
    (fun i => (N + 1) :: 0x80 :: ((data.drop (N * i)).take N))
  let rem := (data.length % N + 1) :: 0x80 :: data.drop (data.length / N * N)
  header ++ blocks ++ rem ++ [0x01, 0x81, 0x00, 0x3b]

/-! ### Specification-side GIF layout (from the words of the spec, for the
refinement proof about `toGIF`) -/

/-- A global color table with the given number of entries: entry 0 is white
`FF FF FF`, the remaining entries are `00`. -/
def gifColorTable (entries : Nat) : List Nat :=
  [0xff, 0xff, 0xff] ++ List.replicate (3 * (entries - 1)) 0x00

/-- Row-major pixel bytes, one byte per pixel: 1 for a dark cell, 0
otherwise. -/
def gifPixelsRowMajor (b : Bitmap) : List Nat :=
  (List.range b.height).flatMap fun y =>
    (List.range b.width).map fun (x : Nat) =>
      if b.get (x : Int) (y : Int) then 1 else 0

/-- Pixel data split into sub-blocks of at most 126 literal bytes, each
prefixed by the two bytes `count+1` and `0x80`; the final (possibly empty)
remainder block is always emitted. -/
def gifSubBlocksGo : Nat → List Nat → List Nat
  | 0, l => (l.length + 1) :: 0x80 :: l
  | fuel + 1, l =>
    if 126 ≤ l.length then
      127 :: 0x80 :: (l.take 126 ++ gifSubBlocksGo fuel (l.drop 126))
    else
      (l.length + 1) :: 0x80 :: l

/-- Pixel-data splitting entry point: `l.length` steps of fuel suffice
since each full block consumes 126 bytes. -/
def gifSubBlocks (l : List Nat) : List Nat := gifSubBlocksGo l.length l

/-- The GIF87a byte stream as described by the specification, with a
parameterized color-table entry count: header, little-endian logical
screen size, packed byte `0xF6`, background `0x00`, aspect `0x00`, global
color table, image descriptor, LZW minimum-code-size `0x07`, sub-blocked
pixel data, the final `0x01 0x81`, the `0x00` block terminator and the
`0x3B` trailer. -/
def gifSpec (b : Bitmap) (entries : Nat) : List Nat :=
  [0x47, 0x49, 0x46, 0x38, 0x37, 0x61] ++ u16le b.width ++ u16le b.height ++
    [0xf6, 0x00, 0x00] ++ gifColorTable entries ++
    [0x2c, 0x00, 0x00, 0x00, 0x00] ++ u16le b.width ++ u16le b.height ++
    [0x00, 0x07] ++ gifSubBlocks (gifPixelsRowMajor b) ++ [0x01, 0x81, 0x00, 0x3b]

end Bitmap

/-! ## Segment encoding, Galois field, Reed–Solomon and interleaving
(encoder side), for the capacity-overflow and version-selection claim -/

/-- Decidable equality for `Except` values, used to state and evaluate
concrete encoder results. -/
instance exceptDecEq {ε α : Type} [DecidableEq ε] [DecidableEq α] :
    DecidableEq (Except ε α) := fun a b =>
  match a, b with
  | .error e1, .error e2 =>
    match decEq e1 e2 with
    | isTrue h => isTrue (h ▸ rfl)
    | isFalse h => isFalse (fun hx => h (Except.error.inj hx))
  | .error _, .ok _ => isFalse (fun hx => Except.noConfusion hx)
  | .ok _, .error _ => isFalse (fun hx => Except.noConfusion hx)
  | .ok a1, .ok a2 =>
    match decEq a1 a2 with
    | isTrue h => isTrue (h ▸ rfl)
    | isFalse h => isFalse (fun hx => h (Except.ok.inj hx))

/-- The five `EncodingType` values of the source. -/
inductive EncodingType where
  | numeric | alphanumeric | byte | kanji | eci
deriving DecidableEq, Repr

/-- `'0123456789'`, the numeric alphabet. -/
def numericAlphabet : List Char :=
  ['0', '1', '2', '3', '4', '5', '6', '7', '8', '9']

/-- `'0123456789ABCDEFGHIJKLMNOPQRSTUVWXYZ $%*+-./:'`, the alphanumeric
alphabet (the source spells the field `alphanumerc`). -/
def alphanumericAlphabet : List Char :=
  ['0', '1', '2', '3', '4', '5', '6', '7', '8', '9',
   'A', 'B', 'C', 'D', 'E', 'F', 'G', 'H', 'I', 'J', 'K', 'L', 'M',
   'N', 'O', 'P', 'Q', 'R', 'S', 'T', 'U', 'V', 'W', 'X', 'Y', 'Z',
   ' ', '$', '%', '*', '+', '-', '.', '/', ':']

/-- `alphabet.indexOf(letter)` scanning from position `i`: `none` models the
JS result `-1`. -/
def indexOfGo : List Char → Char → Nat → Option Nat
  | [], _, _ => none
  | c :: rest, ch, i => if c = ch then some i else indexOfGo rest ch (i + 1)

/-- `alphabet(...).has(char)`. -/
def hasChar (alpha : List Char) (c : Char) : Bool := (indexOfGo alpha c 0).isSome

/-- `alphabet(...).decode`: each letter to its index, failing on the first
unknown letter. -/
def alphaDecode (alpha : List Char) : List Char → Except String (List Nat)
  | [] => .ok []
  | ch :: rest =>
    match indexOfGo alpha ch 0 with
    | none => .error "Unknown letter"
    | some i =>
      match alphaDecode alpha rest with
      | .error e => .error e
      | .ok t => .ok (i :: t)

/-- Number of binary digits of `dec.toString(2)` (at least one), with
structural fuel: each step halves `n`, so `n` steps suffice. -/
def bitLenGo : Nat → Nat → Nat
  | 0, _ => 0
  | fuel + 1, n => if n = 0 then 0 else bitLenGo fuel (n / 2) + 1

/-- `dec.toString(2).length`. -/
def binLen (n : Nat) : Nat := max 1 (bitLenGo n n)

/-- `bin(dec, pad) = dec.toString(2).padStart(pad, '0')` as a list of bits,
most significant first.  When `dec` needs more than `pad` digits the result
is longer than `pad`, exactly as in JS. -/
def bin (dec pad : Nat) : List Bool :=
  (List.range (max pad (binLen dec))).map
    (fun i => dec.testBit (max pad (binLen dec) - 1 - i))

/-- The numeric payload: triples of digits as 10 bits, then a final single
digit as 4 bits or a final pair as 7 bits (the loop
`for (i = 0; i < n - 2; i += 3)` and its two tail cases). -/
def numericBits : List Nat → List Bool
  | a :: b :: c :: rest => bin (a * 100 + b * 10 + c) 10 ++ numericBits rest
  | [a, b] => bin (a * 10 + b) 7
  | [a] => bin a 4
  | [] => []

/-- The alphanumeric payload: pairs as 11 bits (`t[i]*45 + t[i+1]`), an odd
final character as 6 bits. -/
def alphanumericBits : List Nat → List Bool
  | a :: b :: rest => bin (a * 45 + b) 11 ++ alphanumericBits rest
  | [a] => bin a 6
  | [] => []

/-- `info.modeBits`. -/
def modeBits : EncodingType → List Bool
  | .numeric => [false, false, false, true]
  | .alphanumeric => [false, false, true, false]
  | .byte => [false, true, false, false]
  | .kanji => [true, false, false, false]
  | .eci => [false, true, true, true]

/-- `info.sizeType(ver) = Math.floor((ver + 7) / 17)`. -/
def sizeType (ver : Nat) : Nat := (ver + 7) / 17

/-- `info.lengthBits(ver, type)`. -/
def lengthBits (ver : Nat) (ty : EncodingType) : Nat :=
  (match ty with
    | .numeric => [10, 12, 14]
    | .alphanumeric => [9, 11, 13]
    | .byte => [8, 16, 16]
    | .kanji => [8, 10, 12]
    | .eci => [0, 0, 0]).getD (sizeType ver) 0

/-- The GF(256) `exp`/`log` tables and the running value `x` of the
source's generator loop (primitive polynomial `0x11d`). -/
def GFexpLog : List Nat × List Nat × Nat :=
  (List.range 256).foldl (fun (st : List Nat × List Nat × Nat) i =>
    let x := st.2.2
    let exp := st.1.set i x
    let log := st.2.1.set x i
    let x2 := x <<< 1
    (exp, log, if x2 &&& 0x100 ≠ 0 then x2 ^^^ 0x11d else x2))
    (List.replicate 256 0, List.replicate 256 0, 1)

/-- `GF.tables.exp`. -/
def GFexp : List Nat := GFexpLog.1

/-- `GF.tables.log`. -/
def GFlog : List Nat := GFexpLog.2.1

/-- `GF.mul`. -/
def GFmul (x y : Nat) : Nat :=
  if x = 0 ∨ y = 0 then 0
  else GFexp.getD ((GFlog.getD x 0 + GFlog.getD y 0) % 255) 0

/-- `GF.pow` (no zero check in the source either). -/
def GFpow (x e : Nat) : Nat := GFexp.getD ((GFlog.getD x 0 * e) % 255) 0

/-- `GF.polynomial`: strip leading zero coefficients, keeping at least the
last.  (The source throws on an empty list; the encoder never passes one.) -/
def GFpolynomial : List Nat → List Nat
  | [] => []
  | [a] => [a]
  | a :: rest => if a = 0 then GFpolynomial rest else a :: rest

/-- `GF.mulPoly`. -/
def GFmulPoly (a b : List Nat) : List Nat :=
  if a.head? = some 0 ∨ b.head? = some 0 then [0]
  else
    GFpolynomial ((List.range a.length).foldl (fun res i =>
      (List.range b.length).foldl (fun res j =>
        res.set (i + j) (res.getD (i + j) 0 ^^^ GFmul (a.getD i 0) (b.getD j 0))) res)
      (List.replicate (a.length + b.length - 1) 0))

/-- `GF.divisorPoly`. -/
def GFdivisorPoly (degree : Nat) : List Nat :=
  (List.range degree).foldl (fun g i => GFmulPoly g [1, GFpow 2 i]) [1]

/-- `GF.remainderPoly` (the loop bound `data.length - divisor.length + 1`
is written `data.length + 1 - divisor.length` so that `Nat` subtraction
matches the JS value on every input where the loop runs). -/
def GFremainderPoly (data divisor : List Nat) : List Nat :=
  let out := (List.range (data.length + 1 - divisor.length)).foldl (fun out i =>
    let elm := out.getD i 0
    if elm = 0 then out else
    (List.range (divisor.length - 1)).foldl (fun out j2 =>
      let j := j2 + 1
      if divisor.getD j 0 ≠ 0 then
        out.set (i + j) (out.getD (i + j) 0 ^^^ GFmul (divisor.getD j 0) elm)
      else out) out) data
  out.drop (data.length + 1 - divisor.length)

/-- `RS(eccWords).encode`. -/
def RSencode (eccWords : Nat) (from_ : List Nat) : List Nat :=
  let d := GFdivisorPoly eccWords
  GFremainderPoly (from_ ++ List.replicate (d.length - 1) 0) d

/-- `interleaveBytes`. -/
def interleaveBytes (blocks : List (List Nat)) : List Nat :=
  let maxLen := blocks.foldl (fun m b => max m b.length) 0
  (List.range maxLen).flatMap (fun i => blocks.filterMap (fun b => b.get? i))

/-- `interleave(ver, ecc).encode`: split into `numBlocks` blocks (the first
`shortBlocks` one byte shorter), RS-encode each, and interleave data and
ECC separately. -/
def interleaveEncode (ver : Nat) (e : ECLevel) (bytes : List Nat) : List Nat :=
  let c := capacity ver e
  let st := (List.range c.numBlocks).foldl
    (fun (st : List (List Nat) × List (List Nat) × List Nat) i =>
      let len := c.blockLen + (if i < c.shortBlocks then 0 else 1)
      let blk := st.2.2.take len
      (st.1 ++ [blk], st.2.1 ++ [RSencode c.words blk], st.2.2.drop len))
    ([], [], bytes)
  interleaveBytes st.1 ++ interleaveBytes st.2.1

/-- The cyclic padding `'1110110000010001'`. -/
def paddingBits : List Bool :=
  [true, true, true, false, true, true, false, false,
   false, false, false, true, false, false, false, true]

/-- `bits.match(/(.{8})/g)`: consecutive 8-bit groups to byte values, an
incomplete trailing group dropped. -/
def bitsToBytes : List Bool → List Nat
  | b0 :: b1 :: b2 :: b3 :: b4 :: b5 :: b6 :: b7 :: rest =>
    ((((((((if b0 then 1 else 0) * 2 + (if b1 then 1 else 0)) * 2 +
      (if b2 then 1 else 0)) * 2 + (if b3 then 1 else 0)) * 2 +
      (if b4 then 1 else 0)) * 2 + (if b5 then 1 else 0)) * 2 +
      (if b6 then 1 else 0)) * 2 + (if b7 then 1 else 0)) :: bitsToBytes rest
  | _ => []

/-- The bit string `info.modeBits[type] + bin(dataLen, lengthBits) + encoded`
assembled by `encode` before the capacity check, or the error raised while
building it (unknown letter, unsupported type). -/
def segmentBits (ver : Nat) (data : List Char) (ty : EncodingType)
    (encoder : List Char → List Nat) : Except String (List Bool) :=
  match ty with
  | .numeric =>
    match alphaDecode numericAlphabet data with
    | .error e => .error e
    | .ok t => .ok (modeBits ty ++ bin data.length (lengthBits ver ty) ++ numericBits t)
  | .alphanumeric =>
    match alphaDecode alphanumericAlphabet data with
    | .error e => .error e
    | .ok t => .ok (modeBits ty ++ bin data.length (lengthBits ver ty) ++ alphanumericBits t)
  | .byte =>
    let utf8 := encoder data
    .ok (modeBits ty ++ bin utf8.length (lengthBits ver ty) ++
      utf8.flatMap (fun i => bin i 8))
  | _ => .error "encode: unsupported type"

/-- `encode(ver, ecc, data, type, encoder)`: assemble the segment bits,
fail with `'Capacity overflow'` when they exceed the data-bit capacity,
otherwise add the terminator, pad to a byte boundary, fill with the cyclic
padding, and interleave the RS-encoded blocks.  (When the check passes the
padding loop appends exactly `capacity - bits.length` characters.) -/
def encodeSeg (ver : Nat) (e : ECLevel) (data : List Char) (ty : EncodingType)
    (encoder : List Char → List Nat) : Except String (List Nat) :=
  match segmentBits ver data ty encoder with
  | .error err => .error err
  | .ok bits =>
    let cap := (capacity ver e).capacity
    if bits.length > cap then .error "Capacity overflow"
    else
      let bits2 := bits ++ List.replicate (min 4 (cap - bits.length)) false
      let bits3 := bits2 ++ (if bits2.length % 8 = 0 then []
        else List.replicate (8 - bits2.length % 8) false)
      let bits4 := bits3 ++ (List.range (cap - bits3.length)).map
        (fun idx => paddingBits.getD (idx % 16) false)
      .ok (interleaveEncode ver e (bitsToBytes bits4))

/-- The version loop of `encodeQR` when the caller gives no version: try
each version in order, return the first success, keep the last error. -/
def scanVersions (e : ECLevel) (data : List Char) (ty : EncodingType)
    (encoder : List Char → List Nat) : List Nat → String → Except String (Nat × List Nat)
  | [], err => .error err
  | i :: rest, err =>
    match encodeSeg i e data ty encoder with
    | .ok d => .ok (i, d)
    | .error e2 => scanVersions e data ty encoder rest e2

/-- The no-version path of `encodeQR`: versions 1..40, initial error
`'Unknown error'`. -/
def encodeQRSelect (e : ECLevel) (data : List Char) (ty : EncodingType)
    (encoder : List Char → List Nat) : Except String (Nat × List Nat) :=
  scanVersions e data ty encoder (List.range' 1 40) "Unknown error"

/-- The data is representable in the given mode (every character in the
mode's alphabet; `byte` takes anything; `kanji`/`eci` are rejected by
`validateEncoding` before `encode` is ever called). -/
def validSeg (data : List Char) : EncodingType → Bool
  | .numeric => data.all (hasChar numericAlphabet)
  | .alphanumeric => data.all (hasChar alphanumericAlphabet)
  | .byte => true
  | .kanji => false
  | .eci => false


/-! ## Template drawing, zigzag placement, penalty and mask selection -/

/-- `info.size.encode(ver) = 21 + 4 * (ver - 1)`. -/
def sizeEncode (ver : Nat) : Nat := 21 + 4 * (ver - 1)

/-- `info.alignmentPatterns(ver)`: `count = Math.ceil(distance / 28)` is
`(distance + 27) / 28` on nonnegative integers. -/
def alignmentPatterns (ver : Nat) : List Nat :=
  if ver = 1 then [] else
  let first := 6
  let last := sizeEncode ver - first - 1
  let distance := last - first
  let count := (distance + 27) / 28
  let interval0 := distance / count
  let interval :=
    if interval0 % 2 = 1 then interval0 + 1
    else if (distance % count) * 2 ≥ count then interval0 + 2
    else interval0
  first :: ((List.range (count - 1)).map (fun m1 => last - (count - (m1 + 1)) * interval)
    ++ [last])

/-- `PATTERNS[idx](x, y)` for in-grid (nonnegative) coordinates; indices
above 7 are never used (`validateMask`, and the selection loop runs over
`PATTERNS.length = 8`). -/
def PATTERNS (idx x y : Nat) : Bool :=
  match idx with
  | 0 => (x + y) % 2 == 0
  | 1 => y % 2 == 0
  | 2 => x % 3 == 0
  | 3 => (x + y) % 3 == 0
  | 4 => (y / 2 + x / 3) % 2 == 0
  | 5 => (x * y) % 2 + (x * y) % 3 == 0
  | 6 => ((x * y) % 2 + (x * y) % 3) % 2 == 0
  | 7 => ((x + y) % 2 + (x * y) % 3) % 2 == 0
  | _ => false

/-- `drawTemplate(ver, ecc, maskIdx, test)`.  The timing-pattern callbacks
close over the bitmap variable `b`; each callback probe reads a cell whose
word the enclosing `rect` call has not yet committed, so the snapshot taken
just before the corresponding line call is the state the JS callback
observes. -/
def drawTemplate (ver : Nat) (e : ECLevel) (maskIdx : Nat) (test : Bool) : Bitmap :=
  let size := sizeEncode ver
  let b := Bitmap.make (size + 2) (size + 2)
  let finder := ((((Bitmap.make 3 3).rect 0 0 (some 3) (some 3)
    (.val (some true))).border 1 (some false)).border 1 (some true)).border 1 (some false)
  let b := ((b.embed 0 0 finder).embed (-(finder.width : Int)) 0 finder).embed
    0 (-(finder.height : Int)) finder
  let b := b.rectSlice 1 1 (some size) (some size)
  let align := (((Bitmap.make 1 1).rect 0 0 (some 1) (some 1)
    (.val (some true))).border 1 (some false)).border 1 (some true)
  let alignPos := alignmentPatterns ver
  let b := alignPos.foldl (fun b y => alignPos.foldl (fun b x =>
    if b.isDefined (x : Int) (y : Int) then b
    else b.embed ((x : Int) - 2) ((y : Int) - 2) align) b) b
  let b1 := b.hLine 0 6 none (.fn fun p _ =>
    if b.isDefined (p.1 : Int) 6 then none else some (p.1 % 2 == 0))
  let b := b1.vLine 6 0 none (.fn fun p _ =>
    if b1.isDefined 6 (p.2 : Int) then none else some (p.2 % 2 == 0))
  let fmtbits := formatBits e maskIdx
  let getBit := fun i => !test && ((fmtbits >>> i) &&& 1 == 1)
  let b := (List.range 6).foldl (fun b i => b.set 8 i (some (getBit i))) b
  let b := (List.range' 6 2).foldl (fun b i => b.set 8 (i + 1) (some (getBit i))) b
  let b := (List.range' 8 7).foldl (fun b i => b.set 8 (size - 15 + i) (some (getBit i))) b
  let b := (List.range 8).foldl (fun b i => b.set (size - i - 1) 8 (some (getBit i))) b
  let b := (List.range' 8 1).foldl (fun b i => b.set (15 - i - 1 + 1) 8 (some (getBit i))) b
  let b := (List.range' 9 6).foldl (fun b i => b.set (15 - i - 1) 8 (some (getBit i))) b
  let b := b.set 8 (size - 8) (some !test)
  if 7 ≤ ver then
    let vbits := versionBits ver
    (List.range 18).foldl (fun b i =>
      let bit := !test && ((vbits >>> i) &&& 1 == 1)
      let x := i / 3
      let y := i % 3 + size - 8 - 3
      (b.set y x (some bit)).set x y (some bit)) b
  else b

/-- The `xOffset` loop head values of `zigzag`: from `size - 1` down in
steps of two, substituting 5 when 6 is reached; `size` steps of fuel
suffice since each iteration decreases the offset by at least two. -/
def zigzagXsGo : Nat → Nat → List Nat
  | 0, _ => []
  | fuel + 1, xO =>
    if xO > 0 then
      let xO := if xO = 6 then 5 else xO
      xO :: zigzagXsGo fuel (xO - 2)
    else []

/-- All `xOffset` values for a symbol of the given size. -/
def zigzagXs (size : Nat) : List Nat := zigzagXsGo size (size - 1)

/-- The inner `for (;; y += dir)` sweep of `zigzag`: visit `y`, stop when
the next step would leave the grid; returns the visited rows and the final
`y`.  A full sweep visits at most `size` rows, so `size` fuel suffices. -/
def zigzagColGo (size : Nat) : Nat → Bool → Nat → List Nat × Nat
  | 0, _, y => ([], y)
  | fuel + 1, up, y =>
    if (if up then y + 1 ≥ size else y = 0) then ([y], y)
    else
      let r := zigzagColGo size fuel up (if up then y + 1 else y - 1)
      (y :: r.1, r.2)

/-- The cell sequence visited by `zigzag` (two columns per `xOffset`,
direction alternating per column pair, `y` persisting between columns). -/
def zigzagPoints (size : Nat) : List (Nat × Nat) :=
  ((zigzagXs size).foldl (fun (st : List (Nat × Nat) × Bool × Nat) xO =>
    let col := zigzagColGo size size st.2.1 st.2.2
    (st.1 ++ col.1.flatMap (fun y => [(xO, y), (xO - 1, y)]), !st.2.1, col.2))
    ([], false, size - 1)).1

/-- The zigzag callback of `drawQR` applied at one cell: skip cells the
(evolving) bitmap already defines, otherwise write the next data bit xored
with the mask pattern (`(7 - i) & 7` on JS numbers equals `7 - i % 8` for
`i ≥ 0`). -/
def zigzagStep (data : List Nat) (need maskIdx : Nat) (st : Bitmap × Nat)
    (p : Nat × Nat) : Bitmap × Nat :=
  if st.1.isDefined (p.1 : Int) (p.2 : Int) then st
  else
    let i := st.2
    let value := if i < need
      then ((data.getD (i >>> 3) 0 >>> (7 - i % 8)) &&& 1) != 0
      else false
    (st.1.set p.1 p.2 (some (value != PATTERNS maskIdx p.1 p.2)),
     if i < need then i + 1 else i)

/-- `drawQR(ver, ecc, data, maskIdx, test)`: draw the template, lay the
data bits along the zigzag on the cells the template leaves undefined, and
fail if the data length does not match the free area. -/
def drawQR (ver : Nat) (e : ECLevel) (data : List Nat) (maskIdx : Nat) (test : Bool) :
    Except String Bitmap :=
  let b0 := drawTemplate ver e maskIdx test
  let need := 8 * data.length
  let st := (zigzagPoints b0.height).foldl (zigzagStep data need maskIdx) (b0, 0)
  if st.2 ≠ need then .error "QR: bytes left after draw"
  else .ok st.1

/-- `mkPattern`: a bit list as the number `Number('0b' + s)`. -/
def mkPatternN (pattern : List Bool) : Nat :=
  pattern.foldl (fun n b => n * 2 + (if b then 1 else 0)) 0

/-- `finderPattern`: dark:light:dark:light:dark, ratio 1:1:3:1:1. -/
def finderPattern : List Bool := [true, false, true, true, true, false, true]

/-- `lightPattern`: light area 4 modules wide. -/
def lightPattern : List Bool := [false, false, false, false]

/-- `P1.n`. -/
def P1n : Nat := mkPatternN (finderPattern ++ lightPattern)

/-- `P2.n`. -/
def P2n : Nat := mkPatternN (lightPattern ++ finderPattern)

/-- `penalty(bm)`.  The first three scores are integer arithmetic in the
source.  The dark-proportion score is computed there in floating point as
`10 * Math.floor(Math.abs(darkPixels / (h*w) * 100 - 50) / 5)`; it is
modelled here as the floor of the exact rational `|100*d - 50*T| / (5*T)`,
`T = h*w`. -/
def penalty (bm : Bitmap) : Nat :=
  let transposed := bm.transpose
  let adjacent := (List.range bm.height).foldl (fun adj y =>
    (bm.getRuns y).foldl (fun adj lr =>
      if lr.1 ≥ 5 then adj + (3 + (lr.1 - 5)) else adj) adj) 0
  let adjacent := (List.range bm.width).foldl (fun adj y =>
    (transposed.getRuns y).foldl (fun adj lr =>
      if lr.1 ≥ 5 then adj + (3 + (lr.1 - 5)) else adj) adj) adjacent
  let box := (List.range (bm.height - 1)).foldl (fun box y =>
    box + 3 * bm.countBoxes2x2 y) 0
  let finder := (List.range bm.height).foldl (fun f y =>
    f + 40 * bm.countPatternInRow y 11 [P1n, P2n]) 0
  let finder := (List.range bm.width).foldl (fun f y =>
    f + 40 * transposed.countPatternInRow y 11 [P1n, P2n]) finder
  let darkPixels := bm.popcntBM
  let total := bm.height * bm.width
  let dark := 10 * (((100 * darkPixels : Int) - 50 * total).natAbs / (5 * total))
  adjacent + box + finder + dark

/-- One iteration of the mask-selection loop of `drawQRBest`: draw the
test symbol for `mask`, score it, and apply `best.add` (which keeps the
incumbent on `score >= bestScore`, so the first minimum wins); a draw
failure propagates as the JS exception does. -/
def bestStep (ver : Nat) (e : ECLevel) (data : List Nat)
    (acc : Except String (Option (Nat × Nat))) (mask : Nat) :
    Except String (Option (Nat × Nat)) :=
  match acc with
  | .error err => .error err
  | .ok best =>
    match drawQR ver e data mask true with
    | .error err => .error err
    | .ok bm =>
      let score := penalty bm
      .ok (match best with
        | none => some (score, mask)
        | some bv => if score ≥ bv.1 then some bv else some (score, mask))

/-- `drawQRBest(ver, ecc, data, maskIdx?)`: when no mask is given, try all
eight masks in index order and draw the winner for real. -/
def drawQRBest (ver : Nat) (e : ECLevel) (data : List Nat) (maskIdx : Option Nat) :
    Except String Bitmap :=
  match maskIdx with
  | some m => drawQR ver e data m false
  | none =>
    match (List.range 8).foldl (bestStep ver e data)
      (.ok (none : Option (Nat × Nat))) with
    | .error err => .error err
    | .ok none => .error "Cannot find mask"
    | .ok (some bv) => drawQR ver e data bv.2 false

/-- A concrete 26-codeword payload (the version-1 medium interleaved
codewords for the alphanumeric text `HELLO WORLD`), used to exercise the
mask selection at version 1. -/
def c6data : List Nat :=
  [32, 91, 11, 120, 209, 114, 220, 77, 67, 64, 236, 17, 236, 17, 236, 17,
   196, 35, 39, 119, 235, 215, 231, 226, 93, 23]

/-- The eight penalties of the test draws of `c6data` at version 1,
medium error correction, in mask order. -/
def c6pens (m : Nat) : Nat :=
  [400, 522, 486, 559, 531, 534, 604, 482].getD m 0

/-- The scored test draw of mask `m` for the concrete payload. -/
def c6penAt (m : Nat) : Except String Nat :=
  (drawQR 1 ECLevel.medium c6data m true).map penalty

/-- The version-1 test template (mask-independent: with `test = true` all
format bits are written as `false`), as literal planes; checked per mask
by `c6tpl0` .. `c6tpl7`. -/
def c6tpl : Bitmap :=
  ⟨21, 21,
   [2080895, 1065025, 1523805, 1523805, 1523805, 1065025, 2086271, 0, 64,
    0, 64, 0, 64, 0, 127, 65, 93, 93, 93, 65, 127],
   [2089471, 2089471, 2089471, 2089471, 2089471, 2089471, 2097151,
    2089471, 2089471, 64, 64, 64, 64, 511, 511, 511, 511, 511, 511, 511,
    511]⟩

/-- Cells 0 .. 59 of the version-1 zigzag sequence. -/
def c6zz0 : List (Nat × Nat) :=
   [(20, 20), (19, 20), (20, 19), (19, 19), (20, 18), (19, 18), (20, 17),
    (19, 17), (20, 16), (19, 16), (20, 15), (19, 15), (20, 14), (19, 14),
    (20, 13), (19, 13), (20, 12), (19, 12), (20, 11), (19, 11), (20, 10),
    (19, 10), (20, 9), (19, 9), (20, 8), (19, 8), (20, 7), (19, 7),
    (20, 6), (19, 6), (20, 5), (19, 5), (20, 4), (19, 4), (20, 3),
    (19, 3), (20, 2), (19, 2), (20, 1), (19, 1), (20, 0), (19, 0),
    (18, 0), (17, 0), (18, 1), (17, 1), (18, 2), (17, 2), (18, 3),
    (17, 3), (18, 4), (17, 4), (18, 5), (17, 5), (18, 6), (17, 6),
    (18, 7), (17, 7), (18, 8), (17, 8)]

/-- Cells 60 .. 119 of the version-1 zigzag sequence. -/
def c6zz1 : List (Nat × Nat) :=
   [(18, 9), (17, 9), (18, 10), (17, 10), (18, 11), (17, 11), (18, 12),
    (17, 12), (18, 13), (17, 13), (18, 14), (17, 14), (18, 15), (17, 15),
    (18, 16), (17, 16), (18, 17), (17, 17), (18, 18), (17, 18), (18, 19),
    (17, 19), (18, 20), (17, 20), (16, 20), (15, 20), (16, 19), (15, 19),
    (16, 18), (15, 18), (16, 17), (15, 17), (16, 16), (15, 16), (16, 15),
    (15, 15), (16, 14), (15, 14), (16, 13), (15, 13), (16, 12), (15, 12),
    (16, 11), (15, 11), (16, 10), (15, 10), (16, 9), (15, 9), (16, 8),
    (15, 8), (16, 7), (15, 7), (16, 6), (15, 6), (16, 5), (15, 5),
    (16, 4), (15, 4), (16, 3), (15, 3)]

/-- Cells 120 .. 179 of the version-1 zigzag sequence. -/
def c6zz2 : List (Nat × Nat) :=
   [(16, 2), (15, 2), (16, 1), (15, 1), (16, 0), (15, 0), (14, 0),
    (13, 0), (14, 1), (13, 1), (14, 2), (13, 2), (14, 3), (13, 3),
    (14, 4), (13, 4), (14, 5), (13, 5), (14, 6), (13, 6), (14, 7),
    (13, 7), (14, 8), (13, 8), (14, 9), (13, 9), (14, 10), (13, 10),
    (14, 11), (13, 11), (14, 12), (13, 12), (14, 13), (13, 13), (14, 14),
    (13, 14), (14, 15), (13, 15), (14, 16), (13, 16), (14, 17), (13, 17),
    (14, 18), (13, 18), (14, 19), (13, 19), (14, 20), (13, 20), (12, 20),
    (11, 20), (12, 19), (11, 19), (12, 18), (11, 18), (12, 17), (11, 17),
    (12, 16), (11, 16), (12, 15), (11, 15)]

/-- Cells 180 .. 239 of the version-1 zigzag sequence. -/
def c6zz3 : List (Nat × Nat) :=
   [(12, 14), (11, 14), (12, 13), (11, 13), (12, 12), (11, 12), (12, 11),
    (11, 11), (12, 10), (11, 10), (12, 9), (11, 9), (12, 8), (11, 8),
    (12, 7), (11, 7), (12, 6), (11, 6), (12, 5), (11, 5), (12, 4),
    (11, 4), (12, 3), (11, 3), (12, 2), (11, 2), (12, 1), (11, 1),
    (12, 0), (11, 0), (10, 0), (9, 0), (10, 1), (9, 1), (10, 2), (9, 2),
    (10, 3), (9, 3), (10, 4), (9, 4), (10, 5), (9, 5), (10, 6), (9, 6),
    (10, 7), (9, 7), (10, 8), (9, 8), (10, 9), (9, 9), (10, 10), (9, 10),
    (10, 11), (9, 11), (10, 12), (9, 12), (10, 13), (9, 13), (10, 14),
    (9, 14)]

/-- Cells 240 .. 299 of the version-1 zigzag sequence. -/
def c6zz4 : List (Nat × Nat) :=
   [(10, 15), (9, 15), (10, 16), (9, 16), (10, 17), (9, 17), (10, 18),
    (9, 18), (10, 19), (9, 19), (10, 20), (9, 20), (8, 20), (7, 20),
    (8, 19), (7, 19), (8, 18), (7, 18), (8, 17), (7, 17), (8, 16),
    (7, 16), (8, 15), (7, 15), (8, 14), (7, 14), (8, 13), (7, 13),
    (8, 12), (7, 12), (8, 11), (7, 11), (8, 10), (7, 10), (8, 9), (7, 9),
    (8, 8), (7, 8), (8, 7), (7, 7), (8, 6), (7, 6), (8, 5), (7, 5),
    (8, 4), (7, 4), (8, 3), (7, 3), (8, 2), (7, 2), (8, 1), (7, 1),
    (8, 0), (7, 0), (5, 0), (4, 0), (5, 1), (4, 1), (5, 2), (4, 2)]

/-- Cells 300 .. 359 of the version-1 zigzag sequence. -/
def c6zz5 : List (Nat × Nat) :=
   [(5, 3), (4, 3), (5, 4), (4, 4), (5, 5), (4, 5), (5, 6), (4, 6),
    (5, 7), (4, 7), (5, 8), (4, 8), (5, 9), (4, 9), (5, 10), (4, 10),
    (5, 11), (4, 11), (5, 12), (4, 12), (5, 13), (4, 13), (5, 14),
    (4, 14), (5, 15), (4, 15), (5, 16), (4, 16), (5, 17), (4, 17),
    (5, 18), (4, 18), (5, 19), (4, 19), (5, 20), (4, 20), (3, 20),
    (2, 20), (3, 19), (2, 19), (3, 18), (2, 18), (3, 17), (2, 17),
    (3, 16), (2, 16), (3, 15), (2, 15), (3, 14), (2, 14), (3, 13),
    (2, 13), (3, 12), (2, 12), (3, 11), (2, 11), (3, 10), (2, 10), (3, 9),
    (2, 9)]

/-- Cells 360 .. 419 of the version-1 zigzag sequence. -/
def c6zz6 : List (Nat × Nat) :=
   [(3, 8), (2, 8), (3, 7), (2, 7), (3, 6), (2, 6), (3, 5), (2, 5),
    (3, 4), (2, 4), (3, 3), (2, 3), (3, 2), (2, 2), (3, 1), (2, 1),
    (3, 0), (2, 0), (1, 0), (0, 0), (1, 1), (0, 1), (1, 2), (0, 2),
    (1, 3), (0, 3), (1, 4), (0, 4), (1, 5), (0, 5), (1, 6), (0, 6),
    (1, 7), (0, 7), (1, 8), (0, 8), (1, 9), (0, 9), (1, 10), (0, 10),
    (1, 11), (0, 11), (1, 12), (0, 12), (1, 13), (0, 13), (1, 14),
    (0, 14), (1, 15), (0, 15), (1, 16), (0, 16), (1, 17), (0, 17),
    (1, 18), (0, 18), (1, 19), (0, 19), (1, 20), (0, 20)]

/-- Mask-0 draw state after the first 60 zigzag cells. -/
def c6mid0_1 : Bitmap :=
  ⟨21, 21,
   [2080895, 1065025, 1523805, 1523805, 1523805, 1065025, 2086271, 0, 64,
    1048576, 64, 524288, 1048640, 1048576, 127, 65, 1572957, 524381,
    1048669, 1572929, 1048703],
   [2089471, 2089471, 2089471, 2089471, 2089471, 2089471, 2097151,
    2089471, 2089471, 1572928, 1572928, 1572928, 1572928, 1573375,
    1573375, 1573375, 1573375, 1573375, 1573375, 1573375, 1573375]⟩

/-- Mask-0 draw state after the first 120 zigzag cells. -/
def c6mid0_2 : Bitmap :=
  ⟨21, 21,
   [2080895, 1065025, 1523805, 1523805, 1523805, 1065025, 2086271, 0, 64,
    1114112, 196672, 950272, 1409088, 1310720, 426111, 163905, 2064477,
    557149, 1212509, 1704001, 1081471],
   [2089471, 2089471, 2089471, 2089471, 2089471, 2089471, 2097151,
    2089471, 2089471, 2064448, 2064448, 2064448, 2064448, 2064895,
    2064895, 2064895, 2064895, 2064895, 2064895, 2064895, 2064895]⟩

/-- Mask-0 draw state after the first 180 zigzag cells. -/
def c6mid0_3 : Bitmap :=
  ⟨21, 21,
   [2080895, 1065025, 1523805, 1523805, 1523805, 1065025, 2086271, 0, 64,
    1114112, 213056, 958464, 1425472, 1327104, 426111, 180289, 2084957,
    567389, 1239133, 1718337, 1108095],
   [2089471, 2089471, 2089471, 2089471, 2089471, 2089471, 2097151,
    2089471, 2089471, 2089024, 2089024, 2089024, 2089024, 2089471,
    2089471, 2095615, 2095615, 2095615, 2095615, 2095615, 2095615]⟩

/-- Mask-0 draw state after the first 240 zigzag cells. -/
def c6mid0_4 : Bitmap :=
  ⟨21, 21,
   [2086015, 1066561, 1528925, 1528925, 1530973, 1068609, 2086271, 0,
    4672, 1116160, 215616, 964608, 1428032, 1328128, 430207, 180289,
    2084957, 567389, 1239133, 1718337, 1108095],
   [2097151, 2097151, 2097151, 2097151, 2097151, 2097151, 2097151,
    2097151, 2097151, 2096704, 2096704, 2096704, 2096704, 2097151,
    2097151, 2095615, 2095615, 2095615, 2095615, 2095615, 2095615]⟩

/-- Mask-0 draw state after the first 300 zigzag cells. -/
def c6mid0_5 : Bitmap :=
  ⟨21, 21,
   [2086015, 1066561, 1528925, 1528925, 1530973, 1068609, 2086271, 0,
    4672, 1116416, 216000, 964992, 1428160, 1328128, 430207, 181825,
    2085469, 568413, 1240669, 1718337, 1108607],
   [2097151, 2097151, 2097151, 2097151, 2097151, 2097151, 2097151,
    2097151, 2097151, 2097088, 2097088, 2097088, 2097088, 2097151,
    2097151, 2097151, 2097151, 2097151, 2097151, 2097151, 2097151]⟩

/-- Mask-0 draw state after the first 360 zigzag cells. -/
def c6mid0_6 : Bitmap :=
  ⟨21, 21,
   [2086015, 1066561, 1528925, 1528925, 1530973, 1068609, 2086271, 0,
    4672, 1116444, 216056, 965036, 1428208, 1328128, 430207, 181825,
    2085469, 568413, 1240669, 1718337, 1108607],
   [2097151, 2097151, 2097151, 2097151, 2097151, 2097151, 2097151,
    2097151, 2097151, 2097148, 2097148, 2097148, 2097148, 2097151,
    2097151, 2097151, 2097151, 2097151, 2097151, 2097151, 2097151]⟩

/-- Mask-1 draw state after the first 60 zigzag cells. -/
def c6mid1_1 : Bitmap :=
  ⟨21, 21,
   [2080895, 1065025, 1523805, 1523805, 1523805, 1065025, 2086271, 0, 64,
    1572864, 524352, 0, 1572928, 1572864, 524415, 524353, 1048669, 93,
    1572957, 1048641, 1572991],
   [2089471, 2089471, 2089471, 2089471, 2089471, 2089471, 2097151,
    2089471, 2089471, 1572928, 1572928, 1572928, 1572928, 1573375,
    1573375, 1573375, 1573375, 1573375, 1573375, 1573375, 1573375]⟩

/-- Mask-1 draw state after the first 120 zigzag cells. -/
def c6mid1_2 : Bitmap :=
  ⟨21, 21,
   [2080895, 1065025, 1523805, 1523805, 1523805, 1065025, 2086271, 0, 64,
    1802240, 622656, 262144, 2031680, 1998848, 786559, 524353, 1376349,
    131165, 1572957, 1081409, 1704063],
   [2089471, 2089471, 2089471, 2089471, 2089471, 2089471, 2097151,
    2089471, 2089471, 2064448, 2064448, 2064448, 2064448, 2064895,
    2064895, 2064895, 2064895, 2064895, 2064895, 2064895, 2064895]⟩

/-- Mask-1 draw state after the first 180 zigzag cells. -/
def c6mid1_3 : Bitmap :=
  ⟨21, 21,
   [2080895, 1065025, 1523805, 1523805, 1523805, 1065025, 2086271, 0, 64,
    1810432, 647232, 262144, 2056256, 2023424, 794751, 550977, 1407069,
    131165, 1589341, 1085505, 1720447],
   [2089471, 2089471, 2089471, 2089471, 2089471, 2089471, 2097151,
    2089471, 2089471, 2089024, 2089024, 2089024, 2089024, 2089471,
    2089471, 2095615, 2095615, 2095615, 2095615, 2095615, 2095615]⟩

/-- Mask-1 draw state after the first 240 zigzag cells. -/
def c6mid1_4 : Bitmap :=
  ⟨21, 21,
   [2088575, 1068097, 1531485, 1531485, 1529437, 1066049, 2086271, 2560,
    6208, 1810944, 647232, 266752, 2056256, 2027008, 801407, 550977,
    1407069, 131165, 1589341, 1085505, 1720447],
   [2097151, 2097151, 2097151, 2097151, 2097151, 2097151, 2097151,
    2097151, 2097151, 2096704, 2096704, 2096704, 2096704, 2097151,
    2097151, 2095615, 2095615, 2095615, 2095615, 2095615, 2095615]⟩

/-- Mask-1 draw state after the first 300 zigzag cells. -/
def c6mid1_5 : Bitmap :=
  ⟨21, 21,
   [2088575, 1068097, 1531485, 1531485, 1529437, 1066049, 2086271, 2560,
    6208, 1811328, 647488, 267008, 2056256, 2027008, 801407, 552001,
    1407069, 132701, 1590365, 1086017, 1720447],
   [2097151, 2097151, 2097151, 2097151, 2097151, 2097151, 2097151,
    2097151, 2097151, 2097088, 2097088, 2097088, 2097088, 2097151,
    2097151, 2097151, 2097151, 2097151, 2097151, 2097151, 2097151]⟩

/-- Mask-1 draw state after the first 360 zigzag cells. -/
def c6mid1_6 : Bitmap :=
  ⟨21, 21,
   [2088575, 1068097, 1531485, 1531485, 1529437, 1066049, 2086271, 2560,
    6208, 1811380, 647504, 267012, 2056280, 2027008, 801407, 552001,
    1407069, 132701, 1590365, 1086017, 1720447],
   [2097151, 2097151, 2097151, 2097151, 2097151, 2097151, 2097151,
    2097151, 2097151, 2097148, 2097148, 2097148, 2097148, 2097151,
    2097151, 2097151, 2097151, 2097151, 2097151, 2097151, 2097151]⟩

/-- Mask-2 draw state after the first 60 zigzag cells. -/
def c6mid2_1 : Bitmap :=
  ⟨21, 21,
   [2080895, 1065025, 1523805, 1523805, 1523805, 1065025, 2086271, 0, 64,
    1572864, 1048640, 0, 64, 1572864, 1048703, 524353, 524381, 93, 93,
    1048641, 127],
   [2089471, 2089471, 2089471, 2089471, 2089471, 2089471, 2097151,
    2089471, 2089471, 1572928, 1572928, 1572928, 1572928, 1573375,
    1573375, 1573375, 1573375, 1573375, 1573375, 1573375, 1573375]⟩

/-- Mask-2 draw state after the first 120 zigzag cells. -/
def c6mid2_2 : Bitmap :=
  ⟨21, 21,
   [2080895, 1065025, 1523805, 1523805, 1523805, 1065025, 2086271, 0, 64,
    2031616, 1212480, 32768, 262208, 1703936, 1507455, 819265, 917597,
    426077, 196701, 1310785, 65663],
   [2089471, 2089471, 2089471, 2089471, 2089471, 2089471, 2097151,
    2089471, 2089471, 2064448, 2064448, 2064448, 2064448, 2064895,
    2064895, 2064895, 2064895, 2064895, 2064895, 2064895, 2064895]⟩

/-- Mask-2 draw state after the first 180 zigzag cells. -/
def c6mid2_3 : Bitmap :=
  ⟨21, 21,
   [2080895, 1065025, 1523805, 1523805, 1523805, 1065025, 2086271, 0, 64,
    2039808, 1212480, 32768, 262208, 1728512, 1523839, 849985, 921693,
    430173, 206941, 1310785, 75903],
   [2089471, 2089471, 2089471, 2089471, 2089471, 2089471, 2097151,
    2089471, 2089471, 2089024, 2089024, 2089024, 2089024, 2089471,
    2089471, 2095615, 2095615, 2095615, 2095615, 2095615, 2095615]⟩

/-- Mask-2 draw state after the first 240 zigzag cells. -/
def c6mid2_4 : Bitmap :=
  ⟨21, 21,
   [2085503, 1072705, 1528413, 1526877, 1530461, 1070657, 2086271, 6144,
    5184, 2043904, 1215552, 32768, 265280, 1735680, 1529471, 849985,
    921693, 430173, 206941, 1310785, 75903],
   [2097151, 2097151, 2097151, 2097151, 2097151, 2097151, 2097151,
    2097151, 2097151, 2096704, 2096704, 2096704, 2096704, 2097151,
    2097151, 2095615, 2095615, 2095615, 2095615, 2095615, 2095615]⟩

/-- Mask-2 draw state after the first 300 zigzag cells. -/
def c6mid2_5 : Bitmap :=
  ⟨21, 21,
   [2085503, 1072705, 1528413, 1526877, 1530461, 1070657, 2086271, 6144,
    5184, 2044288, 1215680, 33024, 265664, 1735680, 1529471, 851521,
    922717, 431197, 206941, 1310785, 76927],
   [2097151, 2097151, 2097151, 2097151, 2097151, 2097151, 2097151,
    2097151, 2097151, 2097088, 2097088, 2097088, 2097088, 2097151,
    2097151, 2097151, 2097151, 2097151, 2097151, 2097151, 2097151]⟩

/-- Mask-2 draw state after the first 360 zigzag cells. -/
def c6mid2_6 : Bitmap :=
  ⟨21, 21,
   [2085503, 1072705, 1528413, 1526877, 1530461, 1070657, 2086271, 6144,
    5184, 2044348, 1215716, 33036, 265708, 1735680, 1529471, 851521,
    922717, 431197, 206941, 1310785, 76927],
   [2097151, 2097151, 2097151, 2097151, 2097151, 2097151, 2097151,
    2097151, 2097151, 2097148, 2097148, 2097148, 2097148, 2097151,
    2097151, 2097151, 2097151, 2097151, 2097151, 2097151, 2097151]⟩

/-- Mask-3 draw state after the first 60 zigzag cells. -/
def c6mid3_1 : Bitmap :=
  ⟨21, 21,
   [2080895, 1065025, 1523805, 1523805, 1523805, 1065025, 2086271, 0, 64,
    1572864, 64, 524288, 64, 524288, 1572991, 524353, 1572957, 524381, 93,
    65, 524415],
   [2089471, 2089471, 2089471, 2089471, 2089471, 2089471, 2097151,
    2089471, 2089471, 1572928, 1572928, 1572928, 1572928, 1573375,
    1573375, 1573375, 1573375, 1573375, 1573375, 1573375, 1573375]⟩

/-- Mask-3 draw state after the first 120 zigzag cells. -/
def c6mid3_2 : Bitmap :=
  ⟨21, 21,
   [2080895, 1065025, 1523805, 1523805, 1523805, 1065025, 2086271, 0, 64,
    2031616, 262208, 851968, 262208, 819200, 1736831, 819265, 1605725,
    720989, 196701, 163905, 819327],
   [2089471, 2089471, 2089471, 2089471, 2089471, 2089471, 2097151,
    2089471, 2089471, 2064448, 2064448, 2064448, 2064448, 2064895,
    2064895, 2064895, 2064895, 2064895, 2064895, 2064895, 2064895]⟩

/-- Mask-3 draw state after the first 180 zigzag cells. -/
def c6mid3_3 : Bitmap :=
  ⟨21, 21,
   [2080895, 1065025, 1523805, 1523805, 1523805, 1065025, 2086271, 0, 64,
    2039808, 278592, 860160, 262208, 827392, 1761407, 849985, 1624157,
    729181, 206941, 186433, 825471],
   [2089471, 2089471, 2089471, 2089471, 2089471, 2089471, 2097151,
    2089471, 2089471, 2089024, 2089024, 2089024, 2089024, 2089471,
    2089471, 2095615, 2095615, 2095615, 2095615, 2095615, 2095615]⟩

/-- Mask-3 draw state after the first 240 zigzag cells. -/
def c6mid3_4 : Bitmap :=
  ⟨21, 21,
   [2085503, 1066049, 1524829, 1526877, 1523805, 1065025, 2086271, 512,
    576, 2043904, 284224, 865792, 265280, 828928, 1761407, 849985,
    1624157, 729181, 206941, 186433, 825471],
   [2097151, 2097151, 2097151, 2097151, 2097151, 2097151, 2097151,
    2097151, 2097151, 2096704, 2096704, 2096704, 2096704, 2097151,
    2097151, 2095615, 2095615, 2095615, 2095615, 2095615, 2095615]⟩

/-- Mask-3 draw state after the first 300 zigzag cells. -/
def c6mid3_5 : Bitmap :=
  ⟨21, 21,
   [2085503, 1066049, 1524829, 1526877, 1523805, 1065025, 2086271, 512,
    576, 2044288, 284608, 866176, 265664, 828928, 1761407, 851521,
    1625693, 729693, 206941, 186945, 825983],
   [2097151, 2097151, 2097151, 2097151, 2097151, 2097151, 2097151,
    2097151, 2097151, 2097088, 2097088, 2097088, 2097088, 2097151,
    2097151, 2097151, 2097151, 2097151, 2097151, 2097151, 2097151]⟩

/-- Mask-3 draw state after the first 360 zigzag cells. -/
def c6mid3_6 : Bitmap :=
  ⟨21, 21,
   [2085503, 1066049, 1524829, 1526877, 1523805, 1065025, 2086271, 512,
    576, 2044348, 284616, 866196, 265708, 828928, 1761407, 851521,
    1625693, 729693, 206941, 186945, 825983],
   [2097151, 2097151, 2097151, 2097151, 2097151, 2097151, 2097151,
    2097151, 2097151, 2097148, 2097148, 2097148, 2097148, 2097151,
    2097151, 2097151, 2097151, 2097151, 2097151, 2097151, 2097151]⟩

/-- Mask-4 draw state after the first 60 zigzag cells. -/
def c6mid4_1 : Bitmap :=
  ⟨21, 21,
   [2080895, 1065025, 1523805, 1523805, 1523805, 1065025, 2086271, 0, 64,
    0, 1048640, 0, 1572928, 0, 1048703, 524353, 1048669, 1572957, 93,
    1048641, 1572991],
   [2089471, 2089471, 2089471, 2089471, 2089471, 2089471, 2097151,
    2089471, 2089471, 1572928, 1572928, 1572928, 1572928, 1573375,
    1573375, 1573375, 1573375, 1573375, 1573375, 1573375, 1573375]⟩

/-- Mask-4 draw state after the first 120 zigzag cells. -/
def c6mid4_2 : Bitmap :=
  ⟨21, 21,
   [2080895, 1065025, 1523805, 1523805, 1523805, 1065025, 2086271, 0, 64,
    491520, 1409088, 491520, 1867840, 163840, 1048703, 753729, 1474653,
    1966173, 262237, 1245249, 1671295],
   [2089471, 2089471, 2089471, 2089471, 2089471, 2089471, 2097151,
    2089471, 2089471, 2064448, 2064448, 2064448, 2064448, 2064895,
    2064895, 2064895, 2064895, 2064895, 2064895, 2064895, 2064895]⟩

/-- Mask-4 draw state after the first 180 zigzag cells. -/
def c6mid4_3 : Bitmap :=
  ⟨21, 21,
   [2080895, 1065025, 1523805, 1523805, 1523805, 1065025, 2086271, 0, 64,
    507904, 1409088, 491520, 1892416, 163840, 1065087, 778305, 1503325,
    1994845, 274525, 1251393, 1689727],
   [2089471, 2089471, 2089471, 2089471, 2089471, 2089471, 2097151,
    2089471, 2089471, 2089024, 2089024, 2089024, 2089024, 2089471,
    2089471, 2095615, 2095615, 2095615, 2095615, 2095615, 2095615]⟩

/-- Mask-4 draw state after the first 240 zigzag cells. -/
def c6mid4_4 : Bitmap :=
  ⟨21, 21,
   [2084991, 1072193, 1527389, 1527901, 1529949, 1070145, 2086271, 1024,
    5696, 512512, 1413184, 498688, 1896000, 171520, 1067647, 778305,
    1503325, 1994845, 274525, 1251393, 1689727],
   [2097151, 2097151, 2097151, 2097151, 2097151, 2097151, 2097151,
    2097151, 2097151, 2096704, 2096704, 2096704, 2096704, 2097151,
    2097151, 2095615, 2095615, 2095615, 2095615, 2095615, 2095615]⟩

/-- Mask-4 draw state after the first 300 zigzag cells. -/
def c6mid4_5 : Bitmap :=
  ⟨21, 21,
   [2084991, 1072193, 1527389, 1527901, 1529949, 1070145, 2086271, 1024,
    5696, 512512, 1413312, 498944, 1896000, 171520, 1067647, 778817,
    1504861, 1996381, 275549, 1252417, 1691263],
   [2097151, 2097151, 2097151, 2097151, 2097151, 2097151, 2097151,
    2097151, 2097151, 2097088, 2097088, 2097088, 2097088, 2097151,
    2097151, 2097151, 2097151, 2097151, 2097151, 2097151, 2097151]⟩

/-- Mask-4 draw state after the first 360 zigzag cells. -/
def c6mid4_6 : Bitmap :=
  ⟨21, 21,
   [2084991, 1072193, 1527389, 1527901, 1529949, 1070145, 2086271, 1024,
    5696, 512560, 1413332, 499004, 1896032, 171520, 1067647, 778817,
    1504861, 1996381, 275549, 1252417, 1691263],
   [2097151, 2097151, 2097151, 2097151, 2097151, 2097151, 2097151,
    2097151, 2097151, 2097148, 2097148, 2097148, 2097148, 2097151,
    2097151, 2097151, 2097151, 2097151, 2097151, 2097151, 2097151]⟩

/-- Mask-5 draw state after the first 60 zigzag cells. -/
def c6mid5_1 : Bitmap :=
  ⟨21, 21,
   [2080895, 1065025, 1523805, 1523805, 1523805, 1065025, 2086271, 0, 64,
    524288, 1048640, 0, 1572928, 1572864, 1048703, 1572929, 524381, 93,
    1572957, 1048641, 127],
   [2089471, 2089471, 2089471, 2089471, 2089471, 2089471, 2097151,
    2089471, 2089471, 1572928, 1572928, 1572928, 1572928, 1573375,
    1573375, 1573375, 1573375, 1573375, 1573375, 1573375, 1573375]⟩

/-- Mask-5 draw state after the first 120 zigzag cells. -/
def c6mid5_2 : Bitmap :=
  ⟨21, 21,
   [2080895, 1065025, 1523805, 1523805, 1523805, 1065025, 2086271, 0, 64,
    950272, 1212480, 0, 2031680, 1736704, 1507455, 1900609, 917597,
    393309, 1572957, 1343553, 65663],
   [2089471, 2089471, 2089471, 2089471, 2089471, 2089471, 2097151,
    2089471, 2089471, 2064448, 2064448, 2064448, 2064448, 2064895,
    2064895, 2064895, 2064895, 2064895, 2064895, 2064895, 2064895]⟩

/-- Mask-5 draw state after the first 180 zigzag cells. -/
def c6mid5_3 : Bitmap :=
  ⟨21, 21,
   [2080895, 1065025, 1523805, 1523805, 1523805, 1065025, 2086271, 0, 64,
    974848, 1212480, 0, 2056256, 1761280, 1523839, 1914945, 921693,
    397405, 1589341, 1343553, 75903],
   [2089471, 2089471, 2089471, 2089471, 2089471, 2089471, 2097151,
    2089471, 2089471, 2089024, 2089024, 2089024, 2089024, 2089471,
    2089471, 2095615, 2095615, 2095615, 2095615, 2095615, 2095615]⟩

/-- Mask-5 draw state after the first 240 zigzag cells. -/
def c6mid5_4 : Bitmap :=
  ⟨21, 21,
   [2088575, 1072193, 1528413, 1526365, 1530461, 1070145, 2086271, 6656,
    5184, 980480, 1215552, 512, 2056256, 1768960, 1529471, 1914945,
    921693, 397405, 1589341, 1343553, 75903],
   [2097151, 2097151, 2097151, 2097151, 2097151, 2097151, 2097151,
    2097151, 2097151, 2096704, 2096704, 2096704, 2096704, 2097151,
    2097151, 2095615, 2095615, 2095615, 2095615, 2095615, 2095615]⟩

/-- Mask-5 draw state after the first 300 zigzag cells. -/
def c6mid5_5 : Bitmap :=
  ⟨21, 21,
   [2088575, 1072193, 1528413, 1526365, 1530461, 1070145, 2086271, 6656,
    5184, 980608, 1215680, 768, 2056256, 1768960, 1529471, 1914945,
    922717, 398941, 1590365, 1344065, 76927],
   [2097151, 2097151, 2097151, 2097151, 2097151, 2097151, 2097151,
    2097151, 2097151, 2097088, 2097088, 2097088, 2097088, 2097151,
    2097151, 2097151, 2097151, 2097151, 2097151, 2097151, 2097151]⟩

/-- Mask-5 draw state after the first 360 zigzag cells. -/
def c6mid5_6 : Bitmap :=
  ⟨21, 21,
   [2088575, 1072193, 1528413, 1526365, 1530461, 1070145, 2086271, 6656,
    5184, 980640, 1215716, 772, 2056280, 1768960, 1529471, 1914945,
    922717, 398941, 1590365, 1344065, 76927],
   [2097151, 2097151, 2097151, 2097151, 2097151, 2097151, 2097151,
    2097151, 2097151, 2097148, 2097148, 2097148, 2097148, 2097151,
    2097151, 2097151, 2097151, 2097151, 2097151, 2097151, 2097151]⟩

/-- Mask-6 draw state after the first 60 zigzag cells. -/
def c6mid6_1 : Bitmap :=
  ⟨21, 21,
   [2080895, 1065025, 1523805, 1523805, 1523805, 1065025, 2086271, 0, 64,
    524288, 64, 0, 1572928, 0, 1572991, 1572929, 1572957, 93, 1572957,
    524353, 524415],
   [2089471, 2089471, 2089471, 2089471, 2089471, 2089471, 2097151,
    2089471, 2089471, 1572928, 1572928, 1572928, 1572928, 1573375,
    1573375, 1573375, 1573375, 1573375, 1573375, 1573375, 1573375]⟩

/-- Mask-6 draw state after the first 120 zigzag cells. -/
def c6mid6_2 : Bitmap :=
  ⟨21, 21,
   [2080895, 1065025, 1523805, 1523805, 1523805, 1065025, 2086271, 0, 64,
    950272, 32832, 196608, 2031680, 163840, 1966207, 1900609, 1835101,
    327773, 1572957, 819265, 524415],
   [2089471, 2089471, 2089471, 2089471, 2089471, 2089471, 2097151,
    2089471, 2089471, 2064448, 2064448, 2064448, 2064448, 2064895,
    2064895, 2064895, 2064895, 2064895, 2064895, 2064895, 2064895]⟩

/-- Mask-6 draw state after the first 180 zigzag cells. -/
def c6mid6_3 : Bitmap :=
  ⟨21, 21,
   [2080895, 1065025, 1523805, 1523805, 1523805, 1065025, 2086271, 0, 64,
    974848, 49216, 196608, 2056256, 163840, 1990783, 1914945, 1857629,
    333917, 1589341, 843841, 526463],
   [2089471, 2089471, 2089471, 2089471, 2089471, 2089471, 2097151,
    2089471, 2089471, 2089024, 2089024, 2089024, 2089024, 2089471,
    2089471, 2095615, 2095615, 2095615, 2095615, 2095615, 2095615]⟩

/-- Mask-6 draw state after the first 240 zigzag cells. -/
def c6mid6_4 : Bitmap :=
  ⟨21, 21,
   [2088575, 1072193, 1529437, 1526365, 1528413, 1071169, 2086271, 6656,
    4160, 980480, 50240, 200192, 2056256, 171520, 1995391, 1914945,
    1857629, 333917, 1589341, 843841, 526463],
   [2097151, 2097151, 2097151, 2097151, 2097151, 2097151, 2097151,
    2097151, 2097151, 2096704, 2096704, 2096704, 2096704, 2097151,
    2097151, 2095615, 2095615, 2095615, 2095615, 2095615, 2095615]⟩

/-- Mask-6 draw state after the first 300 zigzag cells. -/
def c6mid6_5 : Bitmap :=
  ⟨21, 21,
   [2088575, 1072193, 1529437, 1526365, 1528413, 1071169, 2086271, 6656,
    4160, 980608, 50624, 200448, 2056256, 171520, 1995391, 1914945,
    1858653, 334429, 1590365, 844353, 526463],
   [2097151, 2097151, 2097151, 2097151, 2097151, 2097151, 2097151,
    2097151, 2097151, 2097088, 2097088, 2097088, 2097088, 2097151,
    2097151, 2097151, 2097151, 2097151, 2097151, 2097151, 2097151]⟩

/-- Mask-6 draw state after the first 360 zigzag cells. -/
def c6mid6_6 : Bitmap :=
  ⟨21, 21,
   [2088575, 1072193, 1529437, 1526365, 1528413, 1071169, 2086271, 6656,
    4160, 980640, 50624, 200500, 2056280, 171520, 1995391, 1914945,
    1858653, 334429, 1590365, 844353, 526463],
   [2097151, 2097151, 2097151, 2097151, 2097151, 2097151, 2097151,
    2097151, 2097151, 2097148, 2097148, 2097148, 2097148, 2097151,
    2097151, 2097151, 2097151, 2097151, 2097151, 2097151, 2097151]⟩

/-- Mask-7 draw state after the first 60 zigzag cells. -/
def c6mid7_1 : Bitmap :=
  ⟨21, 21,
   [2080895, 1065025, 1523805, 1523805, 1523805, 1065025, 2086271, 0, 64,
    1048576, 524352, 1572864, 1048640, 1572864, 1048703, 65, 1048669,
    1572957, 1048669, 1048641, 127],
   [2089471, 2089471, 2089471, 2089471, 2089471, 2089471, 2097151,
    2089471, 2089471, 1572928, 1572928, 1572928, 1572928, 1573375,
    1573375, 1573375, 1573375, 1573375, 1573375, 1573375, 1573375]⟩

/-- Mask-7 draw state after the first 120 zigzag cells. -/
def c6mid7_2 : Bitmap :=
  ⟨21, 21,
   [2080895, 1065025, 1523805, 1523805, 1523805, 1065025, 2086271, 0, 64,
    1114112, 655424, 1867776, 1409088, 1900544, 1343615, 163905, 1474653,
    1736797, 1212509, 1245249, 163967],
   [2089471, 2089471, 2089471, 2089471, 2089471, 2089471, 2097151,
    2089471, 2089471, 2064448, 2064448, 2064448, 2064448, 2064895,
    2064895, 2064895, 2064895, 2064895, 2064895, 2064895, 2064895]⟩

/-- Mask-7 draw state after the first 180 zigzag cells. -/
def c6mid7_3 : Bitmap :=
  ⟨21, 21,
   [2080895, 1065025, 1523805, 1523805, 1523805, 1065025, 2086271, 0, 64,
    1114112, 680000, 1892352, 1425472, 1925120, 1359999, 180289, 1503325,
    1761373, 1239133, 1251393, 172159],
   [2089471, 2089471, 2089471, 2089471, 2089471, 2089471, 2097151,
    2089471, 2089471, 2089024, 2089024, 2089024, 2089024, 2089471,
    2089471, 2095615, 2095615, 2095615, 2095615, 2095615, 2095615]⟩

/-- Mask-7 draw state after the first 240 zigzag cells. -/
def c6mid7_4 : Bitmap :=
  ⟨21, 21,
   [2086015, 1065537, 1530973, 1528925, 1529949, 1066561, 2086271, 1024,
    6720, 1116160, 683584, 1896448, 1428032, 1925120, 1366143, 180289,
    1503325, 1761373, 1239133, 1251393, 172159],
   [2097151, 2097151, 2097151, 2097151, 2097151, 2097151, 2097151,
    2097151, 2097151, 2096704, 2096704, 2096704, 2096704, 2097151,
    2097151, 2095615, 2095615, 2095615, 2095615, 2095615, 2095615]⟩

/-- Mask-7 draw state after the first 300 zigzag cells. -/
def c6mid7_5 : Bitmap :=
  ⟨21, 21,
   [2086015, 1065537, 1530973, 1528925, 1529949, 1066561, 2086271, 1024,
    6720, 1116416, 683840, 1896576, 1428160, 1925120, 1366143, 181825,
    1504861, 1762397, 1240669, 1252417, 172671],
   [2097151, 2097151, 2097151, 2097151, 2097151, 2097151, 2097151,
    2097151, 2097151, 2097088, 2097088, 2097088, 2097088, 2097151,
    2097151, 2097151, 2097151, 2097151, 2097151, 2097151, 2097151]⟩

/-- Mask-7 draw state after the first 360 zigzag cells. -/
def c6mid7_6 : Bitmap :=
  ⟨21, 21,
   [2086015, 1065537, 1530973, 1528925, 1529949, 1066561, 2086271, 1024,
    6720, 1116444, 683880, 1896584, 1428208, 1925120, 1366143, 181825,
    1504861, 1762397, 1240669, 1252417, 172671],
   [2097151, 2097151, 2097151, 2097151, 2097151, 2097151, 2097151,
    2097151, 2097151, 2097148, 2097148, 2097148, 2097148, 2097151,
    2097151, 2097151, 2097151, 2097151, 2097151, 2097151, 2097151]⟩

/-- The test draw of mask 0 for `c6data` (literal planes, checked by `c6draw0`). -/
def c6bm0 : Bitmap :=
  ⟨21, 21,
   [2086015, 1066561, 1528925, 1528925, 1530973, 1068609, 2086271, 0,
    4672, 1116446, 216056, 965039, 1428210, 1328128, 430207, 181825,
    2085469, 568413, 1240669, 1718337, 1108607],
   [2097151, 2097151, 2097151, 2097151, 2097151, 2097151, 2097151,
    2097151, 2097151, 2097151, 2097151, 2097151, 2097151, 2097151,
    2097151, 2097151, 2097151, 2097151, 2097151, 2097151, 2097151]⟩

/-- The test draw of mask 1 for `c6data` (literal planes, checked by `c6draw1`). -/
def c6bm1 : Bitmap :=
  ⟨21, 21,
   [2088575, 1068097, 1531485, 1531485, 1529437, 1066049, 2086271, 2560,
    6208, 1811380, 647506, 267013, 2056280, 2027008, 801407, 552001,
    1407069, 132701, 1590365, 1086017, 1720447],
   [2097151, 2097151, 2097151, 2097151, 2097151, 2097151, 2097151,
    2097151, 2097151, 2097151, 2097151, 2097151, 2097151, 2097151,
    2097151, 2097151, 2097151, 2097151, 2097151, 2097151, 2097151]⟩

/-- The test draw of mask 2 for `c6data` (literal planes, checked by `c6draw2`). -/
def c6bm2 : Bitmap :=
  ⟨21, 21,
   [2085503, 1072705, 1528413, 1526877, 1530461, 1070657, 2086271, 6144,
    5184, 2044349, 1215716, 33036, 265710, 1735680, 1529471, 851521,
    922717, 431197, 206941, 1310785, 76927],
   [2097151, 2097151, 2097151, 2097151, 2097151, 2097151, 2097151,
    2097151, 2097151, 2097151, 2097151, 2097151, 2097151, 2097151,
    2097151, 2097151, 2097151, 2097151, 2097151, 2097151, 2097151]⟩

/-- The test draw of mask 3 for `c6data` (literal planes, checked by `c6draw3`). -/
def c6bm3 : Bitmap :=
  ⟨21, 21,
   [2085503, 1066049, 1524829, 1526877, 1523805, 1065025, 2086271, 512,
    576, 2044349, 284617, 866199, 265710, 828928, 1761407, 851521,
    1625693, 729693, 206941, 186945, 825983],
   [2097151, 2097151, 2097151, 2097151, 2097151, 2097151, 2097151,
    2097151, 2097151, 2097151, 2097151, 2097151, 2097151, 2097151,
    2097151, 2097151, 2097151, 2097151, 2097151, 2097151, 2097151]⟩

/-- The test draw of mask 4 for `c6data` (literal planes, checked by `c6draw4`). -/
def c6bm4 : Bitmap :=
  ⟨21, 21,
   [2084991, 1072193, 1527389, 1527901, 1529949, 1070145, 2086271, 1024,
    5696, 512563, 1413333, 499005, 1896032, 171520, 1067647, 778817,
    1504861, 1996381, 275549, 1252417, 1691263],
   [2097151, 2097151, 2097151, 2097151, 2097151, 2097151, 2097151,
    2097151, 2097151, 2097151, 2097151, 2097151, 2097151, 2097151,
    2097151, 2097151, 2097151, 2097151, 2097151, 2097151, 2097151]⟩

/-- The test draw of mask 5 for `c6data` (literal planes, checked by `c6draw5`). -/
def c6bm5 : Bitmap :=
  ⟨21, 21,
   [2088575, 1072193, 1528413, 1526365, 1530461, 1070145, 2086271, 6656,
    5184, 980641, 1215716, 772, 2056280, 1768960, 1529471, 1914945,
    922717, 398941, 1590365, 1344065, 76927],
   [2097151, 2097151, 2097151, 2097151, 2097151, 2097151, 2097151,
    2097151, 2097151, 2097151, 2097151, 2097151, 2097151, 2097151,
    2097151, 2097151, 2097151, 2097151, 2097151, 2097151, 2097151]⟩

/-- The test draw of mask 6 for `c6data` (literal planes, checked by `c6draw6`). -/
def c6bm6 : Bitmap :=
  ⟨21, 21,
   [2088575, 1072193, 1529437, 1526365, 1528413, 1071169, 2086271, 6656,
    4160, 980641, 50624, 200500, 2056280, 171520, 1995391, 1914945,
    1858653, 334429, 1590365, 844353, 526463],
   [2097151, 2097151, 2097151, 2097151, 2097151, 2097151, 2097151,
    2097151, 2097151, 2097151, 2097151, 2097151, 2097151, 2097151,
    2097151, 2097151, 2097151, 2097151, 2097151, 2097151, 2097151]⟩

/-- The test draw of mask 7 for `c6data` (literal planes, checked by `c6draw7`). -/
def c6bm7 : Bitmap :=
  ⟨21, 21,
   [2086015, 1065537, 1530973, 1528925, 1529949, 1066561, 2086271, 1024,
    6720, 1116446, 683882, 1896587, 1428210, 1925120, 1366143, 181825,
    1504861, 1762397, 1240669, 1252417, 172671],
   [2097151, 2097151, 2097151, 2097151, 2097151, 2097151, 2097151,
    2097151, 2097151, 2097151, 2097151, 2097151, 2097151, 2097151,
    2097151, 2097151, 2097151, 2097151, 2097151, 2097151, 2097151]⟩

/-- C5: every pair of 15-bit format codes for distinct `(ecc, mask)` pairs
differs in at least 7 bit positions, and every pair of 18-bit version codes
for distinct versions in 7..40 differs in at least 8 bit positions. -/
theorem formatBits_versionBits_distance :
    (∀ e1 ∈ ECModeList, ∀ e2 ∈ ECModeList, ∀ m1 < 8, ∀ m2 < 8,
      (e1 ≠ e2 ∨ m1 ≠ m2) →
        7 ≤ bitDiff (formatBits e1 m1) (formatBits e2 m2) 15) ∧
    (∀ v1 ≤ 40, ∀ v2 ≤ 40, 7 ≤ v1 → 7 ≤ v2 → v1 ≠ v2 →
        8 ≤ bitDiff (versionBits v1) (versionBits v2) 18) :=
  ⟨by decide, by decide⟩

/-- Witness for `formatBits_versionBits_distance` at `(low, 0)` vs `(high, 7)`
and versions 7 vs 40. -/
theorem formatBits_versionBits_distance_witness :
    (ECLevel.low ∈ ECModeList ∧ ECLevel.high ∈ ECModeList ∧ (0 : Nat) < 8 ∧
        (7 : Nat) < 8 ∧ ECLevel.low ≠ ECLevel.high) ∧
      7 ≤ bitDiff (formatBits .low 0) (formatBits .high 7) 15 ∧
      8 ≤ bitDiff (versionBits 7) (versionBits 40) 18 :=
  ⟨by decide,
   formatBits_versionBits_distance.1 .low (by decide) .high (by decide) 0
     (by decide) 7 (by decide) (Or.inl (by decide)),
   formatBits_versionBits_distance.2 7 (by decide) 40 (by decide) (by decide)
     (by decide) (by decide)⟩

/-- C10: consistency of the capacity descriptor for every version and level:
`total` matches the `BYTES` table, `total` decomposes into the per-block data
lengths plus the ECC codewords, `capacity` is eight times the data codeword
count, and the block-shape fields are in range. -/
theorem capacity_consistent :
    ∀ v, 1 ≤ v → v ≤ 40 → ∀ e ∈ ECModeList,
      (capacity v e).total = BYTES.getD (v - 1) 0 ∧
      (capacity v e).total =
        (capacity v e).shortBlocks * (capacity v e).blockLen +
        ((capacity v e).numBlocks - (capacity v e).shortBlocks) *
          ((capacity v e).blockLen + 1) +
        (capacity v e).words * (capacity v e).numBlocks ∧
      (capacity v e).capacity =
        8 * ((capacity v e).total - (capacity v e).words * (capacity v e).numBlocks) ∧
      1 ≤ (capacity v e).shortBlocks ∧
      (capacity v e).shortBlocks ≤ (capacity v e).numBlocks ∧
      0 < (capacity v e).blockLen := by
  decide

/-- Witness for `capacity_consistent` at version 5, level quartile. -/
theorem capacity_consistent_witness :
    (1 ≤ 5 ∧ 5 ≤ 40 ∧ ECLevel.quartile ∈ ECModeList) ∧
      (capacity 5 .quartile).total = BYTES.getD 4 0 :=
  ⟨by decide, ((capacity_consistent 5 (by decide) (by decide) .quartile
      (by decide)).1.trans (by decide))⟩

/-! ## Helper lemmas about the array primitives -/

theorem getD_zero_of_le (l : List Nat) (i : Nat) (h : l.length ≤ i) :
    l.getD i 0 = 0 := by
  simp [List.getD_eq_getElem?_getD, List.getElem?_eq_none h]

theorem getD_set_ne (l : List Nat) (i j x : Nat) (h : i ≠ j) :
    (l.set i x).getD j 0 = l.getD j 0 := by
  simp [List.getD_eq_getElem?_getD, List.getElem?_set_ne h]

theorem getD_set_eq (l : List Nat) (i x : Nat) (h : i < l.length) :
    (l.set i x).getD i 0 = x := by
  simp [List.getD_eq_getElem?_getD, List.getElem?_set_self, h]

theorem tGet_natCast (l : List Nat) (n : Nat) : tGet l (n : Int) = l.getD n 0 := by
  unfold tGet
  by_cases h : n < l.length
  · have h0 : (0 : Int) ≤ (n : Int) := Int.natCast_nonneg n
    have h1 : (n : Int) < l.length := by exact_mod_cast h
    simp [h0, h1]
  · have h1 : ¬((n : Int) < l.length) := by exact_mod_cast h
    rw [if_neg (fun hc => h1 hc.2), getD_zero_of_le l n (Nat.le_of_not_lt h)]

theorem tGet_neg (l : List Nat) (i : Int) (h : i < 0) : tGet l i = 0 := by
  unfold tGet
  have : ¬(0 ≤ i) := by omega
  simp [this]

theorem tGet_ge (l : List Nat) (i : Int) (h : (l.length : Int) ≤ i) : tGet l i = 0 := by
  unfold tGet
  have : ¬(i < l.length) := by omega
  simp [this]

theorem toUint32_natCast (x : Nat) (hx : x < 2 ^ 32) : toUint32 (x : Int) = x := by
  unfold toUint32
  rw [Int.emod_eq_of_lt (Int.natCast_nonneg x) (by exact_mod_cast hx)]
  exact Int.toNat_natCast x

namespace Bitmap

/-- For nonnegative in-range-representable coordinates, `get` reads bit
`x % 32` of word `y * words + x / 32` of the value plane. -/
theorem get_natCast (b : Bitmap) (x y : Nat) (hx : x < 2 ^ 32) :
    b.get x y = ((b.value.getD (y * b.words + x / 32) 0 &&& (1 <<< (x % 32))) != 0) := by
  unfold get wordIndexI bitMask
  rw [toUint32_natCast x hx]
  have hsh : x >>> 5 = x / 32 := by simp [Nat.shiftRight_eq_div_pow]
  have hidx : ((y : Int) * (b.words : Int) + ((x >>> 5 : Nat) : Int)) =
      (((y * b.words + x / 32 : Nat)) : Int) := by
    rw [hsh]; push_cast; ring
  rw [hidx, tGet_natCast]

/-- Same for `isDefined` on the defined plane. -/
theorem isDefined_natCast (b : Bitmap) (x y : Nat) (hx : x < 2 ^ 32) :
    b.isDefined x y =
      ((b.defined.getD (y * b.words + x / 32) 0 &&& (1 <<< (x % 32))) != 0) := by
  unfold isDefined wordIndexI bitMask
  rw [toUint32_natCast x hx]
  have hsh : x >>> 5 = x / 32 := by simp [Nat.shiftRight_eq_div_pow]
  have hidx : ((y : Int) * (b.words : Int) + ((x >>> 5 : Nat) : Int)) =
      (((y * b.words + x / 32 : Nat)) : Int) := by
    rw [hsh]; push_cast; ring
  rw [hidx, tGet_natCast]

/-- C8 (amended): the single-cell probes `get` and `isDefined` perform no
bounds check and never fail; they are total and return a boolean for every
caller-supplied point.  For `y ≥ height`, and for `y < 0` with `x` inside
the row, the computed backing-store index is out of range and the JS
`undefined` read coerces to 0, so both probes return `false`.  (An
out-of-range `x` is not validated either, but may alias into a
neighbouring row's storage word and return its bit — see the
counterexample.) -/
theorem get_isDefined_out_of_range (b : Bitmap)
    (hv : b.value.length = b.words * b.height)
    (hd : b.defined.length = b.words * b.height)
    (hw : b.width < 2 ^ 32)
    (x y : Int)
    (h : (b.height : Int) ≤ y ∨ (y < 0 ∧ 0 ≤ x ∧ x < (b.width : Int))) :
    b.get x y = false ∧ b.isDefined x y = false := by
  have key : tGet b.value (b.wordIndexI x y) = 0 ∧
      tGet b.defined (b.wordIndexI x y) = 0 := by
    rcases h with h | ⟨hy, hx0, hxw⟩
    · have hs : (0 : Int) ≤ ((toUint32 x >>> 5 : Nat) : Int) := Int.natCast_nonneg _
      have hlen : (b.value.length : Int) ≤ b.wordIndexI x y := by
        unfold wordIndexI
        have : (b.value.length : Int) = (b.words : Nat) * (b.height : Nat) := by
          rw [hv]; push_cast; ring
        rw [this]
        have h1 : ((b.words : Int)) * (b.height : Int) ≤ y * (b.words : Int) := by
          have := mul_le_mul_of_nonneg_right h (by positivity : (0:Int) ≤ (b.words : Int))
          linarith [this]
        linarith
      have hlen2 : (b.defined.length : Int) ≤ b.wordIndexI x y := by
        rw [show (b.defined.length : Int) = (b.value.length : Int) by rw [hv, hd]]
        exact hlen
      exact ⟨tGet_ge _ _ hlen, tGet_ge _ _ hlen2⟩
    · have hwpos : 0 < b.width := by
        by_contra hc
        push_neg at hc
        interval_cases hww : b.width
        · simp at hxw; omega
      have hxnat : toUint32 x = x.toNat := by
        unfold toUint32
        rw [Int.emod_eq_of_lt hx0 (by omega)]
      have hxlt : x.toNat < b.width := by omega
      have hslt : x.toNat >>> 5 < b.words := by
        rw [Nat.shiftRight_eq_div_pow]
        show x.toNat / 2 ^ 5 < (b.width + 31) / 32
        have h1 : x.toNat / 32 ≤ (b.width - 1) / 32 := Nat.div_le_div_right (by omega)
        have h2 : (b.width - 1) / 32 + 1 = (b.width - 1 + 32) / 32 := by
          rw [Nat.add_div_right _ (by norm_num)]
        have h3 : (b.width - 1 + 32) / 32 ≤ (b.width + 31) / 32 :=
          Nat.div_le_div_right (by omega)
        omega
      have hneg : b.wordIndexI x y < 0 := by
        unfold wordIndexI
        rw [hxnat]
        have hwords : ((x.toNat >>> 5 : Nat) : Int) < (b.words : Int) := by exact_mod_cast hslt
        have hy1 : y ≤ -1 := by omega
        have : y * (b.words : Int) ≤ -1 * (b.words : Int) :=
          mul_le_mul_of_nonneg_right hy1 (by positivity)
        nlinarith
      exact ⟨tGet_neg _ _ hneg, tGet_neg _ _ hneg⟩
  unfold get isDefined
  rw [key.1, key.2]
  simp

/-- C8 counterexample: the claim says an out-of-range probe such as
`get(5, 0)` on a 3x3 bitmap fails with an out-of-bounds error; instead both
probes return a boolean.  Moreover an out-of-range `x` can alias into the
next row's storage and even return `true`: on a 2x33 bitmap with the cell
`(6, 1)` set dark, `get(70, 0)` — far outside row 0 — returns `true`. -/
theorem get_out_of_range_cex :
    Bitmap.get ((Bitmap.make 3 3).set 1 1 (some true)) 5 0 = false ∧
    Bitmap.isDefined ((Bitmap.make 3 3).set 1 1 (some true)) 5 0 = false ∧
    Bitmap.get ((Bitmap.make 2 33).set 6 1 (some true)) 70 0 = true := by
  decide

/-- Witness for `get_isDefined_out_of_range` on a concrete 3x3 bitmap at
the out-of-range probe `(1, 5)`. -/
theorem get_isDefined_out_of_range_witness :
    (((Bitmap.make 3 3).set 1 1 (some true)).value.length =
        ((Bitmap.make 3 3).set 1 1 (some true)).words *
          ((Bitmap.make 3 3).set 1 1 (some true)).height ∧
      (3 : Nat) < 2 ^ 32 ∧
      ((((Bitmap.make 3 3).set 1 1 (some true)).height : Int) ≤ 5)) ∧
    Bitmap.get ((Bitmap.make 3 3).set 1 1 (some true)) 1 5 = false ∧
    Bitmap.isDefined ((Bitmap.make 3 3).set 1 1 (some true)) 1 5 = false :=
  ⟨by decide,
   get_isDefined_out_of_range ((Bitmap.make 3 3).set 1 1 (some true))
     (by decide) (by decide) (by decide) 1 5 (Or.inl (by decide))⟩

end Bitmap

theorem testBit_u32 (x c : Nat) (h : c < 32) : (x % 2 ^ 32).testBit c = x.testBit c := by
  rw [Nat.testBit_mod_two_pow]; simp [h]

namespace Bitmap

theorem masks32_testBit : ∀ st < 5, ∀ c < 32,
    (masks32.getD st 0).testBit c = !(c.testBit st) := by decide

theorem For : ∀ st < 5, ∀ u < 32, u.testBit st = false →
    (u ||| (1 <<< st)) = u + (1 <<< st) ∧ u + (1 <<< st) < 32 := by decide

theorem For2 : ∀ st < 5, ∀ u < 32, u.testBit st = true →
    (u ||| (1 <<< st)) = u := by decide

theorem Fand : ∀ st < 5, ∀ u < 32, u.testBit st = true →
    (u &&& (31 ^^^ (1 <<< st))) = u - (1 <<< st) ∧ (1 <<< st) ≤ u ∧
      (u - (1 <<< st)).testBit st = false := by decide

theorem Fand2 : ∀ st < 5, ∀ u < 32, u.testBit st = false →
    (u &&& (31 ^^^ (1 <<< st))) = u := by decide

theorem Fsub : ∀ st < 5, ∀ u < 32, u.testBit st = false → (1 <<< st) ≤ u →
    (u - (1 <<< st)).testBit st = true := by decide

theorem Fblt : ∀ st < 5, ∀ u < 32, ∀ v < 32, blendBit st u v < 32 := by decide

theorem stage32_testBit (st : Nat) (hst : st < 5) (a : Nat → Nat) (i b : Nat)
    (hi32 : i < 32) (hb32 : b < 32) :
    (stage32 st a i).testBit b = (a (blendBit st i b)).testBit (blendBit st b i) := by
  cases hi : i.testBit st <;> cases hb : b.testBit st <;>
    simp only [stage32, blendBit, u32, hi, hb, Bool.false_eq_true, Bool.true_eq_false,
      if_true, if_false, ite_true, ite_false]
  case false.false =>
    rw [Fand2 st hst i hi32 hi, Fand2 st hst b hb32 hb]
    rw [testBit_u32 _ _ hb32]
    simp only [Nat.testBit_xor, Nat.testBit_shiftLeft, Nat.testBit_land,
      Nat.testBit_shiftRight]
    by_cases hsb : 1 <<< st ≤ b
    · rw [masks32_testBit st hst _ (Nat.lt_of_le_of_lt (Nat.sub_le _ _) hb32),
        Fsub st hst b hb32 hb hsb]
      simp [hsb]
    · simp [hsb]
  case false.true =>
    obtain ⟨e1, hlt1⟩ := For st hst i hi32 hi
    obtain ⟨e2, hsb, hbit2⟩ := Fand st hst b hb32 hb
    rw [e1, e2]
    rw [testBit_u32 _ _ hb32]
    simp only [Nat.testBit_xor, Nat.testBit_shiftLeft, Nat.testBit_land,
      Nat.testBit_shiftRight]
    rw [masks32_testBit st hst _ (Nat.lt_of_le_of_lt (Nat.sub_le _ _) hb32), hbit2]
    rw [Nat.add_sub_cancel' hsb]
    have hd : decide (1 <<< st ≤ b) = true := by simp [hsb]
    rw [hd]
    simp only [Bool.true_and, Bool.not_false, Bool.and_true]
    cases h1 : (a i).testBit b <;> cases h2 : (a (i + 1 <<< st)).testBit (b - 1 <<< st) <;>
      simp [h1, h2]
  case true.false =>
    obtain ⟨e1, hsi, hbit1⟩ := Fand st hst i hi32 hi
    obtain ⟨e2, hlt2⟩ := For st hst b hb32 hb
    rw [e1, e2]
    rw [testBit_u32 _ _ hb32]
    simp only [Nat.testBit_xor, Nat.testBit_land, Nat.testBit_shiftRight]
    rw [masks32_testBit st hst _ hb32, hb]
    simp only [Bool.not_false, Bool.and_true]
    rw [Nat.add_comm (1 <<< st) b]
    cases h1 : (a i).testBit b <;> cases h2 : (a (i - 1 <<< st)).testBit (b + 1 <<< st) <;>
      simp [h1, h2]
  case true.true =>
    rw [For2 st hst i hi32 hi, For2 st hst b hb32 hb]
    rw [testBit_u32 _ _ hb32]
    simp only [Nat.testBit_xor, Nat.testBit_land, Nat.testBit_shiftRight]
    rw [masks32_testBit st hst _ hb32, hb]
    simp

end Bitmap

namespace Bitmap

theorem stagesAux (l : List Nat) (hl : ∀ st ∈ l, st < 5) :
    ∀ (a : Nat → Nat) (i b : Nat), i < 32 → b < 32 →
    ((l.foldl (fun acc st => stage32 st acc) a) i).testBit b =
      (a (blendSeq l.reverse i b)).testBit (blendSeq l.reverse b i) := by
  induction l using List.reverseRecOn with
  | nil => intro a i b hi hb; simp [blendSeq]
  | append_singleton l st ih =>
    intro a i b hi hb
    have hst : st < 5 := hl st (by simp)
    rw [List.foldl_append, List.foldl_cons, List.foldl_nil]
    rw [stage32_testBit st hst _ i b hi hb]
    rw [ih (fun s hs => hl s (by simp [hs])) a (blendBit st i b) (blendBit st b i)
      (Fblt st hst i hi b hb) (Fblt st hst b hb i hi)]
    rw [List.reverse_append]
    rfl

theorem transpose32_testBit (a : Nat → Nat) (i b : Nat) (hi : i < 32) (hb : b < 32) :
    (transpose32 a i).testBit b = (a b).testBit i := by
  have h := stagesAux (List.range 5) (by decide) a i b hi hb
  have key : ∀ u < 32, ∀ v < 32, blendSeq ((List.range 5).reverse) u v = v := by decide
  rw [transpose32, h, key i hi b hb, key b hb i hi]

end Bitmap

namespace Bitmap

theorem foldl_set2_dims (ws : List (Nat × Nat × Nat)) (d : Bitmap) :
    (ws.foldl (fun d w =>
      { d with value := d.value.set w.1 w.2.1, defined := d.defined.set w.1 w.2.2 }) d).height
        = d.height ∧
    (ws.foldl (fun d w =>
      { d with value := d.value.set w.1 w.2.1, defined := d.defined.set w.1 w.2.2 }) d).width
        = d.width ∧
    (ws.foldl (fun d w =>
      { d with value := d.value.set w.1 w.2.1, defined := d.defined.set w.1 w.2.2 }) d).value.length
        = d.value.length ∧
    (ws.foldl (fun d w =>
      { d with value := d.value.set w.1 w.2.1, defined := d.defined.set w.1 w.2.2 }) d).defined.length
        = d.defined.length := by
  induction ws generalizing d with
  | nil => exact ⟨rfl, rfl, rfl, rfl⟩
  | cons w t ih =>
    rw [List.foldl_cons]
    obtain ⟨h1, h2, h3, h4⟩ := ih
      { d with value := d.value.set w.1 w.2.1, defined := d.defined.set w.1 w.2.2 }
    refine ⟨h1, h2, ?_, ?_⟩
    · rw [h3]; simp
    · rw [h4]; simp

theorem foldl_set2_frame (ws : List (Nat × Nat × Nat)) (d : Bitmap) (p : Nat)
    (h : ∀ w ∈ ws, w.1 ≠ p) :
    (ws.foldl (fun d w =>
      { d with value := d.value.set w.1 w.2.1, defined := d.defined.set w.1 w.2.2 }) d).value.getD p 0
        = d.value.getD p 0 ∧
    (ws.foldl (fun d w =>
      { d with value := d.value.set w.1 w.2.1, defined := d.defined.set w.1 w.2.2 }) d).defined.getD p 0
        = d.defined.getD p 0 := by
  induction ws generalizing d with
  | nil => exact ⟨rfl, rfl⟩
  | cons w t ih =>
    rw [List.foldl_cons]
    obtain ⟨h1, h2⟩ := ih
      { d with value := d.value.set w.1 w.2.1, defined := d.defined.set w.1 w.2.2 }
      (fun w' hw' => h w' (List.mem_cons_of_mem _ hw'))
    have hne : w.1 ≠ p := h w (List.mem_cons_self w t)
    refine ⟨?_, ?_⟩
    · rw [h1]; exact getD_set_ne _ _ _ _ hne
    · rw [h2]; exact getD_set_ne _ _ _ _ hne

theorem foldl_set2_unique (ws : List (Nat × Nat × Nat)) (d : Bitmap) (p pay1 pay2 : Nat)
    (hlenv : p < d.value.length) (hlend : p < d.defined.length)
    (hmem : ∃ w ∈ ws, w.1 = p)
    (huni : ∀ w ∈ ws, w.1 = p → w.2.1 = pay1 ∧ w.2.2 = pay2) :
    (ws.foldl (fun d w =>
      { d with value := d.value.set w.1 w.2.1, defined := d.defined.set w.1 w.2.2 }) d).value.getD p 0
        = pay1 ∧
    (ws.foldl (fun d w =>
      { d with value := d.value.set w.1 w.2.1, defined := d.defined.set w.1 w.2.2 }) d).defined.getD p 0
        = pay2 := by
  induction ws generalizing d with
  | nil => obtain ⟨w, hw, _⟩ := hmem; exact absurd hw (List.not_mem_nil w)
  | cons w t ih =>
    rw [List.foldl_cons]
    by_cases hw : w.1 = p
    · obtain ⟨e1, e2⟩ := huni w (List.mem_cons_self w t) hw
      by_cases hex : ∃ w' ∈ t, w'.1 = p
      · exact ih
          { d with value := d.value.set w.1 w.2.1, defined := d.defined.set w.1 w.2.2 }
          (by simpa using hlenv) (by simpa using hlend) hex
          (fun w' hw' hp => huni w' (List.mem_cons_of_mem _ hw') hp)
      · push_neg at hex
        obtain ⟨f1, f2⟩ := foldl_set2_frame t
          { d with value := d.value.set w.1 w.2.1, defined := d.defined.set w.1 w.2.2 } p hex
        subst hw
        have hv : (d.value.set w.1 w.2.1).getD w.1 0 = pay1 := by
          rw [getD_set_eq _ _ _ hlenv, e1]
        have hd2 : (d.defined.set w.1 w.2.2).getD w.1 0 = pay2 := by
          rw [getD_set_eq _ _ _ hlend, e2]
        exact ⟨f1.trans hv, f2.trans hd2⟩
    · obtain ⟨w', hw', hp'⟩ := hmem
      have hwt : w' ∈ t := by
        rcases List.mem_cons.mp hw' with h | h
        · exact absurd (h ▸ hp') hw
        · exact h
      exact ih
        { d with value := d.value.set w.1 w.2.1, defined := d.defined.set w.1 w.2.2 }
        (by simpa using hlenv) (by simpa using hlend) ⟨w', hwt, hp'⟩
        (fun w'' hw'' hp => huni w'' (List.mem_cons_of_mem _ hw'') hp)

end Bitmap

namespace Bitmap

theorem transposeWrites_mem (bm : Bitmap) (w : Nat × Nat × Nat) :
    w ∈ transposeWrites bm ↔
      ∃ byk, byk < (bm.height + 31) / 32 ∧ ∃ bx, bx < bm.words ∧ ∃ i, i < 32 ∧
        bx * 32 + i < bm.width ∧
        w = ((bx * 32 + i) * ((bm.height + 31) / 32) + byk,
          transpose32 (blockV bm byk bx) i &&&
            (if byk = (bm.height + 31) / 32 - 1 then rangeMask 0 (tailBits bm.height)
             else 0xffffffff),
          transpose32 (blockD bm byk bx) i &&&
            (if byk = (bm.height + 31) / 32 - 1 then rangeMask 0 (tailBits bm.height)
             else 0xffffffff)) := by
  unfold transposeWrites
  simp only [List.mem_flatMap, List.mem_range, List.mem_filterMap,
    Option.ite_none_right_eq_some, Option.some.injEq]
  constructor
  · rintro ⟨byk, hbyk, bx, hbx, i, ⟨hi, hlt, rfl⟩⟩
    exact ⟨byk, hbyk, bx, hbx, i, hi, hlt, rfl⟩
  · rintro ⟨byk, hbyk, bx, hbx, i, hi, hlt, rfl⟩
    exact ⟨byk, hbyk, bx, hbx, i, ⟨hi, hlt, rfl⟩⟩

end Bitmap

namespace Bitmap

theorem transpose_dims (bm : Bitmap) :
    bm.transpose.height = bm.width ∧ bm.transpose.width = bm.height ∧
    bm.transpose.value.length = (bm.height + 31) / 32 * bm.width ∧
    bm.transpose.defined.length = (bm.height + 31) / 32 * bm.width := by
  unfold transpose
  obtain ⟨h1, h2, h3, h4⟩ := foldl_set2_dims (transposeWrites bm) (make bm.width bm.height)
  exact ⟨h1, h2, by rw [h3]; simp [make], by rw [h4]; simp [make]⟩

theorem transpose_word (bm : Bitmap) (dstY k : Nat)
    (hY : dstY < bm.width) (hk : k < (bm.height + 31) / 32) :
    bm.transpose.value.getD (dstY * ((bm.height + 31) / 32) + k) 0 =
      transpose32 (blockV bm k (dstY / 32)) (dstY % 32) &&&
        (if k = (bm.height + 31) / 32 - 1 then rangeMask 0 (tailBits bm.height)
         else 0xffffffff) ∧
    bm.transpose.defined.getD (dstY * ((bm.height + 31) / 32) + k) 0 =
      transpose32 (blockD bm k (dstY / 32)) (dstY % 32) &&&
        (if k = (bm.height + 31) / 32 - 1 then rangeMask 0 (tailBits bm.height)
         else 0xffffffff) := by
  have hstride : 0 < (bm.height + 31) / 32 := by omega
  have hplen : dstY * ((bm.height + 31) / 32) + k < (bm.height + 31) / 32 * bm.width := by
    calc dstY * ((bm.height + 31) / 32) + k
        < dstY * ((bm.height + 31) / 32) + (bm.height + 31) / 32 := by omega
      _ = (dstY + 1) * ((bm.height + 31) / 32) := by ring
      _ ≤ bm.width * ((bm.height + 31) / 32) := Nat.mul_le_mul_right _ (by omega)
      _ = (bm.height + 31) / 32 * bm.width := Nat.mul_comm _ _
  have hdiv : dstY / 32 < bm.words := by
    show dstY / 32 < (bm.width + 31) / 32
    omega
  have hrec : dstY / 32 * 32 + dstY % 32 = dstY := by omega
  unfold transpose
  apply foldl_set2_unique
  · simp [make]; exact hplen
  · simp [make]; exact hplen
  · refine ⟨((dstY / 32 * 32 + dstY % 32) * ((bm.height + 31) / 32) + k,
      transpose32 (blockV bm k (dstY / 32)) (dstY % 32) &&&
        (if k = (bm.height + 31) / 32 - 1 then rangeMask 0 (tailBits bm.height)
         else 0xffffffff),
      transpose32 (blockD bm k (dstY / 32)) (dstY % 32) &&&
        (if k = (bm.height + 31) / 32 - 1 then rangeMask 0 (tailBits bm.height)
         else 0xffffffff)), ?_, ?_⟩
    · rw [transposeWrites_mem]
      exact ⟨k, hk, dstY / 32, hdiv, dstY % 32, by omega, by omega, rfl⟩
    · rw [hrec]
  · intro w hw hp
    rw [transposeWrites_mem] at hw
    obtain ⟨byk, hbyk, bx, hbx, i, hi, hlt, rfl⟩ := hw
    simp only at hp
    have hmod1 : ((bx * 32 + i) * ((bm.height + 31) / 32) + byk) % ((bm.height + 31) / 32)
        = byk := by
      rw [Nat.mul_comm (bx * 32 + i) ((bm.height + 31) / 32), Nat.mul_add_mod]
      exact Nat.mod_eq_of_lt hbyk
    have hmod2 : (dstY * ((bm.height + 31) / 32) + k) % ((bm.height + 31) / 32) = k := by
      rw [Nat.mul_comm dstY ((bm.height + 31) / 32), Nat.mul_add_mod]
      exact Nat.mod_eq_of_lt hk
    have hbykk : byk = k := by rw [← hmod1, hp, hmod2]
    subst hbykk
    have hq : bx * 32 + i = dstY := by
      have := Nat.add_right_cancel hp
      exact Nat.eq_of_mul_eq_mul_right hstride this
    have hbx' : bx = dstY / 32 := by omega
    have hi' : i = dstY % 32 := by omega
    subst hbx'; subst hi'
    exact ⟨rfl, rfl⟩

end Bitmap

theorem land_shift_ne (w c : Nat) : ((w &&& (1 <<< c)) != 0) = w.testBit c := by
  rw [Nat.shiftLeft_eq, Nat.one_mul, Nat.and_two_pow]
  cases h : w.testBit c <;> simp [h, Nat.pos_iff_ne_zero, (Nat.pos_pow_of_pos c (by norm_num : 0 < 2)).ne']

namespace Bitmap

theorem rangeMask_zero_testBit : ∀ t ≤ 32, ∀ c < 32,
    (rangeMask 0 t).testBit c = decide (c < t) := by decide

theorem ffffffff_testBit : ∀ c < 32, (0xffffffff : Nat).testBit c = true := by decide

theorem tailBits_le (h : Nat) : tailBits h ≤ 32 := by
  unfold tailBits; split <;> omega

theorem transpose_get_cell (bm : Bitmap) (hW : bm.width < 2 ^ 32) (hH : bm.height < 2 ^ 32)
    (x y : Nat) (hx : x < bm.height) (hy : y < bm.width) :
    (bm.transpose.get x y = bm.get y x) ∧
    (bm.transpose.isDefined x y = bm.isDefined y x) := by
  obtain ⟨hh, hw, hlv, hld⟩ := transpose_dims bm
  have hx32 : x < 2 ^ 32 := lt_trans hx hH
  have hy32 : y < 2 ^ 32 := lt_trans hy hW
  have hwords : bm.transpose.words = (bm.height + 31) / 32 := by unfold words; rw [hw]
  have hkx : x / 32 < (bm.height + 31) / 32 := by omega
  obtain ⟨e1, e2⟩ := transpose_word bm y (x / 32) hy hkx
  rw [get_natCast _ x y hx32, isDefined_natCast _ x y hx32, hwords, e1, e2,
    get_natCast bm y x hy32, isDefined_natCast bm y x hy32,
    land_shift_ne, land_shift_ne, land_shift_ne, land_shift_ne,
    Nat.testBit_land, Nat.testBit_land]
  have hmask : (if x / 32 = (bm.height + 31) / 32 - 1 then rangeMask 0 (tailBits bm.height)
      else 0xffffffff).testBit (x % 32) = true := by
    by_cases hdk : x / 32 = (bm.height + 31) / 32 - 1
    · rw [if_pos hdk, rangeMask_zero_testBit (tailBits bm.height) (tailBits_le _) _ (by omega)]
      have : x % 32 < tailBits bm.height := by
        unfold tailBits; split <;> omega
      simp [this]
    · rw [if_neg hdk]
      exact ffffffff_testBit _ (by omega)
  rw [hmask, Bool.and_true, Bool.and_true,
    transpose32_testBit _ _ _ (by omega) (by omega),
    transpose32_testBit _ _ _ (by omega) (by omega)]
  have hxeq : 32 * (x / 32) + x % 32 = x := by omega
  have hcond : x % 32 < min 32 (bm.height - 32 * (x / 32)) := by omega
  have hbv : blockV bm (x / 32) (y / 32) (x % 32) =
      bm.value.getD (x * bm.words + y / 32) 0 := by
    unfold blockV
    rw [if_pos hcond, hxeq]
  have hbd : blockD bm (x / 32) (y / 32) (x % 32) =
      bm.defined.getD (x * bm.words + y / 32) 0 := by
    unfold blockD
    rw [if_pos hcond, hxeq]
  rw [hbv, hbd]
  exact ⟨rfl, rfl⟩

end Bitmap

namespace Bitmap

/-- C4: `transpose` swaps the dimensions and both bit planes are exact
plane-wise flips (`dst[x,y] = src[y,x]` for all in-range cells); applying it
twice restores every cell of both planes. -/
theorem transpose_spec (bm : Bitmap) (hW : bm.width < 2 ^ 32) (hH : bm.height < 2 ^ 32) :
    (bm.transpose.height = bm.width ∧ bm.transpose.width = bm.height) ∧
    (∀ x < bm.height, ∀ y < bm.width,
      bm.transpose.get x y = bm.get y x ∧
      bm.transpose.isDefined x y = bm.isDefined y x) ∧
    (∀ x < bm.width, ∀ y < bm.height,
      bm.transpose.transpose.get x y = bm.get x y ∧
      bm.transpose.transpose.isDefined x y = bm.isDefined x y) := by
  obtain ⟨hh, hw, -, -⟩ := transpose_dims bm
  refine ⟨⟨hh, hw⟩, fun x hx y hy => transpose_get_cell bm hW hH x y hx hy, ?_⟩
  intro x hx y hy
  have h1 := transpose_get_cell bm.transpose (by rw [hw]; exact hH) (by rw [hh]; exact hW)
    x y (by rw [hh]; exact hx) (by rw [hw]; exact hy)
  have h2 := transpose_get_cell bm hW hH y x hy hx
  exact ⟨h1.1.trans h2.1, h1.2.trans h2.2⟩

/-- Witness for `transpose_spec` on a concrete 2x3 bitmap. -/
theorem transpose_spec_witness :
    ((((Bitmap.make 2 3).set 1 0 (some true)).width < 2 ^ 32 ∧
      ((Bitmap.make 2 3).set 1 0 (some true)).height < 2 ^ 32)) ∧
    ((Bitmap.make 2 3).set 1 0 (some true)).transpose.get 0 1 =
      ((Bitmap.make 2 3).set 1 0 (some true)).get 1 0 :=
  ⟨by decide,
   ((transpose_spec ((Bitmap.make 2 3).set 1 0 (some true)) (by decide) (by decide)).2.1
     0 (by decide) 1 (by decide)).1⟩

end Bitmap

namespace Bitmap

theorem jsMod_zero (b : Nat) : jsMod 0 b = 0 := by
  unfold jsMod
  split
  · rfl
  · simp

theorem rowChunksGo_emit (b : Bitmap) (yPos w : Nat) :
    ∀ fuel xPos, w - xPos ≤ fuel →
    (rowChunksGo 0 w fuel xPos).flatMap (fun ch =>
      (List.range ch.2).map (fun bo =>
        ((ch.1 + bo, yPos),
          (b.value.getD (yPos * b.words + (ch.1 >>> 5)) 0 &&&
            (1 <<< ((ch.1 + bo) % 32))) != 0))) =
    (List.range' xPos (w - xPos)).map (fun x =>
      ((x, yPos),
        (b.value.getD (yPos * b.words + x / 32) 0 &&& (1 <<< (x % 32))) != 0)) := by
  intro fuel
  induction fuel with
  | zero =>
    intro xPos hf
    have : w - xPos = 0 := by omega
    rw [rowChunksGo, this]
    rfl
  | succ m ih =>
    intro xPos hf
    by_cases hxw : xPos < w
    · rw [rowChunksGo, if_pos hxw]
      simp only [List.flatMap_cons, Nat.zero_add]
      set n := min (32 - xPos % 32) (w - xPos) with hn
      have hn1 : 1 ≤ n := le_min (by omega) (by omega)
      have hrec := ih (xPos + n) (by omega)
      rw [hrec]
      have hsplit : w - xPos = n + (w - (xPos + n)) := by
        have : n ≤ w - xPos := min_le_right _ _
        omega
      rw [hsplit]
      have happ := List.range'_append xPos n (w - (xPos + n)) 1
      rw [Nat.one_mul] at happ
      rw [Nat.add_comm (w - (xPos + n)) n] at happ
      rw [← happ, List.map_append]
      congr 1
      rw [List.range'_eq_map_range, List.map_map]
      apply List.map_congr_left
      intro bo hbo
      rw [List.mem_range] at hbo
      have hbon : bo < 32 - xPos % 32 := by
        have : n ≤ 32 - xPos % 32 := min_le_left _ _
        omega
      have hdiv : xPos >>> 5 = (xPos + bo) / 32 := by
        rw [Nat.shiftRight_eq_div_pow]
        show xPos / 2 ^ 5 = (xPos + bo) / 32
        omega
      have hmask : (xPos + bo) % 32 = (xPos + bo) % 32 := rfl
      simp only [Function.comp, hdiv]
    · rw [rowChunksGo, if_neg hxw]
      have : w - xPos = 0 := by omega
      rw [this]
      rfl

theorem rectReadList_full (b : Bitmap) :
    b.rectReadList 0 0 none none =
      (List.range b.height).flatMap (fun y =>
        (List.range b.width).map (fun x =>
          ((x, y), (b.value.getD (y * b.words + x / 32) 0 &&& (1 <<< (x % 32))) != 0))) := by
  unfold rectReadList
  simp only [xy, jsMod_zero, sizeClamp, Nat.sub_zero, Nat.zero_add, Nat.add_zero]
  refine congrArg _ (funext fun yPos => ?_)
  have hemit := rowChunksGo_emit b yPos b.width b.width 0 (by omega)
  simp only [Nat.zero_add] at hemit
  rw [rowChunks, hemit, Nat.sub_zero, ← List.range_eq_range']

theorem gifPixels_eq (b : Bitmap) (hW : b.width < 2 ^ 32) :
    gifPixels b = gifPixelsRowMajor b := by
  unfold gifPixels gifPixelsRowMajor
  rw [rectReadList_full, List.map_flatMap]
  refine congrArg _ (funext fun y => ?_)
  rw [List.map_map]
  apply List.map_congr_left
  intro x hx
  rw [List.mem_range] at hx
  rw [get_natCast b x y (by omega)]
  simp [Function.comp]

end Bitmap

namespace Bitmap

theorem gifSubBlocksGo_src : ∀ fuel (data : List Nat), data.length ≤ fuel →
    ((List.range (data.length / 126)).flatMap
      (fun i => (127 : Nat) :: 0x80 :: ((data.drop (126 * i)).take 126))) ++
      ((data.length % 126 + 1) :: 0x80 :: data.drop (data.length / 126 * 126)) =
    gifSubBlocksGo fuel data := by
  intro fuel
  induction fuel with
  | zero =>
    intro data h
    have h0 : data.length = 0 := by omega
    have hnil : data = [] := List.length_eq_zero.mp h0
    subst hnil
    rw [gifSubBlocksGo]
    norm_num
  | succ m ih =>
    intro data h
    by_cases h126 : 126 ≤ data.length
    · rw [gifSubBlocksGo, if_pos h126]
      have hq : data.length / 126 = (data.drop 126).length / 126 + 1 := by
        simp only [List.length_drop]
        omega
      have hmod : data.length % 126 = (data.drop 126).length % 126 := by
        simp only [List.length_drop]
        omega
      rw [hq, hmod, List.range_succ_eq_map, List.flatMap_cons, Nat.mul_zero,
        List.drop_zero, List.flatMap_map]
      have hfun : (fun i => (127 : Nat) :: 0x80 :: ((data.drop (126 * Nat.succ i)).take 126)) =
          (fun i => (127 : Nat) :: 0x80 :: (((data.drop 126).drop (126 * i)).take 126)) := by
        funext i
        have hd : (data.drop 126).drop (126 * i) = data.drop (126 * Nat.succ i) := by
          rw [List.drop_drop]
          congr 1
          omega
        rw [hd]
      have hrem : data.drop (((data.drop 126).length / 126 + 1) * 126) =
          (data.drop 126).drop ((data.drop 126).length / 126 * 126) := by
        rw [List.drop_drop]
        congr 1
        omega
      have hcomp : ((fun i => (127 : Nat) :: 0x80 :: ((data.drop (126 * i)).take 126)) ∘
          (· + 1)) = (fun i => (127 : Nat) :: 0x80 ::
            ((data.drop (126 * Nat.succ i)).take 126)) := by
        funext i
        simp [Function.comp]
      rw [hrem]
      have hmain := ih (data.drop 126) (by simp only [List.length_drop]; omega)
      calc (127 :: 0x80 :: (data.take 126) ++
            ((List.range ((data.drop 126).length / 126)).flatMap
              ((fun i => (127 : Nat) :: 0x80 :: ((data.drop (126 * i)).take 126)) ∘ (· + 1)))) ++
            ((data.drop 126).length % 126 + 1) :: 0x80 ::
              (data.drop 126).drop ((data.drop 126).length / 126 * 126)
          = 127 :: 0x80 :: (data.take 126 ++
            (((List.range ((data.drop 126).length / 126)).flatMap
              (fun i => (127 : Nat) :: 0x80 :: (((data.drop 126).drop (126 * i)).take 126))) ++
            ((data.drop 126).length % 126 + 1) :: 0x80 ::
              (data.drop 126).drop ((data.drop 126).length / 126 * 126))) := by
            rw [hcomp, hfun]
            simp [List.append_assoc]
        _ = 127 :: 0x80 :: (data.take 126 ++ gifSubBlocksGo m (data.drop 126)) := by
            rw [hmain]
    · rw [gifSubBlocksGo, if_neg h126]
      have hq0 : data.length / 126 = 0 := by omega
      have hm0 : data.length % 126 = data.length := by omega
      rw [hq0, hm0]
      simp

/-- C7 (amended): `toGIF` produces exactly the GIF87a layout of the
specification with a global color table of 128 entries (matching the
packed byte's size field `0xF6`): entry 0 is white, the remaining 127
entries are black. -/
theorem toGIF_eq_gifSpec (b : Bitmap) (hW : b.width < 2 ^ 32) :
    b.toGIF = gifSpec b 128 := by
  unfold toGIF gifSpec gifColorTable gifSubBlocks
  rw [gifPixels_eq b hW]
  rw [← gifSubBlocksGo_src (gifPixelsRowMajor b).length (gifPixelsRowMajor b) le_rfl]
  norm_num

end Bitmap

namespace Bitmap

/-- C7 counterexample: on a 1x1 all-dark bitmap the `toGIF` byte stream is
not the claimed layout with a 256-entry global color table (the code emits
a 128-entry table: 384 color bytes, not 768). -/
theorem toGIF_cex :
    ¬ (((Bitmap.make 1 1).set 0 0 (some true)).toGIF =
       gifSpec ((Bitmap.make 1 1).set 0 0 (some true)) 256) := by decide

/-- Witness for `toGIF_eq_gifSpec` on the same 1x1 bitmap. -/
theorem toGIF_eq_gifSpec_witness :
    (((Bitmap.make 1 1).set 0 0 (some true)).width < 2 ^ 32) ∧
    ((Bitmap.make 1 1).set 0 0 (some true)).toGIF =
      gifSpec ((Bitmap.make 1 1).set 0 0 (some true)) 128 :=
  ⟨by decide, toGIF_eq_gifSpec ((Bitmap.make 1 1).set 0 0 (some true)) (by decide)⟩

end Bitmap
namespace Bitmap

theorem rowChunksGo_zero_aligned (w : Nat) :
    ∀ fuel j, 32 * j < w → w - 32 * j ≤ fuel →
    rowChunksGo 0 w fuel (32 * j) =
      (List.range ((w - 32 * j + 31) / 32)).map
        (fun k => (32 * (j + k), min 32 (w - 32 * (j + k)))) := by
  intro fuel
  induction fuel with
  | zero => intro j hj hf; omega
  | succ m ih =>
    intro j hj hf
    rw [rowChunksGo, if_pos hj]
    have hbit : (0 + 32 * j) % 32 = 0 := by omega
    simp only [Nat.zero_add, hbit, Nat.sub_zero]
    by_cases hlast : w - 32 * j ≤ 32
    · -- final chunk
      have hn : min (32 - 32 * j % 32) (w - 32 * j) = w - 32 * j := by omega
      have hcnt : (w - 32 * j + 31) / 32 = 1 := by omega
      rw [hn, hcnt]
      have hstop : rowChunksGo 0 w m (32 * j + (w - 32 * j)) = [] := by
        have hx : ¬(32 * j + (w - 32 * j) < w) := by omega
        cases m with
        | zero => rfl
        | succ m2 => rw [rowChunksGo, if_neg hx]
      rw [hstop]
      rw [(by decide : List.range 1 = [0])]
      simp only [List.map_cons, List.map_nil]
      congr 1
      congr 1 <;> omega
    · -- full 32-wide chunk, recurse at j+1
      have hn : min (32 - 32 * j % 32) (w - 32 * j) = 32 := by omega
      rw [hn]
      have hnext : 32 * j + 32 = 32 * (j + 1) := by ring
      rw [hnext, ih (j + 1) (by omega) (by omega)]
      have hcnt : (w - 32 * j + 31) / 32 = (w - 32 * (j + 1) + 31) / 32 + 1 := by omega
      rw [hcnt, List.range_succ_eq_map]
      simp only [List.map_cons, List.map_map]
      congr 1
      · congr 1 <;> omega
      · apply List.map_congr_left
        intro k _
        simp only [Function.comp]
        congr 1 <;> omega

theorem rowChunks_zero (w : Nat) (hw : 0 < w) :
    rowChunks 0 w =
      (List.range ((w + 31) / 32)).map (fun k => (32 * k, min 32 (w - 32 * k))) := by
  have h := rowChunksGo_zero_aligned w w 0 (by omega) (by omega)
  rw [rowChunks]
  simp only [Nat.mul_zero] at h
  simp only [Nat.sub_zero] at h
  rw [h]
  apply List.map_congr_left
  intro k _
  simp

end Bitmap

theorem foldl_congr_inv {α σ : Type} (P : σ → Prop) (l : List α) (s : σ)
    (f g : σ → α → σ) (hP : P s) (hpres : ∀ s a, P s → P (f s a))
    (hcong : ∀ s a, P s → f s a = g s a) :
    l.foldl f s = l.foldl g s := by
  induction l generalizing s with
  | nil => rfl
  | cons a t ih =>
    rw [List.foldl_cons, List.foldl_cons, ← hcong s a hP]
    exact ih (f s a) (hpres s a hP)

theorem foldl_flatMap' {α β σ : Type} (l : List α) (f : α → List β) (g : σ → β → σ)
    (s : σ) : (l.flatMap f).foldl g s = l.foldl (fun acc a => (f a).foldl g acc) s := by
  induction l generalizing s with
  | nil => rfl
  | cons a t ih =>
    rw [List.flatMap_cons, List.foldl_append, List.foldl_cons]
    exact ih _

namespace Bitmap

theorem foldl_rmw_frame {α : Type} (its : List α) (pos : α → Nat)
    (gv gd : α → Nat → Nat) (b0 : Bitmap) (p : Nat)
    (h : ∀ it ∈ its, pos it ≠ p) :
    ((its.foldl (fun b it2 =>
      { b with
        value := b.value.set (pos it2) (gv it2 (b.value.getD (pos it2) 0)),
        defined := b.defined.set (pos it2) (gd it2 (b.defined.getD (pos it2) 0)) }) b0).value.getD p 0
      = b0.value.getD p 0) ∧
    ((its.foldl (fun b it2 =>
      { b with
        value := b.value.set (pos it2) (gv it2 (b.value.getD (pos it2) 0)),
        defined := b.defined.set (pos it2) (gd it2 (b.defined.getD (pos it2) 0)) }) b0).defined.getD p 0
      = b0.defined.getD p 0) := by
  induction its generalizing b0 with
  | nil => exact ⟨rfl, rfl⟩
  | cons it t ih =>
    rw [List.foldl_cons]
    have hne : pos it ≠ p := h it (List.mem_cons_self it t)
    obtain ⟨h1, h2⟩ := ih _ (fun it2 h2 => h it2 (List.mem_cons_of_mem _ h2))
    refine ⟨h1.trans ?_, h2.trans ?_⟩
    · exact getD_set_ne _ _ _ _ hne
    · exact getD_set_ne _ _ _ _ hne

theorem foldl_rmw_unique {α : Type} (its : List α) (pos : α → Nat)
    (gv gd : α → Nat → Nat) (p : Nat) (it : α) :
    ∀ b0 : Bitmap, it ∈ its → pos it = p →
      List.Pairwise (fun a b => pos a ≠ pos b) its →
      p < b0.value.length → p < b0.defined.length →
      ((its.foldl (fun b it2 =>
        { b with
          value := b.value.set (pos it2) (gv it2 (b.value.getD (pos it2) 0)),
          defined := b.defined.set (pos it2) (gd it2 (b.defined.getD (pos it2) 0)) }) b0).value.getD p 0
        = gv it (b0.value.getD p 0)) ∧
      ((its.foldl (fun b it2 =>
        { b with
          value := b.value.set (pos it2) (gv it2 (b.value.getD (pos it2) 0)),
          defined := b.defined.set (pos it2) (gd it2 (b.defined.getD (pos it2) 0)) }) b0).defined.getD p 0
        = gd it (b0.defined.getD p 0)) := by
  induction its with
  | nil => intro b0 hit; exact absurd hit (List.not_mem_nil it)
  | cons ith t ih =>
    intro b0 hit hp hpw hlv hld
    rw [List.pairwise_cons] at hpw
    obtain ⟨hhead, htail⟩ := hpw
    rw [List.foldl_cons]
    by_cases hw : pos ith = p
    · have heq : it = ith := by
        rcases List.mem_cons.mp hit with h | h
        · exact h
        · exact absurd (hp.trans hw.symm) (Ne.symm (hhead it h))
      subst heq
      have hnot : ∀ it2 ∈ t, pos it2 ≠ p := by
        intro it2 h2
        rw [← hw]
        exact (hhead it2 h2).symm
      obtain ⟨f1, f2⟩ := foldl_rmw_frame t pos gv gd
        { b0 with
          value := b0.value.set (pos it) (gv it (b0.value.getD (pos it) 0)),
          defined := b0.defined.set (pos it) (gd it (b0.defined.getD (pos it) 0)) }
        p hnot
      rw [f1, f2]
      simp only [hw]
      rw [getD_set_eq _ _ _ (hw ▸ hlv), getD_set_eq _ _ _ (hw ▸ hld)]
      exact ⟨rfl, rfl⟩
    · have hit' : it ∈ t := by
        rcases List.mem_cons.mp hit with h | h
        · exact absurd (h ▸ hp) (h ▸ hw)
        · exact h
      obtain ⟨r1, r2⟩ := ih
        { b0 with
          value := b0.value.set (pos ith) (gv ith (b0.value.getD (pos ith) 0)),
          defined := b0.defined.set (pos ith) (gd ith (b0.defined.getD (pos ith) 0)) }
        hit' hp htail (by simpa using hlv) (by simpa using hld)
      rw [r1, r2, getD_set_ne _ _ _ _ hw, getD_set_ne _ _ _ _ hw]
      exact ⟨rfl, rfl⟩

end Bitmap

namespace Bitmap

theorem innerFoldFst_indep (res : Nat → Bool) (mask : Nat → Nat) :
    ∀ (l : List Nat) (d v v' : Nat),
    ((l.foldl (fun (dw : Nat × Nat) bo =>
      (dw.1 ||| mask bo,
       (dw.2 &&& (0xffffffff ^^^ mask bo)) |||
         ((if res bo then 0xffffffff else 0) &&& mask bo))) (d, v)).1) =
    ((l.foldl (fun (dw : Nat × Nat) bo =>
      (dw.1 ||| mask bo,
       (dw.2 &&& (0xffffffff ^^^ mask bo)) |||
         ((if res bo then 0xffffffff else 0) &&& mask bo))) (d, v')).1) := by
  intro l
  induction l with
  | nil => intro d v v'; rfl
  | cons a t ih => intro d v v'; rw [List.foldl_cons, List.foldl_cons]; exact ih _ _ _

theorem innerFold_testBit (res : Nat → Bool) :
    ∀ (n : Nat), n ≤ 32 → ∀ (d v c : Nat), c < 32 →
    ((((List.range n).foldl (fun (dw : Nat × Nat) bo =>
      (dw.1 ||| (1 <<< bo),
       (dw.2 &&& (0xffffffff ^^^ (1 <<< bo))) |||
         ((if res bo then 0xffffffff else 0) &&& (1 <<< bo)))) (d, v)).1).testBit c =
      (decide (c < n) || d.testBit c)) ∧
    ((((List.range n).foldl (fun (dw : Nat × Nat) bo =>
      (dw.1 ||| (1 <<< bo),
       (dw.2 &&& (0xffffffff ^^^ (1 <<< bo))) |||
         ((if res bo then 0xffffffff else 0) &&& (1 <<< bo)))) (d, v)).2).testBit c =
      (if c < n then res c else v.testBit c)) := by
  intro n
  induction n with
  | zero =>
    intro _ d v c hc
    simp
  | succ m ih =>
    intro hm d v c hc
    rw [List.range_succ, List.foldl_append, List.foldl_cons, List.foldl_nil]
    obtain ⟨ih1, ih2⟩ := ih (by omega) d v c hc
    have hA : (1 <<< m : Nat).testBit c = decide (c = m) := by
      have hgen : ∀ m2 < 32, ∀ c2 < 32, (1 <<< m2 : Nat).testBit c2 = decide (c2 = m2) := by
        decide
      exact hgen m (by omega) c hc
    have hB : ((0xffffffff : Nat) ^^^ (1 <<< m)).testBit c = decide (c ≠ m) := by
      have hgen : ∀ m2 < 32, ∀ c2 < 32,
          ((0xffffffff : Nat) ^^^ (1 <<< m2)).testBit c2 = decide (c2 ≠ m2) := by decide
      exact hgen m (by omega) c hc
    have hres : ((if res m then (0xffffffff : Nat) else 0)).testBit c = res m := by
      cases hr : res m <;> simp [hr, ffffffff_testBit c hc]
    constructor
    · rw [Nat.testBit_lor, ih1, hA]
      by_cases hcm : c = m
      · subst hcm
        simp
      · by_cases hlt : c < m
        · have hlt1 : c < m + 1 := by omega
          simp [hlt, hcm, hlt1]
        · have hlt1 : ¬(c < m + 1) := by omega
          simp [hlt, hcm, hlt1]
    · rw [Nat.testBit_lor, Nat.testBit_land, Nat.testBit_land, ih2, hB, hA, hres]
      by_cases hcm : c = m
      · subst hcm
        have hlt1 : c < c + 1 := by omega
        simp [hlt1]
      · by_cases hlt : c < m
        · have hlt1 : c < m + 1 := by omega
          simp [hlt, hcm, hlt1]
        · have hlt1 : ¬(c < m + 1) := by omega
          simp [hlt, hcm, hlt1]

end Bitmap

theorem foldl_ext' {α σ : Type} (f g : σ → α → σ) (l : List α) :
    ∀ (s : σ), (∀ a ∈ l, ∀ s, f s a = g s a) → l.foldl f s = l.foldl g s := by
  induction l with
  | nil => intro s _; rfl
  | cons a t ih =>
    intro s h
    rw [List.foldl_cons, List.foldl_cons, h a (List.mem_cons_self a t)]
    exact ih _ (fun a2 ha2 s2 => h a2 (List.mem_cons_of_mem _ ha2) s2)

theorem pairwise_flatMap_of {α β : Type} (R : β → β → Prop) (l : List α) (f : α → List β)
    (h1 : ∀ a ∈ l, (f a).Pairwise R)
    (h2 : l.Pairwise (fun a1 a2 => ∀ b1 ∈ f a1, ∀ b2 ∈ f a2, R b1 b2)) :
    (l.flatMap f).Pairwise R := by
  induction l with
  | nil => exact List.Pairwise.nil
  | cons a t ih =>
    rw [List.flatMap_cons, List.pairwise_append]
    rw [List.pairwise_cons] at h2
    refine ⟨h1 a (List.mem_cons_self a t), ih (fun a2 h => h1 a2 (List.mem_cons_of_mem _ h)) h2.2, ?_⟩
    intro x hx y hy
    rw [List.mem_flatMap] at hy
    obtain ⟨a2, ha2, hy2⟩ := hy
    exact h2.1 a2 ha2 x hx y hy2

theorem getD_replicate_zero (n i : Nat) : (List.replicate n (0 : Nat)).getD i 0 = 0 := by
  simp only [List.getD_eq_getElem?_getD, List.getElem?_replicate]
  split <;> rfl

namespace Bitmap

theorem foldl_rmw_dims {α : Type} (its : List α) (pos : α → Nat)
    (gv gd : α → Nat → Nat) :
    ∀ b0 : Bitmap,
    ((its.foldl (fun b it2 =>
      { b with
        value := b.value.set (pos it2) (gv it2 (b.value.getD (pos it2) 0)),
        defined := b.defined.set (pos it2) (gd it2 (b.defined.getD (pos it2) 0)) }) b0).height
      = b0.height) ∧
    ((its.foldl (fun b it2 =>
      { b with
        value := b.value.set (pos it2) (gv it2 (b.value.getD (pos it2) 0)),
        defined := b.defined.set (pos it2) (gd it2 (b.defined.getD (pos it2) 0)) }) b0).width
      = b0.width) := by
  induction its with
  | nil => exact fun b0 => ⟨rfl, rfl⟩
  | cons it t ih =>
    intro b0
    rw [List.foldl_cons]
    exact ih _

end Bitmap

theorem foldl_pres {α σ : Type} (P : σ → Prop) (f : σ → α → σ)
    (h : ∀ s a, P s → P (f s a)) :
    ∀ (l : List α) (s : σ), P s → P (l.foldl f s) := by
  intro l
  induction l with
  | nil => exact fun s hs => hs
  | cons a t ih => exact fun s hs => ih _ (h s a hs)

namespace Bitmap

theorem rectFnRaw_fresh_eq (H W : Nat) (g : Nat × Nat → Bool) :
    (make H W).rectFnRaw 0 0 W H (fun p _ => some (g p)) =
    ((List.range H).flatMap (fun yPos =>
        (rowChunks 0 W).map (fun ch => (yPos, ch)))).foldl
      (fun b it2 =>
        { b with
          value := b.value.set (it2.1 * ((W + 31) / 32) + (it2.2.1 >>> 5))
            (innerV g it2 (b.value.getD (it2.1 * ((W + 31) / 32) + (it2.2.1 >>> 5)) 0)),
          defined := b.defined.set (it2.1 * ((W + 31) / 32) + (it2.2.1 >>> 5))
            (innerD g it2 (b.defined.getD (it2.1 * ((W + 31) / 32) + (it2.2.1 >>> 5)) 0)) })
      (make H W) := by
  rw [foldl_flatMap']
  unfold rectFnRaw
  apply foldl_congr_inv (fun b2 => b2.width = W) _ _ _ _ rfl
  · intro s a hs
    refine foldl_pres (fun (b2 : Bitmap) => b2.width = W) _ ?_ _ _ hs
    exact fun s2 a2 hs2 => hs2
  · intro b2 yPos hP
    rw [List.foldl_map]
    apply foldl_congr_inv (fun b3 => b3.width = W) _ _ _ _ hP
    · exact fun s2 a2 hs2 => hs2
    · intro b3 ch hP3
      have hwords : b3.words = (W + 31) / 32 := by rw [words, hP3]
      dsimp only
      simp only [Nat.zero_add]
      rw [hwords]
      have hind := innerFoldFst_indep (fun bo => g (ch.1 + bo, yPos))
        (fun bo => 1 <<< ((ch.1 + bo) % 32)) (List.range ch.2) 0
        (b3.value.getD (yPos * ((W + 31) / 32) + (ch.1 >>> 5)) 0) 0
      simp only [] at hind
      congr 1
      rw [hind]
      rfl

end Bitmap

namespace Bitmap

theorem rectFnRaw_dims (b : Bitmap) (x y w h : Nat) (f : Nat × Nat → Bool → Option Bool) :
    (b.rectFnRaw x y w h f).height = b.height ∧ (b.rectFnRaw x y w h f).width = b.width := by
  unfold rectFnRaw
  refine foldl_pres (fun (b2 : Bitmap) => b2.height = b.height ∧ b2.width = b.width)
    _ ?_ _ _ ⟨rfl, rfl⟩
  intro s a hs
  refine foldl_pres (fun (b2 : Bitmap) => b2.height = b.height ∧ b2.width = b.width)
    _ ?_ _ _ hs
  exact fun s2 a2 hs2 => hs2

theorem shift5_32 (k : Nat) : (32 * k) >>> 5 = k := by
  rw [Nat.shiftRight_eq_div_pow]
  omega

theorem its_pairwise (H W : Nat) (hW : 0 < W) :
    List.Pairwise (fun (a b : Nat × (Nat × Nat)) =>
        a.1 * ((W + 31) / 32) + (a.2.1 >>> 5) ≠ b.1 * ((W + 31) / 32) + (b.2.1 >>> 5))
      ((List.range H).flatMap (fun yPos => (rowChunks 0 W).map (fun ch => (yPos, ch)))) := by
  apply pairwise_flatMap_of
  · intro yPos _
    rw [rowChunks_zero W hW, List.map_map, List.pairwise_map]
    refine (List.pairwise_lt_range _).imp ?_
    intro k1 k2 hk
    simp only [Function.comp]
    rw [shift5_32, shift5_32]
    omega
  · refine (List.pairwise_lt_range H).imp ?_
    intro y1 y2 hy b1 hb1 b2 hb2
    rw [rowChunks_zero W hW, List.map_map, List.mem_map] at hb1 hb2
    obtain ⟨k1, hk1, hb1e⟩ := hb1
    obtain ⟨k2, hk2, hb2e⟩ := hb2
    rw [List.mem_range] at hk1 hk2
    subst hb1e; subst hb2e
    simp only [Function.comp]
    rw [shift5_32, shift5_32]
    intro hEq
    have h1 : y1 * ((W + 31) / 32) + k1 < (y1 + 1) * ((W + 31) / 32) := by
      rw [Nat.add_mul, Nat.one_mul]; omega
    have h2 : (y1 + 1) * ((W + 31) / 32) ≤ y2 * ((W + 31) / 32) :=
      Nat.mul_le_mul hy (Nat.le_refl _)
    omega

theorem its_mem (H W x y : Nat) (hx : x < W) (hy : y < H) :
    (y, (32 * (x / 32), min 32 (W - 32 * (x / 32)))) ∈
      (List.range H).flatMap (fun yPos => (rowChunks 0 W).map (fun ch => (yPos, ch))) := by
  rw [List.mem_flatMap]
  refine ⟨y, List.mem_range.mpr hy, ?_⟩
  rw [rowChunks_zero W (by omega), List.map_map, List.mem_map]
  exact ⟨x / 32, List.mem_range.mpr (by omega), rfl⟩

theorem innerV_zero_testBit (g : Nat × Nat → Bool) (yv k n c : Nat)
    (hn : n ≤ 32) (hc : c < 32) :
    (innerV g (yv, (32 * k, n)) 0).testBit c =
      (if c < n then g (32 * k + c, yv) else false) := by
  have hmod : ∀ bo ∈ List.range n, ∀ dw : Nat × Nat,
      (fun (dw : Nat × Nat) bo =>
        (dw.1 ||| (1 <<< ((32 * k + bo) % 32)),
         (dw.2 &&& (0xffffffff ^^^ (1 <<< ((32 * k + bo) % 32)))) |||
           ((if g (32 * k + bo, yv) then 0xffffffff else 0) &&&
             (1 <<< ((32 * k + bo) % 32))))) dw bo =
      (fun (dw : Nat × Nat) bo =>
        (dw.1 ||| (1 <<< bo),
         (dw.2 &&& (0xffffffff ^^^ (1 <<< bo))) |||
           ((if g (32 * k + bo, yv) then 0xffffffff else 0) &&& (1 <<< bo)))) dw bo := by
    intro bo hbo dw
    rw [List.mem_range] at hbo
    have hb : (32 * k + bo) % 32 = bo := by omega
    dsimp only
    rw [hb]
  have hfold := foldl_ext' _ _ (List.range n) ((0, 0) : Nat × Nat) hmod
  unfold innerV
  dsimp only
  rw [hfold]
  have ht := (innerFold_testBit (fun bo => g (32 * k + bo, yv)) n hn 0 0 c hc).2
  simp only [] at ht
  rw [ht]
  by_cases hcn : c < n <;> simp [hcn]

theorem innerD_zero_testBit (g : Nat × Nat → Bool) (yv k n c : Nat)
    (hn : n ≤ 32) (hc : c < 32) :
    (innerD g (yv, (32 * k, n)) 0).testBit c = decide (c < n) := by
  have hmod : ∀ bo ∈ List.range n, ∀ dw : Nat × Nat,
      (fun (dw : Nat × Nat) bo =>
        (dw.1 ||| (1 <<< ((32 * k + bo) % 32)),
         (dw.2 &&& (0xffffffff ^^^ (1 <<< ((32 * k + bo) % 32)))) |||
           ((if g (32 * k + bo, yv) then 0xffffffff else 0) &&&
             (1 <<< ((32 * k + bo) % 32))))) dw bo =
      (fun (dw : Nat × Nat) bo =>
        (dw.1 ||| (1 <<< bo),
         (dw.2 &&& (0xffffffff ^^^ (1 <<< bo))) |||
           ((if g (32 * k + bo, yv) then 0xffffffff else 0) &&& (1 <<< bo)))) dw bo := by
    intro bo hbo dw
    rw [List.mem_range] at hbo
    have hb : (32 * k + bo) % 32 = bo := by omega
    dsimp only
    rw [hb]
  have hfold := foldl_ext' _ _ (List.range n) ((0, 0) : Nat × Nat) hmod
  unfold innerD
  dsimp only
  rw [hfold, Nat.zero_or]
  have ht := (innerFold_testBit (fun bo => g (32 * k + bo, yv)) n hn 0 0 c hc).1
  simp only [] at ht
  rw [ht]
  simp

end Bitmap

namespace Bitmap

theorem rectFnRaw_fresh_get (H W : Nat) (g : Nat × Nat → Bool) (hW32 : W < 2 ^ 32)
    (x y : Nat) (hx : x < W) (hy : y < H) :
    (((make H W).rectFnRaw 0 0 W H (fun p _ => some (g p))).get (x : Int) (y : Int)
        = g (x, y)) ∧
    (((make H W).rectFnRaw 0 0 W H (fun p _ => some (g p))).isDefined (x : Int) (y : Int)
        = true) := by
  have hW : 0 < W := by omega
  have hdims := rectFnRaw_dims (make H W) 0 0 W H (fun p _ => some (g p))
  have hRw : ((make H W).rectFnRaw 0 0 W H (fun p _ => some (g p))).width = W := hdims.2
  have hRwords : ((make H W).rectFnRaw 0 0 W H (fun p _ => some (g p))).words =
      (W + 31) / 32 := by rw [words, hRw]
  obtain ⟨r1, r2⟩ := foldl_rmw_unique
    ((List.range H).flatMap (fun yPos => (rowChunks 0 W).map (fun ch => (yPos, ch))))
    (fun it2 => it2.1 * ((W + 31) / 32) + (it2.2.1 >>> 5))
    (fun it2 v => innerV g it2 v) (fun it2 d => innerD g it2 d)
    (y * ((W + 31) / 32) + x / 32)
    (y, (32 * (x / 32), min 32 (W - 32 * (x / 32))))
    (make H W)
    (its_mem H W x y hx hy)
    (by dsimp only; rw [shift5_32])
    (its_pairwise H W hW)
    (by
      simp only [make, List.length_replicate]
      have h2 : (y + 1) * ((W + 31) / 32) ≤ H * ((W + 31) / 32) :=
        Nat.mul_le_mul hy (Nat.le_refl _)
      rw [Nat.add_mul, Nat.one_mul] at h2
      rw [Nat.mul_comm ((W + 31) / 32) H]
      omega)
    (by
      simp only [make, List.length_replicate]
      have h2 : (y + 1) * ((W + 31) / 32) ≤ H * ((W + 31) / 32) :=
        Nat.mul_le_mul hy (Nat.le_refl _)
      rw [Nat.add_mul, Nat.one_mul] at h2
      rw [Nat.mul_comm ((W + 31) / 32) H]
      omega)
  have hz1 : (make H W).value.getD (y * ((W + 31) / 32) + x / 32) 0 = 0 := by
    simp only [make, getD_replicate_zero]
  have hz2 : (make H W).defined.getD (y * ((W + 31) / 32) + x / 32) 0 = 0 := by
    simp only [make, getD_replicate_zero]
  rw [hz1] at r1
  rw [hz2] at r2
  have hx32 : x < 2 ^ 32 := by omega
  constructor
  · rw [get_natCast _ x y hx32, hRwords, rectFnRaw_fresh_eq H W g, r1, land_shift_ne]
    rw [innerV_zero_testBit g y (x / 32) _ (x % 32) (by omega) (by omega)]
    have hcn : x % 32 < min 32 (W - 32 * (x / 32)) := by omega
    rw [if_pos hcn]
    have hxx : 32 * (x / 32) + x % 32 = x := by omega
    rw [hxx]
  · rw [isDefined_natCast _ x y hx32, hRwords, rectFnRaw_fresh_eq H W g, r2, land_shift_ne]
    rw [innerD_zero_testBit g y (x / 32) _ (x % 32) (by omega) (by omega)]
    have hcn : x % 32 < min 32 (W - 32 * (x / 32)) := by omega
    simp [hcn]

end Bitmap

namespace Bitmap

theorem rect_make_fn (H0 W0 : Nat) (fn : Nat × Nat → Bool → Option Bool) :
    (make H0 W0).rect 0 0 none none (.fn fn) = (make H0 W0).rectFnRaw 0 0 W0 H0 fn := by
  unfold rect xy sizeClamp
  dsimp only [make]
  rw [jsMod_zero, jsMod_zero, Nat.sub_zero, Nat.sub_zero]

/-- C9 (amended): `scale(factor)` rejects exactly the factors above 1024 (for
integer factors; in particular `factor = 0` is NOT rejected, see
`scale_zero_cex`).  For `1 ≤ factor ≤ 1024` it succeeds and returns a
`(factor*H) × (factor*W)` bitmap in which every source cell `(x, y)` becomes
the `factor × factor` block of cells with the source cell's value, every
result cell being defined. -/
theorem scale_spec (b : Bitmap) (f : Nat) (hf1 : 1 ≤ f) (hf2 : f ≤ 1024)
    (hW32 : f * b.width < 2 ^ 32) :
    (∀ f2 : Nat, 1024 < f2 → b.scale f2 = .error "invalid scale factor") ∧
    ∃ r, b.scale f = .ok r ∧ r.height = f * b.height ∧ r.width = f * b.width ∧
      ∀ x y i j, x < b.width → y < b.height → i < f → j < f →
        r.get ((f * x + i : Nat) : Int) ((f * y + j : Nat) : Int) = b.get (x : Int) (y : Int) ∧
        r.isDefined ((f * x + i : Nat) : Int) ((f * y + j : Nat) : Int) = true := by
  constructor
  · intro f2 h2
    unfold scale
    rw [if_pos (Or.inr h2)]
  · have hcond : ¬(¬(f ≤ 2 ^ 53 - 1) ∨ f > 1024) := by
      push_neg
      exact ⟨by omega, by omega⟩
    have hgoal : b.scale f = .ok ((make (f * b.height) (f * b.width)).rectFnRaw 0 0
        (f * b.width) (f * b.height)
        (fun p _ => some (b.get ((p.1 / f : Nat) : Int) ((p.2 / f : Nat) : Int)))) := by
      unfold scale
      rw [if_neg hcond, rect_make_fn]
    refine ⟨_, hgoal, ?_, ?_, ?_⟩
    · exact (rectFnRaw_dims (make (f * b.height) (f * b.width)) 0 0
        (f * b.width) (f * b.height) _).1
    · exact (rectFnRaw_dims (make (f * b.height) (f * b.width)) 0 0
        (f * b.width) (f * b.height) _).2
    · intro x y i j hx hy hi hj
      have hxa : f * (x + 1) = f * x + f := by ring
      have hxb : f * (x + 1) ≤ f * b.width := Nat.mul_le_mul (Nat.le_refl f) hx
      have hW' : f * x + i < f * b.width := by omega
      have hya : f * (y + 1) = f * y + f := by ring
      have hyb : f * (y + 1) ≤ f * b.height := Nat.mul_le_mul (Nat.le_refl f) hy
      have hH' : f * y + j < f * b.height := by omega
      obtain ⟨hg, hd⟩ := rectFnRaw_fresh_get (f * b.height) (f * b.width)
        (fun p => b.get ((p.1 / f : Nat) : Int) ((p.2 / f : Nat) : Int)) hW32
        (f * x + i) (f * y + j) hW' hH'
      simp only [] at hg hd
      refine ⟨?_, hd⟩
      rw [hg]
      have e1 : (f * x + i) / f = x := by
        rw [Nat.mul_add_div (by omega), Nat.div_eq_of_lt hi]
        omega
      have e2 : (f * y + j) / f = y := by
        rw [Nat.mul_add_div (by omega), Nat.div_eq_of_lt hj]
        omega
      rw [e1, e2]

end Bitmap

namespace Bitmap

/-- Counterexample to C9 as stated: the claim says `scale(f)` fails for every
`f` that is not a positive integer, but `scale(0)` is accepted (the source
only rejects non-safe-integers and factors above 1024) and yields an empty
`0 × 0` bitmap. -/
theorem scale_zero_cex :
    (Bitmap.make 1 1).scale 0 = Except.ok (Bitmap.make 0 0) := by rfl

theorem scale_spec_witness :
    (1 ≤ 2 ∧ 2 ≤ 1024 ∧ 2 * ((Bitmap.make 1 2).set 0 0 (some true)).width < 2 ^ 32) ∧
    ((∀ f2 : Nat, 1024 < f2 →
        ((Bitmap.make 1 2).set 0 0 (some true)).scale f2 = .error "invalid scale factor") ∧
      ∃ r, ((Bitmap.make 1 2).set 0 0 (some true)).scale 2 = .ok r ∧
        r.height = 2 * ((Bitmap.make 1 2).set 0 0 (some true)).height ∧
        r.width = 2 * ((Bitmap.make 1 2).set 0 0 (some true)).width ∧
        ∀ x y i j, x < ((Bitmap.make 1 2).set 0 0 (some true)).width →
          y < ((Bitmap.make 1 2).set 0 0 (some true)).height → i < 2 → j < 2 →
          r.get ((2 * x + i : Nat) : Int) ((2 * y + j : Nat) : Int) =
            ((Bitmap.make 1 2).set 0 0 (some true)).get (x : Int) (y : Int) ∧
          r.isDefined ((2 * x + i : Nat) : Int) ((2 * y + j : Nat) : Int) = true) :=
  ⟨⟨by decide, by decide, by decide⟩,
   scale_spec ((Bitmap.make 1 2).set 0 0 (some true)) 2 (by decide) (by decide) (by decide)⟩

end Bitmap

theorem alphaDecode_ok (alpha : List Char) :
    ∀ data : List Char, data.all (hasChar alpha) = true →
    ∃ t, alphaDecode alpha data = .ok t := by
  intro data
  induction data with
  | nil => exact fun _ => ⟨[], rfl⟩
  | cons c rest ih =>
    intro h
    rw [List.all_cons, Bool.and_eq_true] at h
    obtain ⟨t, ht⟩ := ih h.2
    unfold hasChar at h
    rw [Option.isSome_iff_exists] at h
    obtain ⟨i, hi⟩ := h.1
    refine ⟨i :: t, ?_⟩
    unfold alphaDecode
    rw [hi, ht]

theorem segmentBits_ok (ver : Nat) (data : List Char) (ty : EncodingType)
    (encoder : List Char → List Nat) (hvalid : validSeg data ty = true) :
    ∃ bits, segmentBits ver data ty encoder = .ok bits := by
  cases ty with
  | numeric =>
    obtain ⟨t, ht⟩ := alphaDecode_ok numericAlphabet data hvalid
    exact ⟨_, by unfold segmentBits; rw [ht]⟩
  | alphanumeric =>
    obtain ⟨t, ht⟩ := alphaDecode_ok alphanumericAlphabet data hvalid
    exact ⟨_, by unfold segmentBits; rw [ht]⟩
  | byte => exact ⟨_, rfl⟩
  | kanji => exact absurd hvalid (by simp [validSeg])
  | eci => exact absurd hvalid (by simp [validSeg])

theorem encodeSeg_overflow (ver : Nat) (e : ECLevel) (data : List Char)
    (ty : EncodingType) (encoder : List Char → List Nat) (bits : List Bool)
    (h : segmentBits ver data ty encoder = .ok bits)
    (hlen : (capacity ver e).capacity < bits.length) :
    encodeSeg ver e data ty encoder = .error "Capacity overflow" := by
  unfold encodeSeg
  rw [h]
  dsimp only
  rw [if_pos hlen]

theorem encodeSeg_ok (ver : Nat) (e : ECLevel) (data : List Char)
    (ty : EncodingType) (encoder : List Char → List Nat) (bits : List Bool)
    (h : segmentBits ver data ty encoder = .ok bits)
    (hlen : bits.length ≤ (capacity ver e).capacity) :
    ∃ out, encodeSeg ver e data ty encoder = .ok out := by
  unfold encodeSeg
  rw [h]
  dsimp only
  rw [if_neg (by omega)]
  exact ⟨_, rfl⟩

theorem scanVersions_spec (e : ECLevel) (data : List Char) (ty : EncodingType)
    (encoder : List Char → List Nat) (hvalid : validSeg data ty = true) :
    ∀ (vs : List Nat) (err0 : String), List.Pairwise (· < ·) vs →
    (∃ v out, v ∈ vs ∧
      (∀ bits, segmentBits v data ty encoder = .ok bits →
        bits.length ≤ (capacity v e).capacity) ∧
      (∀ u ∈ vs, u < v → ∀ bits, segmentBits u data ty encoder = .ok bits →
        (capacity u e).capacity < bits.length) ∧
      scanVersions e data ty encoder vs err0 = .ok (v, out) ∧
      encodeSeg v e data ty encoder = .ok out) ∨
    ((∀ u ∈ vs, ∀ bits, segmentBits u data ty encoder = .ok bits →
        (capacity u e).capacity < bits.length) ∧
      scanVersions e data ty encoder vs err0 =
        .error (if vs.isEmpty then err0 else "Capacity overflow")) := by
  intro vs
  induction vs with
  | nil =>
    intro err0 _
    right
    exact ⟨fun u hu => absurd hu (List.not_mem_nil u), rfl⟩
  | cons w rest ih =>
    intro err0 hpw
    rw [List.pairwise_cons] at hpw
    obtain ⟨hw, hrest⟩ := hpw
    obtain ⟨bitsW, hbW⟩ := segmentBits_ok w data ty encoder hvalid
    by_cases hfit : bitsW.length ≤ (capacity w e).capacity
    · obtain ⟨out, hout⟩ := encodeSeg_ok w e data ty encoder bitsW hbW hfit
      left
      refine ⟨w, out, List.mem_cons_self w rest, ?_, ?_, ?_, hout⟩
      · intro bits hb
        rw [hbW, Except.ok.injEq] at hb
        subst hb
        exact hfit
      · intro u hu hlt bits hb
        rcases List.mem_cons.mp hu with h | h
        · omega
        · exact absurd hlt (by have := hw u h; omega)
      · conv_lhs => rw [scanVersions]
        rw [hout]
    · have hover : (capacity w e).capacity < bitsW.length := by omega
      have herr := encodeSeg_overflow w e data ty encoder bitsW hbW hover
      have hscan : scanVersions e data ty encoder (w :: rest) err0 =
          scanVersions e data ty encoder rest "Capacity overflow" := by
        conv_lhs => rw [scanVersions]
        rw [herr]
      rcases ih "Capacity overflow" hrest with ⟨v, out, hv1, hv2, hv3, hv4, hv5⟩ | ⟨hall, hres⟩
      · left
        refine ⟨v, out, List.mem_cons_of_mem w hv1, hv2, ?_, by rw [hscan]; exact hv4, hv5⟩
        intro u hu hlt bits hb
        rcases List.mem_cons.mp hu with h | h
        · subst h
          rw [hbW, Except.ok.injEq] at hb
          subst hb
          exact hover
        · exact hv3 u h hlt bits hb
      · right
        constructor
        · intro u hu bits hb
          rcases List.mem_cons.mp hu with h | h
          · subst h
            rw [hbW, Except.ok.injEq] at hb
            subst hb
            exact hover
          · exact hall u h bits hb
        · rw [hscan, hres]
          cases rest <;> rfl

theorem pairwise_lt_range'_one_forty : List.Pairwise (· < ·) (List.range' 1 40) := by
  rw [List.range'_eq_map_range]
  exact (List.pairwise_lt_range 40).map _ (by intro a b h; omega)

theorem mem_range'_one_forty (u : Nat) :
    u ∈ List.range' 1 40 ↔ 1 ≤ u ∧ u ≤ 40 := by
  rw [List.range'_eq_map_range, List.mem_map]
  constructor
  · rintro ⟨a, ha, rfl⟩
    rw [List.mem_range] at ha
    omega
  · intro ⟨h1, h2⟩
    exact ⟨u - 1, List.mem_range.mpr (by omega), by omega⟩

/-- C3: for a fixed version, segment assembly fails with `'Capacity
overflow'` exactly when the assembled bit string `mode(4) ‖ length ‖
payload` is strictly longer than the data-bit capacity of `(ver, ecc)`, and
succeeds otherwise; when no version is given, the encoder scans versions 1
through 40 in ascending order and returns the encoding of the smallest
version that does not overflow (every smaller version overflows), or the
last captured error — `'Capacity overflow'` — when no version fits. -/
theorem encode_capacity_version_spec (e : ECLevel) (data : List Char)
    (ty : EncodingType) (encoder : List Char → List Nat)
    (hvalid : validSeg data ty = true) :
    (∀ ver : Nat, ∀ bits, segmentBits ver data ty encoder = .ok bits →
      ((encodeSeg ver e data ty encoder = .error "Capacity overflow" ↔
        (capacity ver e).capacity < bits.length) ∧
       (bits.length ≤ (capacity ver e).capacity →
        ∃ out, encodeSeg ver e data ty encoder = .ok out))) ∧
    ((∃ v out, 1 ≤ v ∧ v ≤ 40 ∧
        encodeQRSelect e data ty encoder = .ok (v, out) ∧
        encodeSeg v e data ty encoder = .ok out ∧
        (∀ bits, segmentBits v data ty encoder = .ok bits →
          bits.length ≤ (capacity v e).capacity) ∧
        (∀ u, 1 ≤ u → u < v → ∀ bits, segmentBits u data ty encoder = .ok bits →
          (capacity u e).capacity < bits.length)) ∨
      ((∀ u, 1 ≤ u → u ≤ 40 → ∀ bits, segmentBits u data ty encoder = .ok bits →
          (capacity u e).capacity < bits.length) ∧
        encodeQRSelect e data ty encoder = .error "Capacity overflow")) := by
  constructor
  · intro ver bits hb
    constructor
    · constructor
      · intro herr
        by_contra hnot
        obtain ⟨out, hout⟩ := encodeSeg_ok ver e data ty encoder bits hb (by omega)
        rw [hout] at herr
        exact absurd herr (by simp)
      · exact fun hlen => encodeSeg_overflow ver e data ty encoder bits hb hlen
    · exact fun hlen => encodeSeg_ok ver e data ty encoder bits hb hlen
  · rcases scanVersions_spec e data ty encoder hvalid (List.range' 1 40) "Unknown error"
        pairwise_lt_range'_one_forty with ⟨v, out, hv1, hv2, hv3, hv4, hv5⟩ | ⟨hall, hres⟩
    · left
      have hvm := (mem_range'_one_forty v).mp hv1
      refine ⟨v, out, hvm.1, hvm.2, hv4, hv5, hv2, ?_⟩
      intro u h1 hlt bits hb
      exact hv3 u ((mem_range'_one_forty u).mpr ⟨h1, by omega⟩) hlt bits hb
    · right
      refine ⟨?_, ?_⟩
      · intro u h1 h2 bits hb
        exact hall u ((mem_range'_one_forty u).mpr ⟨h1, h2⟩) bits hb
      · rw [(by rfl : (List.range' 1 40).isEmpty = false)] at hres
        simp only [Bool.false_eq_true, if_false] at hres
        exact hres

theorem encode_capacity_version_spec_witness :
    (validSeg ['1'] EncodingType.numeric = true) ∧
    ((∀ ver : Nat, ∀ bits,
        segmentBits ver ['1'] EncodingType.numeric (fun _ => []) = .ok bits →
        ((encodeSeg ver ECLevel.low ['1'] EncodingType.numeric (fun _ => []) =
            .error "Capacity overflow" ↔
          (capacity ver ECLevel.low).capacity < bits.length) ∧
         (bits.length ≤ (capacity ver ECLevel.low).capacity →
          ∃ out, encodeSeg ver ECLevel.low ['1'] EncodingType.numeric (fun _ => []) =
            .ok out))) ∧
     ((∃ v out, 1 ≤ v ∧ v ≤ 40 ∧
         encodeQRSelect ECLevel.low ['1'] EncodingType.numeric (fun _ => []) =
           .ok (v, out) ∧
         encodeSeg v ECLevel.low ['1'] EncodingType.numeric (fun _ => []) = .ok out ∧
         (∀ bits, segmentBits v ['1'] EncodingType.numeric (fun _ => []) = .ok bits →
           bits.length ≤ (capacity v ECLevel.low).capacity) ∧
         (∀ u, 1 ≤ u → u < v →
           ∀ bits, segmentBits u ['1'] EncodingType.numeric (fun _ => []) = .ok bits →
           (capacity u ECLevel.low).capacity < bits.length)) ∨
       ((∀ u, 1 ≤ u → u ≤ 40 →
           ∀ bits, segmentBits u ['1'] EncodingType.numeric (fun _ => []) = .ok bits →
           (capacity u ECLevel.low).capacity < bits.length) ∧
         encodeQRSelect ECLevel.low ['1'] EncodingType.numeric (fun _ => []) =
           .error "Capacity overflow"))) :=
  ⟨by decide,
   encode_capacity_version_spec ECLevel.low ['1'] EncodingType.numeric
     (fun _ => []) (by decide)⟩

theorem map_penalty_ok (x : Except String Bitmap) (n : Nat)
    (h : x.map penalty = .ok n) : ∃ bm, x = .ok bm ∧ penalty bm = n := by
  cases x with
  | error err => simp [Except.map] at h
  | ok bm =>
    simp [Except.map] at h
    exact ⟨bm, rfl, h⟩

theorem best_fold_go (ver : Nat) (e : ECLevel) (data : List Nat) (pens : Nat → Nat) :
    ∀ (ms : List Nat), (∀ m ∈ ms, (drawQR ver e data m true).map penalty = .ok (pens m)) →
    List.Pairwise (· < ·) ms →
    ∀ s0 m0, (∀ m ∈ ms, m0 < m) →
    ∃ s2 m2, ms.foldl (bestStep ver e data) (.ok (some (s0, m0))) = .ok (some (s2, m2)) ∧
      (m2 = m0 ∨ m2 ∈ ms) ∧
      (s2 = if m2 = m0 then s0 else pens m2) ∧
      s2 ≤ s0 ∧ (∀ m ∈ ms, s2 ≤ pens m) ∧
      (m2 ≠ m0 → s2 < s0) ∧
      (∀ m ∈ ms, m < m2 → s2 < pens m) := by
  intro ms
  induction ms with
  | nil =>
    intro _ _ s0 m0 _
    refine ⟨s0, m0, rfl, Or.inl rfl, by simp, Nat.le_refl s0, ?_, ?_, ?_⟩
    · exact fun m hm => absurd hm (List.not_mem_nil m)
    · intro hne; exact absurd rfl hne
    · exact fun m hm => absurd hm (List.not_mem_nil m)
  | cons m1 rest ih =>
    intro hok hpw s0 m0 hm0
    rw [List.pairwise_cons] at hpw
    obtain ⟨hm1rest, hpwrest⟩ := hpw
    obtain ⟨bm, hbm, hpen⟩ := map_penalty_ok _ _ (hok m1 (List.mem_cons_self m1 rest))
    have hok' : ∀ m ∈ rest, (drawQR ver e data m true).map penalty = .ok (pens m) :=
      fun m hm => hok m (List.mem_cons_of_mem m1 hm)
    have hm01 : m0 < m1 := hm0 m1 (List.mem_cons_self m1 rest)
    rw [List.foldl_cons]
    have hstep : bestStep ver e data (.ok (some (s0, m0))) m1 =
        .ok (if pens m1 ≥ s0 then some (s0, m0) else some (pens m1, m1)) := by
      unfold bestStep
      rw [hbm]
      dsimp only
      rw [hpen]
    rw [hstep]
    by_cases hge : pens m1 ≥ s0
    · rw [if_pos hge]
      obtain ⟨s2, m2, h1, h2, h3, h4, h5, h6, h7⟩ := ih hok' hpwrest s0 m0
        (fun m hm => hm0 m (List.mem_cons_of_mem m1 hm))
      refine ⟨s2, m2, h1, ?_, h3, h4, ?_, h6, ?_⟩
      · rcases h2 with h | h
        · exact Or.inl h
        · exact Or.inr (List.mem_cons_of_mem m1 h)
      · intro m hm
        rcases List.mem_cons.mp hm with h | h
        · subst h; omega
        · exact h5 m h
      · intro m hm hlt
        rcases List.mem_cons.mp hm with h | h
        · have hne : m2 ≠ m0 := by
            rcases h2 with h9 | h9
            · omega
            · have := hm0 m2 (List.mem_cons_of_mem m1 h9)
              omega
          have := h6 hne
          rw [h]
          omega
        · exact h7 m h hlt
    · rw [if_neg hge]
      have hlt1 : pens m1 < s0 := by omega
      obtain ⟨s2, m2, h1, h2, h3, h4, h5, h6, h7⟩ := ih hok' hpwrest (pens m1) m1 hm1rest
      have hm2gt : m0 < m2 := by
        rcases h2 with h | h
        · omega
        · have := hm1rest m2 h
          omega
      refine ⟨s2, m2, h1, ?_, ?_, by omega, ?_, ?_, ?_⟩
      · rcases h2 with h | h
        · exact Or.inr (h ▸ List.mem_cons_self m1 rest)
        · exact Or.inr (List.mem_cons_of_mem m1 h)
      · rw [if_neg (by omega : ¬ m2 = m0)]
        by_cases hm2m1 : m2 = m1
        · rw [h3, if_pos hm2m1, hm2m1]
        · rw [h3, if_neg hm2m1]
      · intro m hm
        rcases List.mem_cons.mp hm with h | h
        · subst h; exact h4
        · exact h5 m h
      · intro _; omega
      · intro m hm hlt
        rcases List.mem_cons.mp hm with h | h
        · have hne : m2 ≠ m1 := by omega
          have := h6 hne
          rw [h]
          omega
        · exact h7 m h hlt

/-- C6: when no mask is fixed and the eight test draws score `pens 0 ..
pens 7`, the encoder selects a mask `m` with minimal penalty, every mask
of smaller index scoring strictly worse (lowest-index tie-break), and
returns exactly `drawQR` of that mask; the selection is a pure function of
`(version, ecc, data)`. -/
theorem mask_selection_spec (ver : Nat) (e : ECLevel) (data : List Nat) (pens : Nat → Nat)
    (h : ∀ m, m < 8 → (drawQR ver e data m true).map penalty = .ok (pens m)) :
    ∃ m, m < 8 ∧
      drawQRBest ver e data none = drawQR ver e data m false ∧
      (∀ m2, m2 < 8 → pens m ≤ pens m2) ∧
      (∀ m2, m2 < m → pens m < pens m2) := by
  obtain ⟨bm0, hbm0, hpen0⟩ := map_penalty_ok _ _ (h 0 (by omega))
  have hmem7 : ∀ m ∈ [1, 2, 3, 4, 5, 6, 7], m < 8 := by decide
  have hsplit : ∀ m2 : Nat, m2 < 8 → m2 = 0 ∨ m2 ∈ [1, 2, 3, 4, 5, 6, 7] := by decide
  obtain ⟨s2, m2, hfold, hmem, hs2, hle0, hlerest, hstrict0, hstrictrest⟩ :=
    best_fold_go ver e data pens [1, 2, 3, 4, 5, 6, 7]
      (fun m hm => h m (hmem7 m hm)) (by decide) (pens 0) 0 (by decide)
  have hs2pens : s2 = pens m2 := by
    by_cases hm20 : m2 = 0
    · rw [hs2, if_pos hm20, hm20]
    · rw [hs2, if_neg hm20]
  have hrange : (List.range 8).foldl (bestStep ver e data)
      (.ok (none : Option (Nat × Nat))) = .ok (some (s2, m2)) := by
    rw [(by decide : List.range 8 = 0 :: [1, 2, 3, 4, 5, 6, 7]), List.foldl_cons]
    have hstep0 : bestStep ver e data (.ok (none : Option (Nat × Nat))) 0 =
        .ok (some (pens 0, 0)) := by
      unfold bestStep
      rw [hbm0]
      dsimp only
      rw [hpen0]
    rw [hstep0]
    exact hfold
  refine ⟨m2, ?_, ?_, ?_, ?_⟩
  · rcases hmem with h9 | h9
    · omega
    · exact hmem7 m2 h9
  · unfold drawQRBest
    rw [hrange]
  · intro m3 hm3
    rcases hsplit m3 hm3 with h9 | h9
    · rw [← hs2pens, h9]
      exact hle0
    · rw [← hs2pens]
      exact hlerest m3 h9
  · intro m3 hm3
    have hm38 : m3 < 8 := by
      rcases hmem with h9 | h9
      · omega
      · have := hmem7 m2 h9
        omega
    rcases hsplit m3 hm38 with h9 | h9
    · have hne : m2 ≠ 0 := by omega
      rw [← hs2pens, h9]
      exact hstrict0 hne
    · rw [← hs2pens]
      exact hstrictrest m3 h9 hm3

set_option maxRecDepth 100000 in
theorem c6zsplit : zigzagPoints c6tpl.height =
    c6zz0 ++ (c6zz1 ++ (c6zz2 ++ (c6zz3 ++ (c6zz4 ++ (c6zz5 ++ c6zz6))))) := by decide

set_option maxRecDepth 100000 in
theorem c6tpl0 : drawTemplate 1 ECLevel.medium 0 true = c6tpl := by decide

set_option maxRecDepth 100000 in
theorem c6m0_1 : c6zz0.foldl (zigzagStep c6data (8 * c6data.length) 0)
    (c6tpl, 0) = (c6mid0_1, 24) := by decide

set_option maxRecDepth 100000 in
theorem c6m0_2 : c6zz1.foldl (zigzagStep c6data (8 * c6data.length) 0)
    (c6mid0_1, 24) = (c6mid0_2, 72) := by decide

set_option maxRecDepth 100000 in
theorem c6m0_3 : c6zz2.foldl (zigzagStep c6data (8 * c6data.length) 0)
    (c6mid0_2, 72) = (c6mid0_3, 108) := by decide

set_option maxRecDepth 100000 in
theorem c6m0_4 : c6zz3.foldl (zigzagStep c6data (8 * c6data.length) 0)
    (c6mid0_3, 108) = (c6mid0_4, 164) := by decide

set_option maxRecDepth 100000 in
theorem c6m0_5 : c6zz4.foldl (zigzagStep c6data (8 * c6data.length) 0)
    (c6mid0_4, 164) = (c6mid0_5, 184) := by decide

set_option maxRecDepth 100000 in
theorem c6m0_6 : c6zz5.foldl (zigzagStep c6data (8 * c6data.length) 0)
    (c6mid0_5, 184) = (c6mid0_6, 200) := by decide

set_option maxRecDepth 100000 in
theorem c6m0_7 : c6zz6.foldl (zigzagStep c6data (8 * c6data.length) 0)
    (c6mid0_6, 200) = (c6bm0, 208) := by decide

set_option maxRecDepth 100000 in
theorem c6fold0 : (zigzagPoints c6tpl.height).foldl
    (zigzagStep c6data (8 * c6data.length) 0) (c6tpl, 0) =
    (c6bm0, 8 * c6data.length) := by
  rw [c6zsplit, List.foldl_append, List.foldl_append, List.foldl_append,
    List.foldl_append, List.foldl_append, List.foldl_append, c6m0_1, c6m0_2,
    c6m0_3, c6m0_4, c6m0_5, c6m0_6, c6m0_7]
  decide

set_option maxRecDepth 100000 in
theorem c6draw0 : drawQR 1 ECLevel.medium c6data 0 true = .ok c6bm0 := by
  unfold drawQR
  rw [c6tpl0]
  dsimp only
  rw [c6fold0]
  decide

set_option maxRecDepth 100000 in
theorem c6pen0 : c6penAt 0 = .ok 400 := by
  unfold c6penAt
  rw [c6draw0]
  decide

set_option maxRecDepth 100000 in
theorem c6tpl1 : drawTemplate 1 ECLevel.medium 1 true = c6tpl := by decide

set_option maxRecDepth 100000 in
theorem c6m1_1 : c6zz0.foldl (zigzagStep c6data (8 * c6data.length) 1)
    (c6tpl, 0) = (c6mid1_1, 24) := by decide

set_option maxRecDepth 100000 in
theorem c6m1_2 : c6zz1.foldl (zigzagStep c6data (8 * c6data.length) 1)
    (c6mid1_1, 24) = (c6mid1_2, 72) := by decide

set_option maxRecDepth 100000 in
theorem c6m1_3 : c6zz2.foldl (zigzagStep c6data (8 * c6data.length) 1)
    (c6mid1_2, 72) = (c6mid1_3, 108) := by decide

set_option maxRecDepth 100000 in
theorem c6m1_4 : c6zz3.foldl (zigzagStep c6data (8 * c6data.length) 1)
    (c6mid1_3, 108) = (c6mid1_4, 164) := by decide

set_option maxRecDepth 100000 in
theorem c6m1_5 : c6zz4.foldl (zigzagStep c6data (8 * c6data.length) 1)
    (c6mid1_4, 164) = (c6mid1_5, 184) := by decide

set_option maxRecDepth 100000 in
theorem c6m1_6 : c6zz5.foldl (zigzagStep c6data (8 * c6data.length) 1)
    (c6mid1_5, 184) = (c6mid1_6, 200) := by decide

set_option maxRecDepth 100000 in
theorem c6m1_7 : c6zz6.foldl (zigzagStep c6data (8 * c6data.length) 1)
    (c6mid1_6, 200) = (c6bm1, 208) := by decide

set_option maxRecDepth 100000 in
theorem c6fold1 : (zigzagPoints c6tpl.height).foldl
    (zigzagStep c6data (8 * c6data.length) 1) (c6tpl, 0) =
    (c6bm1, 8 * c6data.length) := by
  rw [c6zsplit, List.foldl_append, List.foldl_append, List.foldl_append,
    List.foldl_append, List.foldl_append, List.foldl_append, c6m1_1, c6m1_2,
    c6m1_3, c6m1_4, c6m1_5, c6m1_6, c6m1_7]
  decide

set_option maxRecDepth 100000 in
theorem c6draw1 : drawQR 1 ECLevel.medium c6data 1 true = .ok c6bm1 := by
  unfold drawQR
  rw [c6tpl1]
  dsimp only
  rw [c6fold1]
  decide

set_option maxRecDepth 100000 in
theorem c6pen1 : c6penAt 1 = .ok 522 := by
  unfold c6penAt
  rw [c6draw1]
  decide

set_option maxRecDepth 100000 in
theorem c6tpl2 : drawTemplate 1 ECLevel.medium 2 true = c6tpl := by decide

set_option maxRecDepth 100000 in
theorem c6m2_1 : c6zz0.foldl (zigzagStep c6data (8 * c6data.length) 2)
    (c6tpl, 0) = (c6mid2_1, 24) := by decide

set_option maxRecDepth 100000 in
theorem c6m2_2 : c6zz1.foldl (zigzagStep c6data (8 * c6data.length) 2)
    (c6mid2_1, 24) = (c6mid2_2, 72) := by decide

set_option maxRecDepth 100000 in
theorem c6m2_3 : c6zz2.foldl (zigzagStep c6data (8 * c6data.length) 2)
    (c6mid2_2, 72) = (c6mid2_3, 108) := by decide

set_option maxRecDepth 100000 in
theorem c6m2_4 : c6zz3.foldl (zigzagStep c6data (8 * c6data.length) 2)
    (c6mid2_3, 108) = (c6mid2_4, 164) := by decide

set_option maxRecDepth 100000 in
theorem c6m2_5 : c6zz4.foldl (zigzagStep c6data (8 * c6data.length) 2)
    (c6mid2_4, 164) = (c6mid2_5, 184) := by decide

set_option maxRecDepth 100000 in
theorem c6m2_6 : c6zz5.foldl (zigzagStep c6data (8 * c6data.length) 2)
    (c6mid2_5, 184) = (c6mid2_6, 200) := by decide

set_option maxRecDepth 100000 in
theorem c6m2_7 : c6zz6.foldl (zigzagStep c6data (8 * c6data.length) 2)
    (c6mid2_6, 200) = (c6bm2, 208) := by decide

set_option maxRecDepth 100000 in
theorem c6fold2 : (zigzagPoints c6tpl.height).foldl
    (zigzagStep c6data (8 * c6data.length) 2) (c6tpl, 0) =
    (c6bm2, 8 * c6data.length) := by
  rw [c6zsplit, List.foldl_append, List.foldl_append, List.foldl_append,
    List.foldl_append, List.foldl_append, List.foldl_append, c6m2_1, c6m2_2,
    c6m2_3, c6m2_4, c6m2_5, c6m2_6, c6m2_7]
  decide

set_option maxRecDepth 100000 in
theorem c6draw2 : drawQR 1 ECLevel.medium c6data 2 true = .ok c6bm2 := by
  unfold drawQR
  rw [c6tpl2]
  dsimp only
  rw [c6fold2]
  decide

set_option maxRecDepth 100000 in
theorem c6pen2 : c6penAt 2 = .ok 486 := by
  unfold c6penAt
  rw [c6draw2]
  decide

set_option maxRecDepth 100000 in
theorem c6tpl3 : drawTemplate 1 ECLevel.medium 3 true = c6tpl := by decide

set_option maxRecDepth 100000 in
theorem c6m3_1 : c6zz0.foldl (zigzagStep c6data (8 * c6data.length) 3)
    (c6tpl, 0) = (c6mid3_1, 24) := by decide

set_option maxRecDepth 100000 in
theorem c6m3_2 : c6zz1.foldl (zigzagStep c6data (8 * c6data.length) 3)
    (c6mid3_1, 24) = (c6mid3_2, 72) := by decide

set_option maxRecDepth 100000 in
theorem c6m3_3 : c6zz2.foldl (zigzagStep c6data (8 * c6data.length) 3)
    (c6mid3_2, 72) = (c6mid3_3, 108) := by decide

set_option maxRecDepth 100000 in
theorem c6m3_4 : c6zz3.foldl (zigzagStep c6data (8 * c6data.length) 3)
    (c6mid3_3, 108) = (c6mid3_4, 164) := by decide

set_option maxRecDepth 100000 in
theorem c6m3_5 : c6zz4.foldl (zigzagStep c6data (8 * c6data.length) 3)
    (c6mid3_4, 164) = (c6mid3_5, 184) := by decide

set_option maxRecDepth 100000 in
theorem c6m3_6 : c6zz5.foldl (zigzagStep c6data (8 * c6data.length) 3)
    (c6mid3_5, 184) = (c6mid3_6, 200) := by decide

set_option maxRecDepth 100000 in
theorem c6m3_7 : c6zz6.foldl (zigzagStep c6data (8 * c6data.length) 3)
    (c6mid3_6, 200) = (c6bm3, 208) := by decide

set_option maxRecDepth 100000 in
theorem c6fold3 : (zigzagPoints c6tpl.height).foldl
    (zigzagStep c6data (8 * c6data.length) 3) (c6tpl, 0) =
    (c6bm3, 8 * c6data.length) := by
  rw [c6zsplit, List.foldl_append, List.foldl_append, List.foldl_append,
    List.foldl_append, List.foldl_append, List.foldl_append, c6m3_1, c6m3_2,
    c6m3_3, c6m3_4, c6m3_5, c6m3_6, c6m3_7]
  decide

set_option maxRecDepth 100000 in
theorem c6draw3 : drawQR 1 ECLevel.medium c6data 3 true = .ok c6bm3 := by
  unfold drawQR
  rw [c6tpl3]
  dsimp only
  rw [c6fold3]
  decide

set_option maxRecDepth 100000 in
theorem c6pen3 : c6penAt 3 = .ok 559 := by
  unfold c6penAt
  rw [c6draw3]
  decide

set_option maxRecDepth 100000 in
theorem c6tpl4 : drawTemplate 1 ECLevel.medium 4 true = c6tpl := by decide

set_option maxRecDepth 100000 in
theorem c6m4_1 : c6zz0.foldl (zigzagStep c6data (8 * c6data.length) 4)
    (c6tpl, 0) = (c6mid4_1, 24) := by decide

set_option maxRecDepth 100000 in
theorem c6m4_2 : c6zz1.foldl (zigzagStep c6data (8 * c6data.length) 4)
    (c6mid4_1, 24) = (c6mid4_2, 72) := by decide

set_option maxRecDepth 100000 in
theorem c6m4_3 : c6zz2.foldl (zigzagStep c6data (8 * c6data.length) 4)
    (c6mid4_2, 72) = (c6mid4_3, 108) := by decide

set_option maxRecDepth 100000 in
theorem c6m4_4 : c6zz3.foldl (zigzagStep c6data (8 * c6data.length) 4)
    (c6mid4_3, 108) = (c6mid4_4, 164) := by decide

set_option maxRecDepth 100000 in
theorem c6m4_5 : c6zz4.foldl (zigzagStep c6data (8 * c6data.length) 4)
    (c6mid4_4, 164) = (c6mid4_5, 184) := by decide

set_option maxRecDepth 100000 in
theorem c6m4_6 : c6zz5.foldl (zigzagStep c6data (8 * c6data.length) 4)
    (c6mid4_5, 184) = (c6mid4_6, 200) := by decide

set_option maxRecDepth 100000 in
theorem c6m4_7 : c6zz6.foldl (zigzagStep c6data (8 * c6data.length) 4)
    (c6mid4_6, 200) = (c6bm4, 208) := by decide

set_option maxRecDepth 100000 in
theorem c6fold4 : (zigzagPoints c6tpl.height).foldl
    (zigzagStep c6data (8 * c6data.length) 4) (c6tpl, 0) =
    (c6bm4, 8 * c6data.length) := by
  rw [c6zsplit, List.foldl_append, List.foldl_append, List.foldl_append,
    List.foldl_append, List.foldl_append, List.foldl_append, c6m4_1, c6m4_2,
    c6m4_3, c6m4_4, c6m4_5, c6m4_6, c6m4_7]
  decide

set_option maxRecDepth 100000 in
theorem c6draw4 : drawQR 1 ECLevel.medium c6data 4 true = .ok c6bm4 := by
  unfold drawQR
  rw [c6tpl4]
  dsimp only
  rw [c6fold4]
  decide

set_option maxRecDepth 100000 in
theorem c6pen4 : c6penAt 4 = .ok 531 := by
  unfold c6penAt
  rw [c6draw4]
  decide

set_option maxRecDepth 100000 in
theorem c6tpl5 : drawTemplate 1 ECLevel.medium 5 true = c6tpl := by decide

set_option maxRecDepth 100000 in
theorem c6m5_1 : c6zz0.foldl (zigzagStep c6data (8 * c6data.length) 5)
    (c6tpl, 0) = (c6mid5_1, 24) := by decide

set_option maxRecDepth 100000 in
theorem c6m5_2 : c6zz1.foldl (zigzagStep c6data (8 * c6data.length) 5)
    (c6mid5_1, 24) = (c6mid5_2, 72) := by decide

set_option maxRecDepth 100000 in
theorem c6m5_3 : c6zz2.foldl (zigzagStep c6data (8 * c6data.length) 5)
    (c6mid5_2, 72) = (c6mid5_3, 108) := by decide

set_option maxRecDepth 100000 in
theorem c6m5_4 : c6zz3.foldl (zigzagStep c6data (8 * c6data.length) 5)
    (c6mid5_3, 108) = (c6mid5_4, 164) := by decide

set_option maxRecDepth 100000 in
theorem c6m5_5 : c6zz4.foldl (zigzagStep c6data (8 * c6data.length) 5)
    (c6mid5_4, 164) = (c6mid5_5, 184) := by decide

set_option maxRecDepth 100000 in
theorem c6m5_6 : c6zz5.foldl (zigzagStep c6data (8 * c6data.length) 5)
    (c6mid5_5, 184) = (c6mid5_6, 200) := by decide

set_option maxRecDepth 100000 in
theorem c6m5_7 : c6zz6.foldl (zigzagStep c6data (8 * c6data.length) 5)
    (c6mid5_6, 200) = (c6bm5, 208) := by decide

set_option maxRecDepth 100000 in
theorem c6fold5 : (zigzagPoints c6tpl.height).foldl
    (zigzagStep c6data (8 * c6data.length) 5) (c6tpl, 0) =
    (c6bm5, 8 * c6data.length) := by
  rw [c6zsplit, List.foldl_append, List.foldl_append, List.foldl_append,
    List.foldl_append, List.foldl_append, List.foldl_append, c6m5_1, c6m5_2,
    c6m5_3, c6m5_4, c6m5_5, c6m5_6, c6m5_7]
  decide

set_option maxRecDepth 100000 in
theorem c6draw5 : drawQR 1 ECLevel.medium c6data 5 true = .ok c6bm5 := by
  unfold drawQR
  rw [c6tpl5]
  dsimp only
  rw [c6fold5]
  decide

set_option maxRecDepth 100000 in
theorem c6pen5 : c6penAt 5 = .ok 534 := by
  unfold c6penAt
  rw [c6draw5]
  decide

set_option maxRecDepth 100000 in
theorem c6tpl6 : drawTemplate 1 ECLevel.medium 6 true = c6tpl := by decide

set_option maxRecDepth 100000 in
theorem c6m6_1 : c6zz0.foldl (zigzagStep c6data (8 * c6data.length) 6)
    (c6tpl, 0) = (c6mid6_1, 24) := by decide

set_option maxRecDepth 100000 in
theorem c6m6_2 : c6zz1.foldl (zigzagStep c6data (8 * c6data.length) 6)
    (c6mid6_1, 24) = (c6mid6_2, 72) := by decide

set_option maxRecDepth 100000 in
theorem c6m6_3 : c6zz2.foldl (zigzagStep c6data (8 * c6data.length) 6)
    (c6mid6_2, 72) = (c6mid6_3, 108) := by decide

set_option maxRecDepth 100000 in
theorem c6m6_4 : c6zz3.foldl (zigzagStep c6data (8 * c6data.length) 6)
    (c6mid6_3, 108) = (c6mid6_4, 164) := by decide

set_option maxRecDepth 100000 in
theorem c6m6_5 : c6zz4.foldl (zigzagStep c6data (8 * c6data.length) 6)
    (c6mid6_4, 164) = (c6mid6_5, 184) := by decide

set_option maxRecDepth 100000 in
theorem c6m6_6 : c6zz5.foldl (zigzagStep c6data (8 * c6data.length) 6)
    (c6mid6_5, 184) = (c6mid6_6, 200) := by decide

set_option maxRecDepth 100000 in
theorem c6m6_7 : c6zz6.foldl (zigzagStep c6data (8 * c6data.length) 6)
    (c6mid6_6, 200) = (c6bm6, 208) := by decide

set_option maxRecDepth 100000 in
theorem c6fold6 : (zigzagPoints c6tpl.height).foldl
    (zigzagStep c6data (8 * c6data.length) 6) (c6tpl, 0) =
    (c6bm6, 8 * c6data.length) := by
  rw [c6zsplit, List.foldl_append, List.foldl_append, List.foldl_append,
    List.foldl_append, List.foldl_append, List.foldl_append, c6m6_1, c6m6_2,
    c6m6_3, c6m6_4, c6m6_5, c6m6_6, c6m6_7]
  decide

set_option maxRecDepth 100000 in
theorem c6draw6 : drawQR 1 ECLevel.medium c6data 6 true = .ok c6bm6 := by
  unfold drawQR
  rw [c6tpl6]
  dsimp only
  rw [c6fold6]
  decide

set_option maxRecDepth 100000 in
theorem c6pen6 : c6penAt 6 = .ok 604 := by
  unfold c6penAt
  rw [c6draw6]
  decide

set_option maxRecDepth 100000 in
theorem c6tpl7 : drawTemplate 1 ECLevel.medium 7 true = c6tpl := by decide

set_option maxRecDepth 100000 in
theorem c6m7_1 : c6zz0.foldl (zigzagStep c6data (8 * c6data.length) 7)
    (c6tpl, 0) = (c6mid7_1, 24) := by decide

set_option maxRecDepth 100000 in
theorem c6m7_2 : c6zz1.foldl (zigzagStep c6data (8 * c6data.length) 7)
    (c6mid7_1, 24) = (c6mid7_2, 72) := by decide

set_option maxRecDepth 100000 in
theorem c6m7_3 : c6zz2.foldl (zigzagStep c6data (8 * c6data.length) 7)
    (c6mid7_2, 72) = (c6mid7_3, 108) := by decide

set_option maxRecDepth 100000 in
theorem c6m7_4 : c6zz3.foldl (zigzagStep c6data (8 * c6data.length) 7)
    (c6mid7_3, 108) = (c6mid7_4, 164) := by decide

set_option maxRecDepth 100000 in
theorem c6m7_5 : c6zz4.foldl (zigzagStep c6data (8 * c6data.length) 7)
    (c6mid7_4, 164) = (c6mid7_5, 184) := by decide

set_option maxRecDepth 100000 in
theorem c6m7_6 : c6zz5.foldl (zigzagStep c6data (8 * c6data.length) 7)
    (c6mid7_5, 184) = (c6mid7_6, 200) := by decide

set_option maxRecDepth 100000 in
theorem c6m7_7 : c6zz6.foldl (zigzagStep c6data (8 * c6data.length) 7)
    (c6mid7_6, 200) = (c6bm7, 208) := by decide

set_option maxRecDepth 100000 in
theorem c6fold7 : (zigzagPoints c6tpl.height).foldl
    (zigzagStep c6data (8 * c6data.length) 7) (c6tpl, 0) =
    (c6bm7, 8 * c6data.length) := by
  rw [c6zsplit, List.foldl_append, List.foldl_append, List.foldl_append,
    List.foldl_append, List.foldl_append, List.foldl_append, c6m7_1, c6m7_2,
    c6m7_3, c6m7_4, c6m7_5, c6m7_6, c6m7_7]
  decide

set_option maxRecDepth 100000 in
theorem c6draw7 : drawQR 1 ECLevel.medium c6data 7 true = .ok c6bm7 := by
  unfold drawQR
  rw [c6tpl7]
  dsimp only
  rw [c6fold7]
  decide

set_option maxRecDepth 100000 in
theorem c6pen7 : c6penAt 7 = .ok 482 := by
  unfold c6penAt
  rw [c6draw7]
  decide

theorem c6hyp : ∀ m, m < 8 →
    (drawQR 1 ECLevel.medium c6data m true).map penalty = .ok (c6pens m) := by
  intro m hm
  have h8 : m = 0 ∨ m = 1 ∨ m = 2 ∨ m = 3 ∨ m = 4 ∨ m = 5 ∨ m = 6 ∨ m = 7 := by
    omega
  rcases h8 with rfl | rfl | rfl | rfl | rfl | rfl | rfl | rfl
  · exact c6pen0
  · exact c6pen1
  · exact c6pen2
  · exact c6pen3
  · exact c6pen4
  · exact c6pen5
  · exact c6pen6
  · exact c6pen7

theorem mask_selection_spec_witness :
    (∀ m, m < 8 → (drawQR 1 ECLevel.medium c6data m true).map penalty =
      .ok (c6pens m)) ∧
    (∃ m, m < 8 ∧
      drawQRBest 1 ECLevel.medium c6data none =
        drawQR 1 ECLevel.medium c6data m false ∧
      (∀ m2, m2 < 8 → c6pens m ≤ c6pens m2) ∧
      (∀ m2, m2 < m → c6pens m < c6pens m2)) :=
  ⟨c6hyp, mask_selection_spec 1 ECLevel.medium c6data c6pens c6hyp⟩
